import Mathlib

/-!
# VectorAudio: session / frequency / event coordination

A shallow embedding of `src/src/application.cpp` (class `App`): the event
dispatcher `App::eventCallback`, the cleanup primitive
`App::disconnectAndCleanup`, the per-frame coordination pass
`App::render_frame` and the request handler of `App::buildSDKServer`.

Conventions of the embedding.

* The namespace-level variables of `shared::` and the members of `App` that
  the coordination code reads or writes are the fields of `AppState`.
* The voice engine (`mClient_`, an `afv_native::api::atcClient`) is external.
  Every command the application issues to it is appended to `AppState.calls`;
  every query is answered by an `Adapter`, whose answers may depend on the
  commands issued so far.
* A frequency is the 32-bit value the engine's interface carries
  (`unsigned int` in the event payloads); the conversions between `int` and
  `unsigned int` at `StationElement::build` and `frequencyExists` keep that
  value, so equality of frequencies is equality of these numbers.
* A `void*` payload slot is an `Option`: `none` is the null pointer.  A
  handler that dereferences a null payload, or reads `back()` of an empty
  string, has no defined result: the embedding returns `none`.
* Logging (`spdlog`) and drawing (`ImGui` layout, styles) have no effect on
  the modelled state and are left out; the return values of the widgets are
  inputs of the pass (`FrameInput`).
-/

namespace VectorAudio

/-! ## Data model -/

/-- A station of the registry (`shared::StationElement`). -/
structure StationElement where
  freq : Nat
  callsign : String
  human_freq : String
  transceivers : Int
deriving DecidableEq

/-- The helpers and constants of `util.h` and `shared.h` that the application
uses; the two headers are not among the sources, so they are parameters of the
embedding. -/
structure Util where
  isValid8_33kHzChannel : Nat → Bool
  round8_33kHzChannel : Nat → Nat
  cleanUpFrequency : Nat → Nat
  ReplaceString : String → String → String → String
  humanFreq : Nat → String
  kUnicomFrequency : Nat
  kClientName : String

/-- Modelled from the spec: `StationElement::build` (declared in `shared.h`,
which is not among the sources).  A station is created with the given callsign
and frequency, a display frequency derived from the frequency, and a
transceiver count of `-1` (unknown until refreshed). -/
def StationElement.build (U : Util) (callsign : String) (freq : Nat) : StationElement :=
  { freq := freq, callsign := callsign, human_freq := U.humanFreq freq, transceivers := -1 }

/-- Keyboard scancode of the push-to-talk binding (`sf::Keyboard::Scancode`). -/
inductive Scancode where
  | Unknown
  | key (code : Nat)
deriving DecidableEq

/-- The variables of `shared::session`. -/
structure Session where
  callsign : String
  frequency : Nat
  facility : Int
  latitude : Rat
  longitude : Rat
  is_connected : Bool
deriving DecidableEq

/-- A command issued to the voice engine through `mClient_`. -/
inductive ClientCall where
  | Disconnect
  | StopAudio
  | Connect
  | RemoveFrequency (freq : Nat)
  | AddFrequency (freq : Nat) (callsign : String)
  | SetEnableInputFilters (enabled : Bool)
  | SetEnableOutputEffects (enabled : Bool)
  | UseTransceiversFromStation (callsign : String) (freq : Nat)
  | SetRx (freq : Nat) (enabled : Bool)
  | SetTx (freq : Nat) (enabled : Bool)
  | SetXc (freq : Nat) (enabled : Bool)
  | SetOnHeadset (freq : Nat) (enabled : Bool)
  | FetchStationVccs (callsign : String)
  | FetchTransceiverInfo (callsign : String)
  | GetStation (callsign : String)
  | SetRadiosGain (percent : Int)
  | SetPtt (pttState : Bool)
  | SetClientPosition (lat lon : Rat) (heightMsl heightAgl : Int)
  | SetAudioApi (api : Int)
  | SetAudioInputDevice (name : String)
  | SetAudioOutputDevice (name : String)
  | SetAudioSpeakersOutputDevice (name : String)
  | SetHardware (hardware : Int)
  | SetHeadsetOutputChannel (channel : Int)
  | SetCredentials (cid : String) (password : String)
  | SetCallsign (callsign : String)
deriving DecidableEq

/-- The answers of the voice engine to the queries of the application.  Each
answer may depend on the commands issued so far (the first argument). -/
structure Adapter where
  IsVoiceConnected : List ClientCall → Bool
  IsAPIConnected : List ClientCall → Bool
  IsAudioRunning : List ClientCall → Bool
  GetRxState : List ClientCall → Nat → Bool
  GetTxState : List ClientCall → Nat → Bool
  GetXcState : List ClientCall → Nat → Bool
  GetRxActive : List ClientCall → Nat → Bool
  GetTxActive : List ClientCall → Nat → Bool
  GetOnHeadset : List ClientCall → Nat → Bool
  IsFrequencyActive : List ClientCall → Nat → Bool
  GetTransceiverCountForStation : List ClientCall → String → Int

/-- The state the coordination code reads and writes: the `shared::`
variables, the members of `App`, and the record of the effects on the
environment (`calls`: commands to the engine, `errorSounds`: invocations of
`playErrorSound`, `errorPopups`: messages of the error popups opened). -/
structure AppState where
  FetchedStations : List StationElement
  bootUpVccs : Bool
  last_rx_close : Nat
  isPttOpen : Bool
  station_auto_add_callsign : String
  currentlyTransmittingApiData : String
  currentlyTransmittingApiTimer : Int
  RadioGain : Int
  session : Session
  ptt : Scancode
  joyStickId : Int
  joyStickPtt : Int
  mInputFilter : Bool
  mOutputEffects : Bool
  vatsim_cid : Int
  vatsim_password : String
  hardware : Int
  headsetOutputChannel : Int
  manuallyDisconnected_ : Bool
  showErrorModal_ : Bool
  lastErrorModalMessage_ : String
  calls : List ClientCall
  errorSounds : Nat
  errorPopups : List String
deriving DecidableEq

/-- The payload of an `APIServerError` event, a value of
`afv_native::afv::APISessionError`.  The declaration of the enum is not among
the sources: the first seven kinds are the enumerators the handler names, and
`Other` stands for every value of the enum the handler names none of. -/
inductive APISessionError where
  | BadPassword
  | RejectedCredentials
  | ConnectionError
  | BadRequestOrClientIncompatible
  | InvalidAuthToken
  | AuthTokenExpiryTimeInPast
  | OtherRequestError
  | Other
deriving DecidableEq

/-- An event raised by the engine, with its two payload slots typed the way
the handler reinterprets them.  A `std::map<std::string, unsigned int>` is the
list of its entries in iteration order.  `Other` stands for the event kinds
that `eventCallback` has no case for. -/
inductive ClientEvent where
  | VccsReceived (data : Option Unit) (data2 : Option (List (String × Nat)))
  | StationTransceiversUpdated (data : Option String)
  | APIServerError (data : Option APISessionError)
  | AudioError
  | VoiceServerDisconnected
  | VoiceServerError (data : Option Int)
  | VoiceServerChannelError (data : Option Int)
  | AudioDeviceStoppedError (data : Option String)
  | StationDataReceived (data : Option Bool) (data2 : Option (String × Nat))
  | RxClosed (data : Option Nat)
  | Other

/-! ## Primitives of `App` -/

/-- `App::errorModal`. -/
def errorModal (message : String) (s : AppState) : AppState :=
  { s with showErrorModal_ := true, lastErrorModalMessage_ := message }

/-- Modelled from the spec: `App::playErrorSound` (declared in
`application.h`, which is not among the sources) is the audible failure
notification; the embedding counts its invocations. -/
def playErrorSound (s : AppState) : AppState :=
  { s with errorSounds := s.errorSounds + 1 }

/-- `App::frequencyExists`, on the registry. -/
def frequencyExists (stations : List StationElement) (freq : Nat) : Bool :=
  stations.any (fun obj => obj.freq == freq)

/-- The guarded insertion `if (!frequencyExists(el.freq)) push_back(el)`. -/
def pushIfNew (el : StationElement) (s : AppState) : AppState :=
  if !frequencyExists s.FetchedStations el.freq then
    { s with FetchedStations := s.FetchedStations ++ [el] }
  else s

/-- `App::disconnectAndCleanup`; `mClient_` is `none` when the engine client
could not be created. -/
def disconnectAndCleanup (mClient_ : Option Adapter) (s : AppState) : AppState :=
  match mClient_ with
  | none => s
  | some _ =>
    { s with
      calls := s.calls ++ [ClientCall.Disconnect, ClientCall.StopAudio]
        ++ s.FetchedStations.map (fun f => ClientCall.RemoveFrequency f.freq)
      FetchedStations := []
      bootUpVccs := false }

/-! ## The event dispatcher -/

/-- The frequency normalization of the `VccsReceived` loop. -/
def vccsFrequency (U : Util) (f : Nat) : Nat :=
  if !U.isValid8_33kHzChannel f then U.round8_33kHzChannel f else f

/-- One iteration of the `VccsReceived` loop. -/
def vccsAdd (U : Util) (s : AppState) (entry : String × Nat) : AppState :=
  pushIfNew (StationElement.build U entry.1 (vccsFrequency U entry.2)) s

/-- The update of `StationTransceiversUpdated`: `std::find_if` on the callsign,
then the assignment to the element found. -/
def setTransceivers (station : String) (count : Int) :
    List StationElement → List StationElement
  | [] => []
  | fs :: rest =>
    if fs.callsign = station then { fs with transceivers := count } :: rest
    else fs :: setTransceivers station count rest

/-- The `APIServerError` case: the chain of `if`s on the error kind. -/
def apiServerError (a : Adapter) (err : APISessionError) (s : AppState) : AppState :=
  let s1 :=
    if err = .BadPassword ∨ err = .RejectedCredentials then
      errorModal "Could not login to VATSIM.\nInvalid Credentials.\nCheck your password/cid!" s
    else s
  let s2 :=
    if err = .ConnectionError then
      playErrorSound (disconnectAndCleanup (some a) (errorModal
        "Could not login to VATSIM.\nConnection Error.\nCheck your internet connection." s1))
    else s1
  let s3 :=
    if err = .BadRequestOrClientIncompatible then
      playErrorSound (disconnectAndCleanup (some a) (errorModal
        "Could not login to VATSIM.\n Bad Request or Client Incompatible." s2))
    else s2
  let s4 :=
    if err = .InvalidAuthToken then
      playErrorSound (disconnectAndCleanup (some a) (errorModal
        "Could not login to VATSIM.\n Invalid Auth Token." s3))
    else s3
  let s5 :=
    if err = .AuthTokenExpiryTimeInPast then
      playErrorSound (disconnectAndCleanup (some a) (errorModal
        "Could not login to VATSIM.\n Auth Token has expired.\n Check your system clock." s4))
    else s4
  if err = .OtherRequestError then
    playErrorSound (disconnectAndCleanup (some a) (errorModal
      "Could not login to VATSIM.\n Unknown Error." s5))
  else s5

/-- `App::eventCallback`.  The callback is registered on the engine client in
the constructor, after the client was created, so it runs with a client
present (`a`).  The result is `none` where the handler dereferences a null
payload. -/
def eventCallback (U : Util) (a : Adapter) (evt : ClientEvent) (s : AppState) :
    Option AppState :=
  match evt with
  | .VccsReceived data data2 =>
    match data, data2 with
    | some _, some stations =>
      if a.IsVoiceConnected s.calls then some (stations.foldl (vccsAdd U) s)
      else some s
    | _, _ => some s
  | .StationTransceiversUpdated data =>
    match data with
    | some station =>
      if s.FetchedStations.any (fun fs => fs.callsign == station) then
        let count := a.GetTransceiverCountForStation s.calls station
        some { s with FetchedStations := setTransceivers station count s.FetchedStations }
      else some s
    | none => some s
  | .APIServerError data =>
    match data with
    | some err => some (apiServerError a err s)
    | none => some s
  | .AudioError =>
    some (disconnectAndCleanup (some a) (errorModal
      "Error starting audio devices.\nPlease check your log file for details.\nCheck your audio config!"
      s))
  | .VoiceServerDisconnected =>
    some { (if !s.manuallyDisconnected_ then playErrorSound s else s) with
      manuallyDisconnected_ := false }
  | .VoiceServerError data =>
    match data with
    | some err_code =>
      some (playErrorSound (disconnectAndCleanup (some a) (errorModal
        ("Voice server returned error " ++ toString err_code ++ ", please check the log file.")
        s)))
    | none => none
  | .VoiceServerChannelError data =>
    match data with
    | some err_code =>
      some (playErrorSound (disconnectAndCleanup (some a) (errorModal
        ("Voice server returned channel error " ++ toString err_code
          ++ ", please check the log file.")
        s)))
    | none => none
  | .AudioDeviceStoppedError data =>
    match data with
    | some device =>
      some (playErrorSound (disconnectAndCleanup (some a) (errorModal
        ("The audio device " ++ device
          ++ " has stopped working , check if they are still physically connected.")
        s)))
    | none => none
  | .StationDataReceived data data2 =>
    match data, data2 with
    | some found, some station =>
      if found then
        some (pushIfNew (StationElement.build U station.1 (U.cleanUpFrequency station.2)) s)
      else some (errorModal "Could not find station in database." s)
    | _, _ => some s
  | .RxClosed data =>
    match data with
    | some freq => some { s with last_rx_close := freq }
    | none => some s
  | .Other => some s

/-! ## The status server -/

/-- Method of an HTTP request. -/
inductive HttpMethod where
  | GET
  | HEAD
  | POST
  | PUT
  | DELETE
deriving DecidableEq

/-- The part of a request the handler looks at. -/
structure Request where
  method : HttpMethod
  request_target : String
deriving DecidableEq

/-- `std::string::back()`: the last character; undefined (`none`) on the
empty string. -/
def strBack (s : String) : Option Char :=
  s.data.getLast?

/-- `std::string::pop_back()`. -/
def strPopBack (s : String) : String :=
  String.mk s.data.dropLast

/-- One iteration of the loop `out += f.callsign + ":" + f.human_freq + ","`. -/
def appendPair (out : String) (f : StationElement) : String :=
  out ++ (f.callsign ++ ":" ++ f.human_freq ++ ",")

/-- The body built from the selected stations `bar` by the `/rx` and `/tx`
handlers: the loop under `if (!bar.empty())`, then
`if (out.back() == ',') out.pop_back();`. -/
def stationListBody (bar : List StationElement) : Option String :=
  let out := if !bar.isEmpty then bar.foldl appendPair "" else ""
  match strBack out with
  | none => none
  | some c => if c = ',' then some (strPopBack out) else some out

/-- The predicate of the `std::copy_if` of the `/rx` handler. -/
def rxSelected (a : Adapter) (s : AppState) (st : StationElement) : Bool :=
  if !a.IsVoiceConnected s.calls then false else a.GetRxState s.calls st.freq

/-- The predicate of the `std::copy_if` of the `/tx` handler. -/
def txSelected (a : Adapter) (s : AppState) (st : StationElement) : Bool :=
  if !a.IsVoiceConnected s.calls then false else a.GetTxState s.calls st.freq

/-- The request handler installed by `App::buildSDKServer`: the response
body.  The server is built in the constructor after the engine client was
created, so the handler runs with a client present (`a`). -/
def request_handler (U : Util) (a : Adapter) (s : AppState) (req : Request) :
    Option String :=
  if req.method = HttpMethod.GET ∧ req.request_target = "/transmitting" then
    some s.currentlyTransmittingApiData
  else if req.method = HttpMethod.GET ∧ req.request_target = "/rx" then
    stationListBody (s.FetchedStations.filter (rxSelected a s))
  else if req.method = HttpMethod.GET ∧ req.request_target = "/tx" then
    stationListBody (s.FetchedStations.filter (txSelected a s))
  else some U.kClientName

/-! ## The coordination pass -/

/-- An entry of the airport table `ns::Airport::All`. -/
structure Airport where
  icao : String
  elevation : Int
  lat : Rat
  lon : Rat
deriving DecidableEq

/-- Return values of the widgets drawn for one station of the registry. -/
structure StationUi where
  refreshTransceivers : Bool
  removeStation : Bool
  rxButton : Bool
  spButton : Bool
  txButton : Bool
  xcButton : Bool
deriving DecidableEq

/-- What one pass of `App::render_frame` reads from outside the modelled
state: the layout decisions computed from the window geometry, the polled
hardware, the data handler, the airport table, the device lookups, the return
values of the widgets and the clock (in milliseconds).  `staleStation i b` is
what the station block at position `i` reads through the loop reference `el`
once an erase has invalidated it, a value the program does not determine: with
`b` false the read at the start of a block that follows the erase, with `b`
true the read in the rest of the block in which the erase was made. -/
structure FrameInput where
  collapse : Bool
  fitsClient : Bool
  fitsStatuses : Bool
  fitsButtons : Bool
  radio_cols : Int
  isButtonPressed : Int → Int → Bool
  isKeyPressed : Scancode → Bool
  slurperAvailableOnPress : Bool
  slurperAvailableForPosition : Bool
  getConnectionStatusWithSlurper : Bool
  getPilotPositionWithAnything : String → Option (Rat × Rat)
  airports : String → Option Airport
  findAudioAPIorDefault : Int
  findHeadsetInputDeviceOrDefault : String
  findHeadsetOutputDeviceOrDefault : String
  findSpeakerOutputDeviceOrDefault : String
  connectButton : Bool
  disconnectButton : Bool
  gainSlider : Option Int
  callsignText : Option String
  callsignEnter : Bool
  addButton : Bool
  stationUi : Nat → StationUi
  staleStation : Nat → Bool → StationElement
  now : Int

/-- Issue one command to the engine. -/
def call (c : ClientCall) (s : AppState) : AppState :=
  { s with calls := s.calls ++ [c] }

/-- Issue a sequence of commands to the engine. -/
def callAll (cs : List ClientCall) (s : AppState) : AppState :=
  { s with calls := s.calls ++ cs }

/-- The push-to-talk step of the pass. -/
def pttStep (a : Adapter) (inp : FrameInput) (s : AppState) : AppState :=
  if a.IsVoiceConnected s.calls = true
      ∧ (s.ptt ≠ Scancode.Unknown ∨ s.joyStickId ≠ -1) then
    if s.isPttOpen then
      let s1 :=
        if s.joyStickId ≠ -1 then
          if !inp.isButtonPressed s.joyStickId s.joyStickPtt then
            { s with isPttOpen := false }
          else s
        else
          if !inp.isKeyPressed s.ptt then { s with isPttOpen := false } else s
      call (ClientCall.SetPtt s1.isPttOpen) s1
    else
      let s1 :=
        if s.joyStickId ≠ -1 then
          if inp.isButtonPressed s.joyStickId s.joyStickPtt then
            { s with isPttOpen := true }
          else s
        else
          if inp.isKeyPressed s.ptt then { s with isPttOpen := true } else s
      call (ClientCall.SetPtt s1.isPttOpen) s1
  else s

/-- The commands of the bootstrap, for the cleaned callsign. -/
def bootstrapCalls (s : AppState) (clean_callsign : String) : List ClientCall :=
  [ClientCall.AddFrequency s.session.frequency clean_callsign,
   ClientCall.SetEnableInputFilters s.mInputFilter,
   ClientCall.SetEnableOutputEffects s.mOutputEffects,
   ClientCall.UseTransceiversFromStation clean_callsign s.session.frequency,
   ClientCall.SetRx s.session.frequency true]
  ++ (if s.session.facility > 0 then
        [ClientCall.SetTx s.session.frequency true, ClientCall.SetXc s.session.frequency true]
      else [])
  ++ [ClientCall.FetchStationVccs clean_callsign, ClientCall.SetRadiosGain s.RadioGain]

/-- The bootstrap step of the pass: the forced addition of the frequency of
the session. -/
def bootstrapStep (U : Util) (a : Adapter) (s : AppState) : AppState :=
  if a.IsAPIConnected s.calls = true ∧ s.FetchedStations.isEmpty = true
      ∧ s.bootUpVccs = false then
    let clean_callsign := U.ReplaceString s.session.callsign "__" "_"
    callAll (bootstrapCalls s clean_callsign)
      (pushIfNew (StationElement.build U clean_callsign s.session.frequency)
        { s with bootUpVccs := true })
  else s

/-- The number of columns of the controls, from the three nested width
tests. -/
def ctrls_cols (inp : FrameInput) : Nat :=
  1 + (if inp.fitsClient then
        1 + (if inp.fitsStatuses then 1 + (if inp.fitsButtons then 1 else 0) else 0)
      else 0)

/-- The prefix of the callsign before its first underscore:
`callsign.substr(0, callsign.find('_'))`. -/
def clientIcao (callsign : String) : String :=
  String.mk (callsign.data.takeWhile (fun c => c != '_'))

/-- The position pushed to the engine on connect. -/
def connectPosition (inp : FrameInput) (s : AppState) : ClientCall :=
  if !inp.slurperAvailableForPosition then
    match inp.airports (clientIcao s.session.callsign) with
    | some client_airport =>
      ClientCall.SetClientPosition client_airport.lat client_airport.lon
        (client_airport.elevation + 33) (client_airport.elevation + 33)
    | none => ClientCall.SetClientPosition (4896786 / 100000) (2442 / 1000) 300 300
  else ClientCall.SetClientPosition s.session.latitude s.session.longitude 300 300

/-- The body of the pressed Connect button. -/
def connectPressed (a : Adapter) (inp : FrameInput) (s : AppState) : AppState :=
  let s1 :=
    if s.session.is_connected = false ∧ inp.slurperAvailableOnPress = true then
      { s with session :=
          { s.session with is_connected := inp.getConnectionStatusWithSlurper } }
    else s
  if s1.session.is_connected then
    let s2 := if a.IsAudioRunning s1.calls then call ClientCall.StopAudio s1 else s1
    let s3 := if a.IsAPIConnected s2.calls then call ClientCall.Disconnect s2 else s2
    callAll
      [ClientCall.SetAudioApi inp.findAudioAPIorDefault,
       ClientCall.SetAudioInputDevice inp.findHeadsetInputDeviceOrDefault,
       ClientCall.SetAudioOutputDevice inp.findHeadsetOutputDeviceOrDefault,
       ClientCall.SetAudioSpeakersOutputDevice inp.findSpeakerOutputDeviceOrDefault,
       ClientCall.SetHardware s3.hardware,
       ClientCall.SetHeadsetOutputChannel s3.headsetOutputChannel,
       connectPosition inp s3,
       ClientCall.SetCredentials (toString s3.vatsim_cid) s3.vatsim_password,
       ClientCall.SetCallsign s3.session.callsign,
       ClientCall.SetRadiosGain s3.RadioGain,
       ClientCall.Connect] s3
  else errorModal "Not connected to VATSIM!" s1

/-- The Connect / Disconnect controls of the pass. -/
def connectControls (a : Adapter) (inp : FrameInput) (s : AppState) : AppState :=
  if a.IsVoiceConnected s.calls = false ∧ a.IsAPIConnected s.calls = false then
    if inp.connectButton then connectPressed a inp s else s
  else
    if inp.disconnectButton = true ∨ s.session.is_connected = false then
      disconnectAndCleanup (some a)
        (if inp.disconnectButton then { s with manuallyDisconnected_ := true } else s)
    else s

/-- The gain slider of the pass. -/
def gainControl (a : Adapter) (inp : FrameInput) (s : AppState) : AppState :=
  match inp.gainSlider with
  | some v =>
    if a.IsVoiceConnected s.calls then
      call (ClientCall.SetRadiosGain v) { s with RadioGain := v }
    else { s with RadioGain := v }
  | none => s

/-- Modelled from the spec: `util::startsWith` (declared in `util.h`, which is
not among the sources), the test that a callsign begins with the given
string. -/
def startsWith (str start : String) : Bool :=
  str.data.take start.data.length == start.data

/-- The addition of the UNICOM frequency for a pilot callsign. -/
def unicomAdd (U : Util) (inp : FrameInput) (s : AppState) : AppState :=
  if !frequencyExists s.FetchedStations U.kUnicomFrequency then
    match inp.getPilotPositionWithAnything s.station_auto_add_callsign with
    | some (latitude, longitude) =>
      callAll
        [ClientCall.SetClientPosition latitude longitude 1000 1000,
         ClientCall.AddFrequency U.kUnicomFrequency s.station_auto_add_callsign,
         ClientCall.SetRx U.kUnicomFrequency true,
         ClientCall.SetRadiosGain s.RadioGain]
        { s with FetchedStations := s.FetchedStations
            ++ [StationElement.build U s.station_auto_add_callsign U.kUnicomFrequency] }
    | none => errorModal "Could not find pilot connected under that callsign." s
  else errorModal "Another UNICOM frequency is active, please delete it first." s

/-- The callsign input and the Add button of the pass. -/
def manualAdd (U : Util) (a : Adapter) (inp : FrameInput) (s : AppState) : AppState :=
  let s0 :=
    match inp.callsignText with
    | some text => { s with station_auto_add_callsign := text }
    | none => s
  if (inp.callsignEnter = true ∨ inp.addButton = true)
      ∧ a.IsVoiceConnected s0.calls = true then
    let s1 :=
      if !startsWith s0.station_auto_add_callsign "!" then
        call (ClientCall.FetchStationVccs s0.station_auto_add_callsign)
          (call (ClientCall.GetStation s0.station_auto_add_callsign) s0)
      else
        unicomAdd U inp
          { s0 with station_auto_add_callsign :=
              String.mk (s0.station_auto_add_callsign.data.drop 1) }
    { s1 with station_auto_add_callsign := "" }
  else s0

/-- The values polled from the engine at the start of a station block. -/
structure Polled where
  rx_state : Bool
  tx_state : Bool
  xc_state : Bool
  is_on_speaker : Bool
  freq_active : Bool
deriving DecidableEq

/-- The polling at the start of the block of station `el`. -/
def pollStation (a : Adapter) (s : AppState) (el : StationElement) : Polled :=
  let rx_state := a.GetRxState s.calls el.freq
  let tx_state := a.GetTxState s.calls el.freq
  let xc_state := a.GetXcState s.calls el.freq
  { rx_state := rx_state
    tx_state := tx_state
    xc_state := xc_state
    is_on_speaker := !a.GetOnHeadset s.calls el.freq
    freq_active := a.IsFrequencyActive s.calls el.freq && (rx_state || tx_state || xc_state) }

/-- The commands that bring an inactive frequency up with the given
switches. -/
def activateCalls (s : AppState) (el : StationElement) (switches : List ClientCall) :
    List ClientCall :=
  [ClientCall.AddFrequency el.freq el.callsign,
   ClientCall.SetEnableInputFilters s.mInputFilter,
   ClientCall.SetEnableOutputEffects s.mOutputEffects,
   ClientCall.UseTransceiversFromStation el.callsign el.freq]
  ++ switches ++ [ClientCall.SetRadiosGain s.RadioGain]

/-- The RX and SP buttons of a station block. -/
def rxSpButtons (ui : StationUi) (p : Polled) (el : StationElement) (s : AppState) :
    AppState :=
  let s1 :=
    if ui.rxButton then
      if p.freq_active then call (ClientCall.SetRx el.freq (!p.rx_state)) s
      else callAll (activateCalls s el [ClientCall.SetRx el.freq true]) s
    else s
  if ui.spButton = true ∧ p.freq_active = true then
    call (ClientCall.SetOnHeadset el.freq p.is_on_speaker) s1
  else s1

/-- The TX and XC buttons of a station block. -/
def txXcButtons (ui : StationUi) (p : Polled) (el : StationElement) (s : AppState) :
    AppState :=
  let s1 :=
    if ui.txButton = true ∧ s.session.facility > 0 then
      if p.freq_active then call (ClientCall.SetTx el.freq (!p.tx_state)) s
      else
        callAll (activateCalls s el
          [ClientCall.SetTx el.freq true, ClientCall.SetRx el.freq true]) s
    else s
  if ui.xcButton = true ∧ s1.session.facility > 0 then
    if p.freq_active then call (ClientCall.SetXc el.freq (!p.xc_state)) s1
    else
      callAll (activateCalls s1 el
        [ClientCall.SetTx el.freq true, ClientCall.SetRx el.freq true,
         ClientCall.SetXc el.freq true]) s1
  else s1

/-- The removal of station `el`: the engine is told to remove the frequency,
then `erase(remove_if(...))` drops every station of that frequency. -/
def removeStation (el : StationElement) (s : AppState) : AppState :=
  { call (ClientCall.RemoveFrequency el.freq) s with
    FetchedStations := s.FetchedStations.filter (fun p => !(el.freq == p.freq)) }

/-- The four buttons of a station block, drawn when the radio columns are. -/
def stationButtons (inp : FrameInput) (ui : StationUi) (p : Polled)
    (el : StationElement) (s : AppState) : AppState :=
  if inp.radio_cols ≠ 0 then txXcButtons ui p el (rxSpButtons ui p el s) else s

/-- The iterations of the station loop that follow an erase, `n` of them from
position `i`.  The range-for took its end iterator before the erase and has no
`break`, so it goes on for as many iterations as the registry had stations
left; each block reads `el` through the invalidated iterator
(`staleStation`). -/
def staleLoop (a : Adapter) (inp : FrameInput) : Nat → Nat → AppState → AppState
  | _, 0, s => s
  | i, n + 1, s =>
    let ui := inp.stationUi i
    let el := inp.staleStation i false
    let p := pollStation a s el
    let s1 := if ui.refreshTransceivers then call (ClientCall.FetchTransceiverInfo el.callsign) s
      else s
    let s2 := if ui.removeStation then removeStation el s1 else s1
    let el2 := if ui.removeStation then inp.staleStation i true else el
    staleLoop a inp (i + 1) n (stationButtons inp ui p el2 s2)

/-- The loop over the registry that draws the station blocks; `i` is the
position of the first station of `todo`.  The erase of a removal invalidates
the reference `el` and the iterators of the range-for, and the source has no
`break` after it: the rest of the block runs with the values polled before and
with `el` read through the invalidated reference, and the remaining iterations
follow (`staleLoop`).  The embedding keeps this control flow and leaves open
what those reads give (`staleStation`). -/
def stationLoop (a : Adapter) (inp : FrameInput) :
    Nat → List StationElement → AppState → AppState
  | _, [], s => s
  | i, el :: todo, s =>
    let ui := inp.stationUi i
    let p := pollStation a s el
    let s1 := if ui.refreshTransceivers then call (ClientCall.FetchTransceiverInfo el.callsign) s
      else s
    if ui.removeStation then
      staleLoop a inp (i + 1) todo.length
        (stationButtons inp ui p (inp.staleStation i true) (removeStation el s1))
    else stationLoop a inp (i + 1) todo (stationButtons inp ui p el s1)

/-- The trigger of the error popup at the end of the pass. -/
def modalTrigger (s : AppState) : AppState :=
  if s.showErrorModal_ then
    { s with showErrorModal_ := false
             errorPopups := s.errorPopups ++ [s.lastErrorModalMessage_] }
  else s

/-- The guarded `std::accumulate` that joins the callsigns with commas. -/
def joinReceived : List String → String
  | [] => ""
  | first :: others => others.foldl (fun x y => x ++ "," ++ y) first

/-- The rebuild of the transmitting snapshot at the end of the pass. -/
def snapshotRebuild (inp : FrameInput) (live_received_callsigns : List String)
    (s : AppState) : AppState :=
  if inp.now - s.currentlyTransmittingApiTimer ≥ 300 then
    { s with currentlyTransmittingApiData := "" ++ joinReceived live_received_callsigns
             currentlyTransmittingApiTimer := inp.now }
  else s

/-- The controls of the top half that can change the state: gain slider and
manual add. -/
def topControls (U : Util) (a : Adapter) (inp : FrameInput) (s : AppState) : AppState :=
  let s1 := gainControl a inp s
  if !inp.collapse then manualAdd U a inp s1 else s1

/-- `App::render_frame`, one coordination pass.  The block under
`if (mClient_)` holds the push-to-talk and bootstrap steps; the code after it
dereferences `mClient_` unguarded (the gain slider block is always drawn), so
a pass without a client has no defined result.  `live_received_callsigns` is
declared empty and nothing is appended to it before the snapshot is rebuilt.
The settings modal (`modals::Settings::render`) is not among the sources and is
left out, as is the Settings button, which only refreshes the device lists and
opens that modal. -/
def render_frame (U : Util) (mClient_ : Option Adapter) (inp : FrameInput)
    (s : AppState) : Option AppState :=
  match mClient_ with
  | none => none
  | some a =>
    let s1 := bootstrapStep U a (pttStep a inp s)
    let live_received_callsigns : List String := []
    let s2 := if ctrls_cols inp ≥ 4 then connectControls a inp s1 else s1
    let s3 := if ctrls_cols inp ≥ 1 then topControls U a inp s2 else s2
    let s4 := if !inp.collapse then stationLoop a inp 0 s3.FetchedStations s3 else s3
    some (snapshotRebuild inp live_received_callsigns (modalTrigger s4))

/-! ## Runs -/

/-- A step of the program: the engine raises an event, or a frame is
rendered. -/
inductive Action where
  | event (a : Adapter) (evt : ClientEvent)
  | frame (mClient_ : Option Adapter) (inp : FrameInput)

/-- The effect of one step. -/
def step (U : Util) (s : AppState) : Action → Option AppState
  | Action.event a evt => eventCallback U a evt s
  | Action.frame mClient_ inp => render_frame U mClient_ inp s

/-- The effect of a finite sequence of steps; `none` once a step has no
defined result. -/
def run (U : Util) : List Action → AppState → Option AppState
  | [], s => some s
  | act :: rest, s =>
    match step U s act with
    | some s1 => run U rest s1
    | none => none

/-! ## Vocabulary of the claims -/

/-- The error kinds of an invalid-credentials failure. -/
def invalidCredentials (err : APISessionError) : Bool :=
  err = APISessionError.BadPassword || err = APISessionError.RejectedCredentials

/-- The error kinds whose `if` of the `APIServerError` handler calls
`disconnectAndCleanup` and `playErrorSound`. -/
def apiTeardown (err : APISessionError) : Bool :=
  err = APISessionError.ConnectionError
    || err = APISessionError.BadRequestOrClientIncompatible
    || err = APISessionError.InvalidAuthToken
    || err = APISessionError.AuthTokenExpiryTimeInPast
    || err = APISessionError.OtherRequestError

/-- The step is one an `App` whose engine client is `m` can make: a frame is
rendered with that client, and an event is raised only when there is a client,
the callback being registered on it. -/
def Action.withClient (m : Option Adapter) : Action → Prop
  | Action.event _ _ => m.isSome = true
  | Action.frame m1 _ => m1.isSome = m.isSome

/-- The text of a station in the `/rx` and `/tx` bodies:
`callsign:display_frequency`. -/
def pairText (f : StationElement) : String :=
  f.callsign ++ ":" ++ f.human_freq

/-- The comma-joined list of the pairs of the given stations. -/
def joinedPairs (bar : List StationElement) : String :=
  ",".intercalate (bar.map pairText)

/-- No two stations of the registry have the same `freq`. -/
def distinctFrequencies (l : List StationElement) : Prop :=
  l.Pairwise (fun x y => x.freq ≠ y.freq)

/-- The widgets of a station block when the user does nothing. -/
def StationUi.idle : StationUi :=
  { refreshTransceivers := false, removeStation := false, rxButton := false,
    spButton := false, txButton := false, xcButton := false }

/-- A pass with no user input: no button or menu entry is activated, the gain
slider and the callsign field are not edited. -/
def noUserInput (inp : FrameInput) : Prop :=
  inp.connectButton = false ∧ inp.disconnectButton = false ∧ inp.gainSlider = none
    ∧ inp.callsignText = none ∧ inp.callsignEnter = false ∧ inp.addButton = false
    ∧ ∀ i, inp.stationUi i = StationUi.idle

/-- The answer of the engine to `IsAPIConnected` at the bootstrap test of the
pass (the push-to-talk step comes first and may have issued `SetPtt`). -/
def apiConnectedAtBootstrap (a : Adapter) (inp : FrameInput) (s : AppState) : Bool :=
  a.IsAPIConnected (pttStep a inp s).calls

/-- The event carries the payload that its handler dereferences without a
null check. -/
def ClientEvent.payloadPresent : ClientEvent → Bool
  | ClientEvent.VoiceServerError none => false
  | ClientEvent.VoiceServerChannelError none => false
  | ClientEvent.AudioDeviceStoppedError none => false
  | _ => true

/-- The step has a defined result: an event with the payload its handler
dereferences, or a frame rendered with the engine client present. -/
def Action.defined : Action → Bool
  | Action.event _ evt => evt.payloadPresent
  | Action.frame mClient_ _ => mClient_.isSome

/-- The normalization of an incoming frequency the claims speak of: the value
itself when it is a valid 8.33 kHz channel, otherwise the result of
`round8_33kHzChannel`, the helper that snaps a value to its nearest valid
channel. -/
def normalizeFrequency (U : Util) (x : Nat) : Nat :=
  if U.isValid8_33kHzChannel x then x else U.round8_33kHzChannel x

/-- Modelled from the spec: `util::round8_33kHzChannel` together with
`util::isValid8_33kHzChannel` (both declared in `util.h`, which is not among the
sources).  The spec has a value that is not a valid 8.33 kHz channel "snapped to
the nearest valid channel": what the rounding returns is a valid channel. -/
def Util.roundsToValid (U : Util) : Prop :=
  ∀ x, U.isValid8_33kHzChannel (U.round8_33kHzChannel x) = true

/-- Modelled from the spec: `util::cleanUpFrequency` (declared in `util.h`,
which is not among the sources).  The spec has the result of a station search
normalized at ingestion like the entries of a VCCS list: the value itself when
it is a valid 8.33 kHz channel, otherwise its nearest valid channel. -/
def Util.cleanUpNormalizes (U : Util) : Prop :=
  ∀ x, U.cleanUpFrequency x = normalizeFrequency U x

/-- The ingestion of one incoming callsign and frequency as the claims
describe it: the dedup check is made on the normalized frequency, and the
station appended when the check finds nothing stores the normalized
frequency. -/
def ingest (U : Util) (callsign : String) (x : Nat) (s : AppState) : AppState :=
  if frequencyExists s.FetchedStations (normalizeFrequency U x) then s
  else
    { s with FetchedStations := s.FetchedStations
        ++ [{ freq := normalizeFrequency U x
              callsign := callsign
              human_freq := U.humanFreq (normalizeFrequency U x)
              transceivers := -1 }] }

/-- The commands of `disconnectAndCleanup` on the registry `l`. -/
def cleanupCalls (l : List StationElement) : List ClientCall :=
  [ClientCall.Disconnect, ClientCall.StopAudio]
    ++ l.map (fun f => ClientCall.RemoveFrequency f.freq)

/-- The name of a command, without its arguments. -/
inductive CallKind where
  | Disconnect
  | StopAudio
  | Connect
  | RemoveFrequency
  | AddFrequency
  | SetEnableInputFilters
  | SetEnableOutputEffects
  | UseTransceiversFromStation
  | SetRx
  | SetTx
  | SetXc
  | SetOnHeadset
  | FetchStationVccs
  | FetchTransceiverInfo
  | GetStation
  | SetRadiosGain
  | SetPtt
  | SetClientPosition
  | SetAudioApi
  | SetAudioInputDevice
  | SetAudioOutputDevice
  | SetAudioSpeakersOutputDevice
  | SetHardware
  | SetHeadsetOutputChannel
  | SetCredentials
  | SetCallsign
deriving DecidableEq

/-- The kind of a command. -/
def ClientCall.kind : ClientCall → CallKind
  | ClientCall.Disconnect => CallKind.Disconnect
  | ClientCall.StopAudio => CallKind.StopAudio
  | ClientCall.Connect => CallKind.Connect
  | ClientCall.RemoveFrequency _ => CallKind.RemoveFrequency
  | ClientCall.AddFrequency _ _ => CallKind.AddFrequency
  | ClientCall.SetEnableInputFilters _ => CallKind.SetEnableInputFilters
  | ClientCall.SetEnableOutputEffects _ => CallKind.SetEnableOutputEffects
  | ClientCall.UseTransceiversFromStation _ _ => CallKind.UseTransceiversFromStation
  | ClientCall.SetRx _ _ => CallKind.SetRx
  | ClientCall.SetTx _ _ => CallKind.SetTx
  | ClientCall.SetXc _ _ => CallKind.SetXc
  | ClientCall.SetOnHeadset _ _ => CallKind.SetOnHeadset
  | ClientCall.FetchStationVccs _ => CallKind.FetchStationVccs
  | ClientCall.FetchTransceiverInfo _ => CallKind.FetchTransceiverInfo
  | ClientCall.GetStation _ => CallKind.GetStation
  | ClientCall.SetRadiosGain _ => CallKind.SetRadiosGain
  | ClientCall.SetPtt _ => CallKind.SetPtt
  | ClientCall.SetClientPosition _ _ _ _ => CallKind.SetClientPosition
  | ClientCall.SetAudioApi _ => CallKind.SetAudioApi
  | ClientCall.SetAudioInputDevice _ => CallKind.SetAudioInputDevice
  | ClientCall.SetAudioOutputDevice _ => CallKind.SetAudioOutputDevice
  | ClientCall.SetAudioSpeakersOutputDevice _ => CallKind.SetAudioSpeakersOutputDevice
  | ClientCall.SetHardware _ => CallKind.SetHardware
  | ClientCall.SetHeadsetOutputChannel _ => CallKind.SetHeadsetOutputChannel
  | ClientCall.SetCredentials _ _ => CallKind.SetCredentials
  | ClientCall.SetCallsign _ => CallKind.SetCallsign

/-- From `s` to `s1` the commands issued so far were extended by commands of
the kinds `K` only. -/
def Issues (K : List CallKind) (s s1 : AppState) : Prop :=
  ∃ issued, s1.calls = s.calls ++ issued ∧ ∀ c ∈ issued, c.kind ∈ K

/-- The kinds of the commands of the bootstrap step. -/
def bootstrapKinds : List CallKind :=
  [CallKind.AddFrequency, CallKind.SetEnableInputFilters, CallKind.SetEnableOutputEffects,
   CallKind.UseTransceiversFromStation, CallKind.SetRx, CallKind.SetTx, CallKind.SetXc,
   CallKind.FetchStationVccs, CallKind.SetRadiosGain]

/-- The kinds of the commands of a proceeding connect request. -/
def connectKinds : List CallKind :=
  [CallKind.StopAudio, CallKind.Disconnect, CallKind.SetAudioApi,
   CallKind.SetAudioInputDevice, CallKind.SetAudioOutputDevice,
   CallKind.SetAudioSpeakersOutputDevice, CallKind.SetHardware,
   CallKind.SetHeadsetOutputChannel, CallKind.SetClientPosition, CallKind.SetCredentials,
   CallKind.SetCallsign, CallKind.SetRadiosGain, CallKind.Connect]

/-- The kinds of the commands of `disconnectAndCleanup`. -/
def cleanupKinds : List CallKind :=
  [CallKind.Disconnect, CallKind.StopAudio, CallKind.RemoveFrequency]

/-- The kinds of the commands of the gain slider, the callsign field and the
Add button. -/
def topKinds : List CallKind :=
  [CallKind.SetRadiosGain, CallKind.GetStation, CallKind.FetchStationVccs,
   CallKind.SetClientPosition, CallKind.AddFrequency, CallKind.SetRx]

/-- The kinds of the commands of the station blocks. -/
def stationKinds : List CallKind :=
  [CallKind.FetchTransceiverInfo, CallKind.RemoveFrequency, CallKind.SetRx,
   CallKind.AddFrequency, CallKind.SetEnableInputFilters, CallKind.SetEnableOutputEffects,
   CallKind.UseTransceiversFromStation, CallKind.SetRadiosGain, CallKind.SetOnHeadset,
   CallKind.SetTx, CallKind.SetXc]

/-- Every kind but `SetPtt`: the kinds of what follows the push-to-talk step
in a pass. -/
def afterPttKinds : List CallKind :=
  bootstrapKinds ++ connectKinds ++ cleanupKinds ++ topKinds ++ stationKinds

/-- Every kind but `Connect`: the kinds of the pass outside a proceeding
connect request. -/
def besideConnectKinds : List CallKind :=
  [CallKind.SetPtt] ++ bootstrapKinds ++ cleanupKinds ++ topKinds ++ stationKinds

/-- A push-to-talk source is configured: a keyboard scancode or a joystick. -/
def pttConfigured (s : AppState) : Bool :=
  decide (s.ptt ≠ Scancode.Unknown ∨ s.joyStickId ≠ -1)

/-- The pressed state of the single selected push-to-talk source: the joystick
button when a joystick is configured, otherwise the keyboard key. -/
def selectedSourcePressed (inp : FrameInput) (s : AppState) : Bool :=
  if s.joyStickId ≠ -1 then inp.isButtonPressed s.joyStickId s.joyStickPtt
  else inp.isKeyPressed s.ptt

/-- The push-to-talk step as the claims describe it: when voice is connected
and a source is configured, the latch takes the pressed state and the engine
is sent one `SetPtt` with it; otherwise nothing happens. -/
def pttOutcome (a : Adapter) (s : AppState) (pressed : Bool) : AppState :=
  if a.IsVoiceConnected s.calls = true ∧ pttConfigured s = true then
    call (ClientCall.SetPtt pressed) { s with isPttOpen := pressed }
  else s

/-- The `SetPtt` commands of a list of commands. -/
def pttCalls (l : List ClientCall) : List ClientCall :=
  l.filter (fun c => c.kind == CallKind.SetPtt)

/-- The `SetClientPosition` commands of a list of commands. -/
def positionCalls (l : List ClientCall) : List ClientCall :=
  l.filter (fun c => c.kind == CallKind.SetClientPosition)

/-- The value of `session::is_connected` after the connectivity check of a
pressed Connect button. -/
def connectedAfterCheck (inp : FrameInput) (s : AppState) : Bool :=
  if s.session.is_connected = false ∧ inp.slurperAvailableOnPress = true then
    inp.getConnectionStatusWithSlurper
  else s.session.is_connected

/-- The position the claims give for a connect: the session position when it
is supplied from outside, else the airport of the callsign, else the fixed
default. -/
def positionByPriority (inp : FrameInput) (s : AppState) : ClientCall :=
  if inp.slurperAvailableForPosition then
    ClientCall.SetClientPosition s.session.latitude s.session.longitude 300 300
  else
    match inp.airports (clientIcao s.session.callsign) with
    | some ap => ClientCall.SetClientPosition ap.lat ap.lon (ap.elevation + 33)
        (ap.elevation + 33)
    | none => ClientCall.SetClientPosition (4896786 / 100000) (2442 / 1000) 300 300

/-- The user presses Connect and touches nothing else that can change the
state (the Disconnect button is not drawn together with Connect). -/
def onlyConnectPressed (inp : FrameInput) : Prop :=
  inp.connectButton = true ∧ inp.gainSlider = none ∧ inp.callsignText = none
    ∧ inp.callsignEnter = false ∧ inp.addButton = false
    ∧ ∀ i, inp.stationUi i = StationUi.idle

/-- The handler of the event calls `disconnectAndCleanup`. -/
def ClientEvent.tearsDown : ClientEvent → Bool
  | ClientEvent.APIServerError (some err) => apiTeardown err
  | ClientEvent.AudioError => true
  | ClientEvent.VoiceServerError (some _) => true
  | ClientEvent.VoiceServerChannelError (some _) => true
  | ClientEvent.AudioDeviceStoppedError (some _) => true
  | _ => false

/-- The pass calls `disconnectAndCleanup`: the column of the Connect and
Disconnect controls is drawn, the engine reports voice or API connected when
the controls are reached, and Disconnect is pressed or `session::is_connected`
is false. -/
def passTearsDown (U : Util) (a : Adapter) (inp : FrameInput) (s : AppState) : Bool :=
  decide (ctrls_cols inp ≥ 4)
    && !(a.IsVoiceConnected (bootstrapStep U a (pttStep a inp s)).calls == false
          && a.IsAPIConnected (bootstrapStep U a (pttStep a inp s)).calls == false)
    && (inp.disconnectButton || !s.session.is_connected)

/-- The step calls `disconnectAndCleanup`. -/
def Action.tearsDown (U : Util) (s : AppState) : Action → Bool
  | Action.event _ evt => evt.tearsDown
  | Action.frame (some a) inp => passTearsDown U a inp s
  | Action.frame none _ => false

/-- No step of the run calls `disconnectAndCleanup`. -/
def noTeardown (U : Util) : List Action → AppState → Bool
  | [], _ => true
  | act :: rest, s =>
    !act.tearsDown U s
      && (match step U s act with
          | some s1 => noTeardown U rest s1
          | none => true)

/-- The part of `render_frame` that follows the push-to-talk step, from the
state `sp` that step leaves. -/
def passAfterPtt (U : Util) (a : Adapter) (inp : FrameInput) (sp : AppState) : AppState :=
  let s1 := bootstrapStep U a sp
  let s2 := if ctrls_cols inp ≥ 4 then connectControls a inp s1 else s1
  let s3 := if ctrls_cols inp ≥ 1 then topControls U a inp s2 else s2
  let s4 := if !inp.collapse then stationLoop a inp 0 s3.FetchedStations s3 else s3
  snapshotRebuild inp [] (modalTrigger s4)

/-- The commands a proceeding connect request issues before the device
selections: the stop of running audio and the forced disconnect of a stale API
link. -/
def connectPreCalls (a : Adapter) (s : AppState) : List ClientCall :=
  (if a.IsAudioRunning s.calls then [ClientCall.StopAudio] else [])
    ++ (if a.IsAPIConnected
          (s.calls ++ (if a.IsAudioRunning s.calls then [ClientCall.StopAudio] else []))
        then [ClientCall.Disconnect] else [])

/-- The commands a proceeding connect request issues from the device
selections on, ending with `Connect`. -/
def connectCalls (inp : FrameInput) (s : AppState) : List ClientCall :=
  [ClientCall.SetAudioApi inp.findAudioAPIorDefault,
   ClientCall.SetAudioInputDevice inp.findHeadsetInputDeviceOrDefault,
   ClientCall.SetAudioOutputDevice inp.findHeadsetOutputDeviceOrDefault,
   ClientCall.SetAudioSpeakersOutputDevice inp.findSpeakerOutputDeviceOrDefault,
   ClientCall.SetHardware s.hardware,
   ClientCall.SetHeadsetOutputChannel s.headsetOutputChannel,
   positionByPriority inp s,
   ClientCall.SetCredentials (toString s.vatsim_cid) s.vatsim_password,
   ClientCall.SetCallsign s.session.callsign,
   ClientCall.SetRadiosGain s.RadioGain,
   ClientCall.Connect]

/-- The kinds of the commands that only a connect request issues. -/
def connectOnlyKinds : List CallKind :=
  [CallKind.SetAudioApi, CallKind.SetAudioInputDevice, CallKind.SetAudioOutputDevice,
   CallKind.SetAudioSpeakersOutputDevice, CallKind.SetHardware,
   CallKind.SetHeadsetOutputChannel, CallKind.SetCredentials, CallKind.SetCallsign,
   CallKind.Connect]

/-- The connect request of the pass proceeds: the column of the controls is
drawn, Connect is pressed, the engine reports neither voice nor API connected
when the controls are reached, and `session::is_connected` is true after the
connectivity check. -/
def connectProceeds (U : Util) (a : Adapter) (inp : FrameInput) (s : AppState) : Prop :=
  ctrls_cols inp ≥ 4 ∧ inp.connectButton = true
    ∧ a.IsVoiceConnected (bootstrapStep U a (pttStep a inp s)).calls = false
    ∧ a.IsAPIConnected (bootstrapStep U a (pttStep a inp s)).calls = false
    ∧ connectedAfterCheck inp s = true

/-- The frequencies of the `RemoveFrequency` commands of a list of commands,
in order. -/
def removedFrequencies (l : List ClientCall) : List Nat :=
  l.filterMap (fun c =>
    match c with
    | ClientCall.RemoveFrequency f => some f
    | _ => none)

/-- The stations the claims expect a VCCS payload to add, written from the
words of the spec: going through the entries in their order, an entry
contributes one station, with its callsign and its normalized frequency, when
that frequency is neither among `seen` (the frequencies present) nor the
normalized frequency of an earlier entry. -/
def vccsFresh (U : Util) : List Nat → List (String × Nat) → List StationElement
  | _, [] => []
  | seen, e :: rest =>
    (if normalizeFrequency U e.2 ∈ seen then []
      else [StationElement.build U e.1 (normalizeFrequency U e.2)])
    ++ vccsFresh U (seen ++ [normalizeFrequency U e.2]) rest

/-- The content of the callsign field of the manual add once the edit of this
pass is in. -/
def addBuffer (inp : FrameInput) (s : AppState) : String :=
  match inp.callsignText with
  | some text => text
  | none => s.station_auto_add_callsign

/-- A callsign without its first character: `callsign.substr(1)`. -/
def strippedCallsign (callsign : String) : String :=
  String.mk (callsign.data.drop 1)

/-- The stations of a registry on the UNICOM frequency. -/
def unicomStations (U : Util) (l : List StationElement) : List StationElement :=
  l.filter (fun st => st.freq == U.kUnicomFrequency)

/-- The part of `render_frame` between the push-to-talk step and the trigger
of the error popup: bootstrap, connect controls, top controls and station
loop, from the state `sp` the push-to-talk step leaves. -/
def passBody (U : Util) (a : Adapter) (inp : FrameInput) (sp : AppState) : AppState :=
  let s1 := bootstrapStep U a sp
  let s2 := if ctrls_cols inp ≥ 4 then connectControls a inp s1 else s1
  let s3 := if ctrls_cols inp ≥ 1 then topControls U a inp s2 else s2
  if !inp.collapse then stationLoop a inp 0 s3.FetchedStations s3 else s3

/-- Every kind but `SetTx` and `SetXc`. -/
def receiveKinds : List CallKind :=
  [CallKind.Disconnect, CallKind.StopAudio, CallKind.Connect, CallKind.RemoveFrequency,
   CallKind.AddFrequency, CallKind.SetEnableInputFilters, CallKind.SetEnableOutputEffects,
   CallKind.UseTransceiversFromStation, CallKind.SetRx, CallKind.SetOnHeadset,
   CallKind.FetchStationVccs, CallKind.FetchTransceiverInfo, CallKind.GetStation,
   CallKind.SetRadiosGain, CallKind.SetPtt, CallKind.SetClientPosition, CallKind.SetAudioApi,
   CallKind.SetAudioInputDevice, CallKind.SetAudioOutputDevice,
   CallKind.SetAudioSpeakersOutputDevice, CallKind.SetHardware,
   CallKind.SetHeadsetOutputChannel, CallKind.SetCredentials, CallKind.SetCallsign]

/-! ## Sample environment -/

/-- Collapse of doubled underscores, as a sample `ReplaceString`. -/
def collapseUnderscores : List Char → List Char
  | [] => []
  | [c] => [c]
  | c :: d :: rest =>
    if c = '_' ∧ d = '_' then '_' :: collapseUnderscores rest
    else c :: collapseUnderscores (d :: rest)

/-- A sample instance of the helpers: channels on a 5 kHz grid. -/
def sampleUtil : Util :=
  { isValid8_33kHzChannel := fun f => f % 5000 == 0
    round8_33kHzChannel := fun f => (f + 2500) / 5000 * 5000
    cleanUpFrequency := fun f => if f % 5000 == 0 then f else (f + 2500) / 5000 * 5000
    ReplaceString := fun subject _ _ => String.mk (collapseUnderscores subject.data)
    humanFreq := fun f => if f = 118700000 then "118.700" else "122.800"
    kUnicomFrequency := 122800000
    kClientName := "VectorAudio" }

/-- An engine that reports voice and API connected, with transmit enabled on
118.700 only and receive enabled everywhere. -/
def engineOnline : Adapter :=
  { IsVoiceConnected := fun _ => true
    IsAPIConnected := fun _ => true
    IsAudioRunning := fun _ => true
    GetRxState := fun _ _ => true
    GetTxState := fun _ f => f == 118700000
    GetXcState := fun _ _ => false
    GetRxActive := fun _ _ => false
    GetTxActive := fun _ _ => false
    GetOnHeadset := fun _ _ => true
    IsFrequencyActive := fun _ _ => true
    GetTransceiverCountForStation := fun _ _ => 2 }

/-- An engine that reports nothing connected. -/
def engineOffline : Adapter :=
  { engineOnline with
    IsVoiceConnected := fun _ => false
    IsAPIConnected := fun _ => false
    IsAudioRunning := fun _ => false }

/-- A state with an empty registry. -/
def idleState : AppState :=
  { FetchedStations := []
    bootUpVccs := false
    last_rx_close := 0
    isPttOpen := false
    station_auto_add_callsign := ""
    currentlyTransmittingApiData := ""
    currentlyTransmittingApiTimer := 0
    RadioGain := 100
    session :=
      { callsign := "LFPG__TWR", frequency := 118700000, facility := 4,
        latitude := 0, longitude := 0, is_connected := true }
    ptt := Scancode.Unknown
    joyStickId := -1
    joyStickPtt := -1
    mInputFilter := true
    mOutputEffects := true
    vatsim_cid := 999999
    vatsim_password := "password"
    hardware := 0
    headsetOutputChannel := 0
    manuallyDisconnected_ := false
    showErrorModal_ := false
    lastErrorModalMessage_ := ""
    calls := []
    errorSounds := 0
    errorPopups := [] }

/-- The tower station of the samples. -/
def towerStation : StationElement :=
  { freq := 118700000, callsign := "LFPG_TWR", human_freq := "118.700", transceivers := -1 }

/-- The UNICOM station of the samples. -/
def unicomStation : StationElement :=
  { freq := 122800000, callsign := "AFR123", human_freq := "122.800", transceivers := -1 }

/-- A state after bootstrap, with the tower station registered. -/
def towerState : AppState :=
  { idleState with FetchedStations := [towerStation], bootUpVccs := true }

/-- A state with two stations. -/
def twoStationState : AppState :=
  { idleState with FetchedStations := [towerStation, unicomStation], bootUpVccs := true }

/-- A frame on a wide window (all four control columns drawn) in which the
user does nothing. -/
def wideQuietFrame : FrameInput :=
  { collapse := false
    fitsClient := true
    fitsStatuses := true
    fitsButtons := true
    radio_cols := 3
    isButtonPressed := fun _ _ => false
    isKeyPressed := fun _ => false
    slurperAvailableOnPress := true
    slurperAvailableForPosition := true
    getConnectionStatusWithSlurper := true
    getPilotPositionWithAnything := fun _ => some (0, 0)
    airports := fun _ => none
    findAudioAPIorDefault := 0
    findHeadsetInputDeviceOrDefault := ""
    findHeadsetOutputDeviceOrDefault := ""
    findSpeakerOutputDeviceOrDefault := ""
    connectButton := false
    disconnectButton := false
    gainSlider := none
    callsignText := none
    callsignEnter := false
    addButton := false
    stationUi := fun _ => StationUi.idle
    staleStation := fun _ _ => unicomStation
    now := 1000 }

/-- The idle state after the data feed reported that the network connection of
the user is gone. -/
def lostLinkState : AppState :=
  { idleState with session := { idleState.session with is_connected := false } }

/-- A frame in which the user enters `!AFR123` in the callsign field and
presses Add. -/
def unicomFrame : FrameInput :=
  { wideQuietFrame with callsignText := some "!AFR123", addButton := true }

/-- A frame in which the user removes the first station. -/
def removeFirstFrame : FrameInput :=
  { wideQuietFrame with
    stationUi := fun i => if i = 0 then { StationUi.idle with removeStation := true }
      else StationUi.idle }

/-- A sample run: bootstrap, a VCCS list with a duplicate of the tower
frequency, a UNICOM add, a search result on the UNICOM frequency, the removal of
the first station. -/
def sampleRun : List Action :=
  [Action.frame (some engineOnline) wideQuietFrame,
   Action.event engineOnline
     (ClientEvent.VccsReceived (some ())
       (some [("LFPG_APP", 118700001), ("LFPG_GND", 121800000)])),
   Action.frame (some engineOnline) unicomFrame,
   Action.event engineOnline
     (ClientEvent.StationDataReceived (some true) (some ("UNICOM", 122800000))),
   Action.frame (some engineOnline) removeFirstFrame]

/-- A sample run from the bootstrapped state: the user removes the tower
station, then the engine reports the end of a reception. -/
def emptiedRun : List Action :=
  [Action.frame (some engineOnline) removeFirstFrame,
   Action.event engineOnline (ClientEvent.RxClosed (some 118700000))]

/-- A frame on the wide window in which the user presses Connect; the
connectivity data come from the data file only, and the airport table knows
`LFPG`. -/
def connectFrame : FrameInput :=
  { wideQuietFrame with
    connectButton := true
    slurperAvailableOnPress := false
    slurperAvailableForPosition := false
    airports := fun icao =>
      if icao = "LFPG" then
        some { icao := "LFPG", elevation := 119, lat := 49, lon := 3 }
      else none }

/-- The sample engine while a transmission is being received on every
frequency. -/
def engineReceiving : Adapter :=
  { engineOnline with GetRxActive := fun _ _ => true }

/-- The sample engine with the API connected and voice not connected. -/
def engineApiOnly : Adapter :=
  { engineOnline with IsVoiceConnected := fun _ => false }

/-- A frame on the wide window in which the user presses Disconnect. -/
def disconnectFrame : FrameInput :=
  { wideQuietFrame with disconnectButton := true }

/-- The bootstrapped state after the data feed reported that the network
connection of the user is gone. -/
def towerLostLinkState : AppState :=
  { towerState with session := { towerState.session with is_connected := false } }

/-- The bootstrapped state of an observer: facility 0. -/
def observerState : AppState :=
  { towerState with session := { towerState.session with facility := 0 } }

/-- A frame in which the user presses the TX and the XC button of every
station. -/
def txPressFrame : FrameInput :=
  { wideQuietFrame with
    stationUi := fun _ => { StationUi.idle with txButton := true, xcButton := true } }

/-- A frame in which the user removes the first station and the RX button of
the block after it reads as pressed; what is read through the invalidated
reference is the UNICOM station. -/
def removeAndRxFrame : FrameInput :=
  { wideQuietFrame with
    stationUi := fun i =>
      if i = 0 then { StationUi.idle with removeStation := true }
      else if i = 1 then { StationUi.idle with rxButton := true }
      else StationUi.idle }

/-! ## Basic facts -/

theorem frequencyExists_iff (l : List StationElement) (f : Nat) :
    frequencyExists l f = true ↔ ∃ st ∈ l, st.freq = f := by
  simp [frequencyExists]

theorem pushIfNew_of_exists (el : StationElement) (s : AppState)
    (h : frequencyExists s.FetchedStations el.freq = true) : pushIfNew el s = s := by
  simp [pushIfNew, h]

theorem build_freq (U : Util) (c : String) (f : Nat) : (StationElement.build U c f).freq = f :=
  rfl

theorem build_callsign (U : Util) (c : String) (f : Nat) :
    (StationElement.build U c f).callsign = c :=
  rfl

theorem vccs_foldl_noop (U : Util) (stations : List (String × Nat)) (s : AppState)
    (h : ∀ e ∈ stations, frequencyExists s.FetchedStations (vccsFrequency U e.2) = true) :
    stations.foldl (vccsAdd U) s = s := by
  induction stations with
  | nil => rfl
  | cons e rest ih =>
    have he : vccsAdd U s e = s := by
      apply pushIfNew_of_exists
      simpa [build_freq] using h e (List.mem_cons_self _ _)
    rw [List.foldl_cons, he]
    exact ih (fun x hx => h x (List.mem_cons_of_mem _ hx))

/-! ## Claims -/

/-- C2. Adding a station whose normalized frequency is already present is a
no-op: a found `StationDataReceived` result, and a `VccsReceived` map handled
while voice is connected, whose normalized frequencies are all the `freq` of
stations already in the registry, leave the state (so the registry: length,
elements, order) as it was. -/
theorem add_existing_frequency_noop (U : Util) (a : Adapter) (s : AppState) :
    (∀ station : String × Nat,
      (∃ st ∈ s.FetchedStations, st.freq = U.cleanUpFrequency station.2) →
      eventCallback U a (ClientEvent.StationDataReceived (some true) (some station)) s
        = some s)
    ∧ (∀ (d : Unit) (stations : List (String × Nat)),
      a.IsVoiceConnected s.calls = true →
      (∀ e ∈ stations, ∃ st ∈ s.FetchedStations, st.freq = vccsFrequency U e.2) →
      eventCallback U a (ClientEvent.VccsReceived (some d) (some stations)) s = some s) := by
  constructor
  · intro station h
    have hex := (frequencyExists_iff _ _).2 h
    simp only [eventCallback, if_true]
    rw [pushIfNew_of_exists _ _ (by simpa [build_freq] using hex)]
  · intro d stations hv h
    simp only [eventCallback, hv, if_true]
    rw [vccs_foldl_noop U stations s (fun e he => (frequencyExists_iff _ _).2 (h e he))]

/-- Witness of C2: on the two-station registry, a found search result for
118.700 and a VCCS map that rounds to 118.700 and 122.800 change nothing. -/
theorem add_existing_frequency_noop_witness :
    eventCallback sampleUtil engineOnline
        (ClientEvent.StationDataReceived (some true) (some ("LFPG_TWR", 118700000)))
        twoStationState = some twoStationState
    ∧ eventCallback sampleUtil engineOnline
        (ClientEvent.VccsReceived (some ())
          (some [("LFPG_APP", 118700001), ("UNICOM", 122800000)]))
        twoStationState = some twoStationState :=
  ⟨(add_existing_frequency_noop sampleUtil engineOnline twoStationState).1
      ("LFPG_TWR", 118700000) ⟨towerStation, by decide, by decide⟩,
   (add_existing_frequency_noop sampleUtil engineOnline twoStationState).2 ()
      [("LFPG_APP", 118700001), ("UNICOM", 122800000)] rfl (by decide)⟩

/-- C3. After `disconnectAndCleanup` the registry is empty and the bootstrap
flag is false: with the engine client present for every prior state
whatsoever, and for an `App` with or without a client in every state it
reaches from a start with nothing registered (without a client no event is
raised and no pass has a result, so the guard for a missing client is met only
in the start state).  Calling it twice in a row leaves the same registry and
flag as calling it once, client or not. -/
theorem cleanup_clears_and_idempotent (U : Util) (a : Adapter)
    (mClient_ : Option Adapter) (s : AppState) :
    (disconnectAndCleanup (some a) s).FetchedStations = []
    ∧ (disconnectAndCleanup (some a) s).bootUpVccs = false
    ∧ (disconnectAndCleanup mClient_ (disconnectAndCleanup mClient_ s)).FetchedStations
        = (disconnectAndCleanup mClient_ s).FetchedStations
    ∧ (disconnectAndCleanup mClient_ (disconnectAndCleanup mClient_ s)).bootUpVccs
        = (disconnectAndCleanup mClient_ s).bootUpVccs
    ∧ (∀ (acts : List Action) (s0 : AppState),
        s0.FetchedStations = [] → s0.bootUpVccs = false →
        (∀ act ∈ acts, act.withClient mClient_) → run U acts s0 = some s →
        (disconnectAndCleanup mClient_ s).FetchedStations = []
        ∧ (disconnectAndCleanup mClient_ s).bootUpVccs = false) := by
  refine ⟨rfl, rfl, ?_, ?_, ?_⟩
  · cases mClient_ <;> rfl
  · cases mClient_ <;> rfl
  · intro acts s0 h0 hb hacts hrun
    cases mClient_ with
    | some a1 => exact ⟨rfl, rfl⟩
    | none =>
      cases acts with
      | nil =>
        simp only [run, Option.some.injEq] at hrun
        subst hrun
        exact ⟨h0, hb⟩
      | cons act rest =>
        have hact := hacts act (List.mem_cons_self _ _)
        cases act with
        | event a1 evt => simp [Action.withClient] at hact
        | frame m1 inp =>
          cases m1 with
          | none => simp [run, step, render_frame] at hrun
          | some a1 => simp [Action.withClient] at hact

/-- Witness of C3: after the sample run, made with the sample engine as
client, the registry is not empty and the cleanup empties it; without a client
the start state is the only state, and it has nothing registered. -/
theorem cleanup_clears_and_idempotent_witness :
    (∃ s, run sampleUtil sampleRun idleState = some s
      ∧ s.FetchedStations ≠ []
      ∧ (disconnectAndCleanup (some engineOnline) s).FetchedStations = []
      ∧ (disconnectAndCleanup (some engineOnline) s).bootUpVccs = false)
    ∧ (disconnectAndCleanup none idleState).FetchedStations = []
    ∧ (disconnectAndCleanup none idleState).bootUpVccs = false := by
  have hsome : (run sampleUtil sampleRun idleState).isSome = true := by decide
  obtain ⟨s, hs⟩ := Option.isSome_iff_exists.1 hsome
  have hne : (run sampleUtil sampleRun idleState).map
      (fun t => decide (t.FetchedStations ≠ [])) = some true := by decide
  have h1 := (cleanup_clears_and_idempotent sampleUtil engineOnline (some engineOnline)
    s).2.2.2.2 sampleRun idleState rfl rfl
    (by
      intro act hact
      simp only [sampleRun, List.mem_cons, List.mem_singleton, List.not_mem_nil,
        or_false] at hact
      rcases hact with h | h | h | h | h <;> subst h <;> rfl) hs
  have h2 := (cleanup_clears_and_idempotent sampleUtil engineOnline none
    idleState).2.2.2.2 [] idleState rfl rfl (by simp) rfl
  refine ⟨⟨s, hs, ?_, h1.1, h1.2⟩, h2.1, h2.2⟩
  rw [hs] at hne
  simpa using hne

/-- C4, the code at the counterexample. An `APIServerError` event whose kind is
none of those the handler names meets no `if` of the handler: it is neither
`BadPassword` nor `RejectedCredentials`, and the registry, here of two
stations, is as before, not empty. -/
theorem api_error_unnamed_kind_keeps_registry :
    invalidCredentials APISessionError.Other = false
    ∧ eventCallback sampleUtil engineOnline
        (ClientEvent.APIServerError (some APISessionError.Other)) twoStationState
      = some twoStationState
    ∧ twoStationState.FetchedStations ≠ [] := by
  decide

/-- C4, amended. An `APIServerError` event carrying an error kind is handled;
for `BadPassword` and `RejectedCredentials` there is no teardown (registry,
bootstrap flag and the commands issued to the engine are unchanged); for each
of the five other kinds the handler names (`ConnectionError`,
`BadRequestOrClientIncompatible`, `InvalidAuthToken`,
`AuthTokenExpiryTimeInPast`, `OtherRequestError`) the registry is empty after
handling (the flag is cleared and the engine was told to disconnect, stop audio
and remove each frequency); for a kind the handler names none of, the state is
unchanged. -/
theorem api_error_teardown (U : Util) (a : Adapter) (err : APISessionError)
    (s : AppState) :
    ∃ s1, eventCallback U a (ClientEvent.APIServerError (some err)) s = some s1
      ∧ s1.FetchedStations = (if apiTeardown err then [] else s.FetchedStations)
      ∧ s1.bootUpVccs = (if apiTeardown err then false else s.bootUpVccs)
      ∧ s1.calls = (if apiTeardown err then
            s.calls ++ [ClientCall.Disconnect, ClientCall.StopAudio]
              ++ s.FetchedStations.map (fun f => ClientCall.RemoveFrequency f.freq)
          else s.calls)
      ∧ (apiTeardown err = true ↔
          err ≠ APISessionError.BadPassword ∧ err ≠ APISessionError.RejectedCredentials
            ∧ err ≠ APISessionError.Other)
      ∧ (if invalidCredentials err || apiTeardown err then True else s1 = s) := by
  cases err <;>
    simp [eventCallback, apiServerError, invalidCredentials, apiTeardown, errorModal,
      playErrorSound, disconnectAndCleanup]

/-- C5. Handling a `VoiceServerDisconnected` event invokes `playErrorSound`
(once) if and only if `manuallyDisconnected_` was false when the event
arrived, and `manuallyDisconnected_` is false after handling, whatever its
prior value. -/
theorem voice_disconnected_sound (U : Util) (a : Adapter) (s : AppState) :
    ∃ s1, eventCallback U a ClientEvent.VoiceServerDisconnected s = some s1
      ∧ s1.errorSounds = s.errorSounds + (if s.manuallyDisconnected_ then 0 else 1)
      ∧ (s1.errorSounds ≠ s.errorSounds ↔ s.manuallyDisconnected_ = false)
      ∧ s1.manuallyDisconnected_ = false := by
  cases h : s.manuallyDisconnected_ <;> simp [eventCallback, playErrorSound, h]

/-- C7. A `VccsReceived` event, whatever its payload, delivered while the
engine reports voice not connected leaves the registry (the whole state)
unchanged. -/
theorem vccs_ignored_when_voice_disconnected (U : Util) (a : Adapter) (s : AppState)
    (data : Option Unit) (data2 : Option (List (String × Nat)))
    (h : a.IsVoiceConnected s.calls = false) :
    eventCallback U a (ClientEvent.VccsReceived data data2) s = some s := by
  cases data <;> cases data2 <;> simp [eventCallback, h]

/-- Witness of C7: the map with `LFPG_TWR` on 832000 delivered with the engine
offline. -/
theorem vccs_ignored_when_voice_disconnected_witness :
    engineOffline.IsVoiceConnected idleState.calls = false
    ∧ eventCallback sampleUtil engineOffline
        (ClientEvent.VccsReceived (some ()) (some [("LFPG_TWR", 832000)])) idleState
        = some idleState :=
  ⟨rfl, vccs_ignored_when_voice_disconnected sampleUtil engineOffline idleState (some ())
    (some [("LFPG_TWR", 832000)]) rfl⟩

/-- C10. A `StationDataReceived` event with `found = false` and both payload
slots non-null raises the error modal (`showErrorModal_` true, message
"Could not find station in database.") and leaves the registry unchanged;
nothing but the two modal fields changes. -/
theorem station_not_found_raises_modal (U : Util) (a : Adapter) (s : AppState)
    (station : String × Nat) :
    ∃ s1, eventCallback U a (ClientEvent.StationDataReceived (some false) (some station)) s
        = some s1
      ∧ s1.showErrorModal_ = true
      ∧ s1.lastErrorModalMessage_ = "Could not find station in database."
      ∧ s1.FetchedStations = s.FetchedStations
      ∧ s1 = { s with showErrorModal_ := true
                      lastErrorModalMessage_ := "Could not find station in database." } := by
  simp [eventCallback, errorModal]

/-! ### The `/rx` and `/tx` bodies -/

theorem foldl_appendPair (l : List StationElement) (acc : String) :
    l.foldl appendPair (acc ++ ",") = String.intercalate.go acc "," (l.map pairText) ++ "," := by
  induction l generalizing acc with
  | nil => simp [String.intercalate.go]
  | cons f fs ih =>
    have h : appendPair (acc ++ ",") f = (acc ++ "," ++ pairText f) ++ "," := by
      simp [appendPair, pairText, String.append_assoc]
    rw [List.foldl_cons, h, ih]
    simp [String.intercalate.go]

theorem foldl_appendPair_cons (b : StationElement) (bs : List StationElement) :
    (b :: bs).foldl appendPair "" = joinedPairs (b :: bs) ++ "," := by
  have h : appendPair "" b = pairText b ++ "," := by
    simp [appendPair, pairText, String.append_assoc]
  rw [List.foldl_cons, h, foldl_appendPair]
  simp [joinedPairs, String.intercalate]

theorem strBack_append_comma (x : String) : strBack (x ++ ",") = some ',' := by
  simp [strBack, String.data_append]

theorem strPopBack_append_comma (x : String) : strPopBack (x ++ ",") = x := by
  simp [strPopBack, String.data_append]

theorem stationListBody_eq (bar : List StationElement) :
    stationListBody bar = if bar = [] then none else some (joinedPairs bar) := by
  cases bar with
  | nil => simp [stationListBody, strBack]
  | cons b bs =>
    simp only [stationListBody, List.isEmpty_cons, Bool.not_false, if_true,
      foldl_appendPair_cons, strBack_append_comma, strPopBack_append_comma]
    simp

theorem request_handler_tx (U : Util) (a : Adapter) (s : AppState) :
    request_handler U a s { method := HttpMethod.GET, request_target := "/tx" }
      = if s.FetchedStations.filter (txSelected a s) = [] then none
        else some (joinedPairs (s.FetchedStations.filter (txSelected a s))) := by
  have h1 : ¬ ("/tx" = "/transmitting") := by decide
  have h2 : ¬ ("/tx" = "/rx") := by decide
  simp only [request_handler, h1, h2, and_false, and_self, if_false, if_true,
    stationListBody_eq]

theorem request_handler_rx (U : Util) (a : Adapter) (s : AppState) :
    request_handler U a s { method := HttpMethod.GET, request_target := "/rx" }
      = if s.FetchedStations.filter (rxSelected a s) = [] then none
        else some (joinedPairs (s.FetchedStations.filter (rxSelected a s))) := by
  have h1 : ¬ ("/rx" = "/transmitting") := by decide
  simp only [request_handler, h1, and_false, and_self, if_false, if_true,
    stationListBody_eq]

/-- Support for C8: with the tower station (transmit enabled) and the UNICOM
station (transmit not enabled) registered, the `/tx` body is the single pair of
the tower station. -/
theorem tx_body_two_stations :
    request_handler sampleUtil engineOnline twoStationState
        { method := HttpMethod.GET, request_target := "/tx" }
      = some "LFPG_TWR:118.700" := by
  rw [request_handler_tx]
  decide

/-- C8, the code at the failing input. `GET /tx` while the registry is empty:
the comma-joined list of the transmit-active stations is the empty string, but
the handler reads `back()` of the empty accumulator and defines no body. -/
theorem tx_body_undefined_on_empty_registry :
    joinedPairs (idleState.FetchedStations.filter (txSelected engineOnline idleState)) = ""
    ∧ request_handler sampleUtil engineOnline idleState
        { method := HttpMethod.GET, request_target := "/tx" } = none := by
  constructor
  · decide
  · rw [request_handler_tx]
    decide

/-- C9, the code at the failing input. `GET /rx` while voice is not
connected: no station is to be listed, so the body claimed is the empty
string, but the handler reads `back()` of the empty accumulator and defines no
body. -/
theorem rx_body_undefined_when_voice_disconnected :
    engineOffline.IsVoiceConnected towerState.calls = false
    ∧ towerState.FetchedStations.filter (rxSelected engineOffline towerState) = []
    ∧ request_handler sampleUtil engineOffline towerState
        { method := HttpMethod.GET, request_target := "/rx" } = none := by
  refine ⟨rfl, by decide, ?_⟩
  rw [request_handler_rx]
  decide


/-! ### The registry keeps its frequencies distinct -/

theorem distinct_iff_nodup (l : List StationElement) :
    distinctFrequencies l ↔ (l.map (fun st => st.freq)).Nodup := by
  simp [distinctFrequencies, List.Nodup, List.pairwise_map]

theorem distinct_append_new (l : List StationElement) (el : StationElement)
    (h : frequencyExists l el.freq = false) (hd : distinctFrequencies l) :
    distinctFrequencies (l ++ [el]) := by
  unfold distinctFrequencies
  rw [List.pairwise_append]
  refine ⟨hd, List.pairwise_singleton _ _, ?_⟩
  intro x hx y hy heq
  rw [List.mem_singleton] at hy
  subst hy
  have hex : frequencyExists l y.freq = true := (frequencyExists_iff _ _).2 ⟨x, hx, heq⟩
  rw [h] at hex
  exact Bool.noConfusion hex

theorem pushIfNew_distinct (el : StationElement) (s : AppState)
    (hd : distinctFrequencies s.FetchedStations) :
    distinctFrequencies (pushIfNew el s).FetchedStations := by
  unfold pushIfNew
  cases h : frequencyExists s.FetchedStations el.freq
  · simpa [h] using distinct_append_new _ _ h hd
  · simpa [h] using hd

theorem vccs_foldl_distinct (U : Util) (stations : List (String × Nat)) (s : AppState)
    (hd : distinctFrequencies s.FetchedStations) :
    distinctFrequencies (stations.foldl (vccsAdd U) s).FetchedStations := by
  induction stations generalizing s with
  | nil => exact hd
  | cons e rest ih => exact ih _ (pushIfNew_distinct _ _ hd)

theorem setTransceivers_map_freq (c : String) (n : Int) (l : List StationElement) :
    (setTransceivers c n l).map (fun st => st.freq) = l.map (fun st => st.freq) := by
  induction l with
  | nil => rfl
  | cons x xs ih =>
    simp only [setTransceivers]
    split_ifs
    · rfl
    · simp [ih]

theorem cleanup_registry_sublist (m : Option Adapter) (s : AppState) :
    (disconnectAndCleanup m s).FetchedStations.Sublist s.FetchedStations := by
  cases m with
  | none => exact List.Sublist.refl _
  | some a => exact List.nil_sublist _

theorem apiServerError_registry (a : Adapter) (err : APISessionError) (s : AppState) :
    (apiServerError a err s).FetchedStations
      = if apiTeardown err then [] else s.FetchedStations := by
  cases err <;>
    simp [apiServerError, apiTeardown, errorModal, playErrorSound, disconnectAndCleanup]

theorem eventCallback_distinct (U : Util) (a : Adapter) (evt : ClientEvent)
    (s s1 : AppState) (h : eventCallback U a evt s = some s1)
    (hd : distinctFrequencies s.FetchedStations) :
    distinctFrequencies s1.FetchedStations := by
  cases evt with
  | VccsReceived data data2 =>
    cases data <;> cases data2 <;> simp only [eventCallback] at h
    · cases h; exact hd
    · cases h; exact hd
    · cases h; exact hd
    · split_ifs at h
      · cases h; exact vccs_foldl_distinct U _ s hd
      · cases h; exact hd
  | StationTransceiversUpdated data =>
    cases data <;> simp only [eventCallback] at h
    · cases h; exact hd
    · split_ifs at h
      · cases h
        rw [distinct_iff_nodup] at hd ⊢
        simpa [setTransceivers_map_freq] using hd
      · cases h; exact hd
  | APIServerError data =>
    cases data <;> simp only [eventCallback] at h
    · cases h; exact hd
    · cases h
      rw [apiServerError_registry]
      split_ifs
      · exact List.Pairwise.nil
      · exact hd
  | AudioError =>
    simp only [eventCallback] at h
    cases h
    exact List.Pairwise.nil
  | VoiceServerDisconnected =>
    simp only [eventCallback] at h
    cases h
    split_ifs <;> exact hd
  | VoiceServerError data =>
    cases data <;> simp only [eventCallback] at h
    · cases h
    · cases h; exact List.Pairwise.nil
  | VoiceServerChannelError data =>
    cases data <;> simp only [eventCallback] at h
    · cases h
    · cases h; exact List.Pairwise.nil
  | AudioDeviceStoppedError data =>
    cases data <;> simp only [eventCallback] at h
    · cases h
    · cases h; exact List.Pairwise.nil
  | StationDataReceived data data2 =>
    cases data <;> cases data2 <;> simp only [eventCallback] at h
    · cases h; exact hd
    · cases h; exact hd
    · cases h; exact hd
    · split_ifs at h
      · cases h; exact pushIfNew_distinct _ _ hd
      · cases h; exact hd
  | RxClosed data =>
    cases data <;> simp only [eventCallback] at h
    · cases h; exact hd
    · cases h; exact hd
  | Other =>
    simp only [eventCallback] at h
    cases h; exact hd

/-! ### The phases of the pass and the registry -/

theorem pttStep_eq (a : Adapter) (inp : FrameInput) (s : AppState) :
    pttStep a inp s = s
    ∨ ∃ b, pttStep a inp s
        = { s with isPttOpen := b, calls := s.calls ++ [ClientCall.SetPtt b] } := by
  unfold pttStep
  split_ifs
  all_goals first
    | exact Or.inl rfl
    | exact Or.inr ⟨_, rfl⟩

theorem pttStep_registry (a : Adapter) (inp : FrameInput) (s : AppState) :
    (pttStep a inp s).FetchedStations = s.FetchedStations := by
  rcases pttStep_eq a inp s with h | ⟨b, h⟩ <;> rw [h]

theorem bootstrapStep_distinct (U : Util) (a : Adapter) (s : AppState)
    (hd : distinctFrequencies s.FetchedStations) :
    distinctFrequencies (bootstrapStep U a s).FetchedStations := by
  unfold bootstrapStep
  split_ifs
  · exact pushIfNew_distinct _ { s with bootUpVccs := true } hd
  · exact hd

theorem connectPressed_registry (a : Adapter) (inp : FrameInput) (s : AppState) :
    (connectPressed a inp s).FetchedStations = s.FetchedStations := by
  unfold connectPressed
  simp only []
  split_ifs <;> rfl

theorem sublist_of_eq {l l1 : List StationElement} (h : l = l1) : l.Sublist l1 :=
  h ▸ List.Sublist.refl l

theorem connectControls_sublist (a : Adapter) (inp : FrameInput) (s : AppState) :
    (connectControls a inp s).FetchedStations.Sublist s.FetchedStations := by
  unfold connectControls
  split_ifs
  all_goals first
    | exact List.Sublist.refl _
    | exact List.nil_sublist _
    | exact sublist_of_eq (connectPressed_registry a inp s)

theorem gainControl_registry (a : Adapter) (inp : FrameInput) (s : AppState) :
    (gainControl a inp s).FetchedStations = s.FetchedStations := by
  unfold gainControl
  split
  · split_ifs <;> rfl
  · rfl

theorem unicomAdd_distinct (U : Util) (inp : FrameInput) (s : AppState)
    (hd : distinctFrequencies s.FetchedStations) :
    distinctFrequencies (unicomAdd U inp s).FetchedStations := by
  unfold unicomAdd
  cases h : frequencyExists s.FetchedStations U.kUnicomFrequency
  · simp only [h, Bool.not_false, if_true]
    split
    · exact distinct_append_new _ _ (by simpa [build_freq] using h) hd
    · exact hd
  · simpa [h] using hd

theorem manualAdd_distinct (U : Util) (a : Adapter) (inp : FrameInput) (s : AppState)
    (hd : distinctFrequencies s.FetchedStations) :
    distinctFrequencies (manualAdd U a inp s).FetchedStations := by
  have h0 : ∀ t : AppState, t.FetchedStations = s.FetchedStations →
      distinctFrequencies t.FetchedStations := fun t ht => ht ▸ hd
  unfold manualAdd
  simp only []
  split_ifs
  · split <;> exact h0 _ rfl
  · split <;> exact unicomAdd_distinct U inp _ (h0 _ rfl)
  · split <;> exact h0 _ rfl

theorem topControls_distinct (U : Util) (a : Adapter) (inp : FrameInput) (s : AppState)
    (hd : distinctFrequencies s.FetchedStations) :
    distinctFrequencies (topControls U a inp s).FetchedStations := by
  have hg : distinctFrequencies (gainControl a inp s).FetchedStations := by
    rw [gainControl_registry]; exact hd
  unfold topControls
  simp only []
  split_ifs
  · exact manualAdd_distinct U a inp _ hg
  · exact hg

theorem rxSpButtons_registry (ui : StationUi) (p : Polled) (el : StationElement)
    (s : AppState) : (rxSpButtons ui p el s).FetchedStations = s.FetchedStations := by
  unfold rxSpButtons
  simp only []
  split_ifs <;> rfl

theorem txXcButtons_registry (ui : StationUi) (p : Polled) (el : StationElement)
    (s : AppState) : (txXcButtons ui p el s).FetchedStations = s.FetchedStations := by
  unfold txXcButtons
  simp only []
  split_ifs <;> rfl

theorem stationButtons_registry (inp : FrameInput) (ui : StationUi) (p : Polled)
    (el : StationElement) (s : AppState) :
    (stationButtons inp ui p el s).FetchedStations = s.FetchedStations := by
  unfold stationButtons
  split_ifs
  · rw [txXcButtons_registry, rxSpButtons_registry]
  · rfl

theorem staleLoop_sublist (a : Adapter) (inp : FrameInput) (n i : Nat) (s : AppState) :
    (staleLoop a inp i n s).FetchedStations.Sublist s.FetchedStations := by
  induction n generalizing i s with
  | zero => exact List.Sublist.refl _
  | succ n ih =>
    unfold staleLoop
    simp only []
    refine (ih _ _).trans ?_
    rw [stationButtons_registry]
    split_ifs
    all_goals first
      | exact List.Sublist.refl _
      | exact List.filter_sublist _

theorem stationLoop_sublist (a : Adapter) (inp : FrameInput) (todo : List StationElement)
    (i : Nat) (s : AppState) :
    (stationLoop a inp i todo s).FetchedStations.Sublist s.FetchedStations := by
  induction todo generalizing i s with
  | nil => exact List.Sublist.refl _
  | cons el rest ih =>
    unfold stationLoop
    simp only []
    by_cases hr : (inp.stationUi i).removeStation = true
    · rw [if_pos hr]
      refine (staleLoop_sublist a inp _ _ _).trans ?_
      rw [stationButtons_registry]
      split_ifs <;> exact List.filter_sublist _
    · rw [if_neg hr]
      refine (ih _ _).trans ?_
      rw [stationButtons_registry]
      split_ifs <;> exact List.Sublist.refl _

theorem modalTrigger_registry (s : AppState) :
    (modalTrigger s).FetchedStations = s.FetchedStations := by
  unfold modalTrigger
  split_ifs <;> rfl

theorem snapshotRebuild_registry (inp : FrameInput) (live : List String) (s : AppState) :
    (snapshotRebuild inp live s).FetchedStations = s.FetchedStations := by
  unfold snapshotRebuild
  split_ifs <;> rfl

theorem render_frame_distinct (U : Util) (m : Option Adapter) (inp : FrameInput)
    (s s1 : AppState) (h : render_frame U m inp s = some s1)
    (hd : distinctFrequencies s.FetchedStations) :
    distinctFrequencies s1.FetchedStations := by
  cases m with
  | none => simp [render_frame] at h
  | some a =>
    simp only [render_frame, Option.some.injEq] at h
    subst h
    rw [snapshotRebuild_registry, modalTrigger_registry]
    have h1 : distinctFrequencies (bootstrapStep U a (pttStep a inp s)).FetchedStations :=
      bootstrapStep_distinct U a _ (by rw [pttStep_registry]; exact hd)
    have h2 : distinctFrequencies
        (if ctrls_cols inp ≥ 4 then connectControls a inp (bootstrapStep U a (pttStep a inp s))
          else bootstrapStep U a (pttStep a inp s)).FetchedStations := by
      split_ifs
      · exact h1.sublist (connectControls_sublist a inp _)
      · exact h1
    have h3 : ∀ t : AppState, distinctFrequencies t.FetchedStations →
        distinctFrequencies
          (if ctrls_cols inp ≥ 1 then topControls U a inp t else t).FetchedStations := by
      intro t ht
      split_ifs
      · exact topControls_distinct U a inp t ht
      · exact ht
    have h4 : ∀ t : AppState, distinctFrequencies t.FetchedStations →
        distinctFrequencies
          (if (!inp.collapse) = true then stationLoop a inp 0 t.FetchedStations t
            else t).FetchedStations := by
      intro t ht
      split_ifs
      · exact ht.sublist (stationLoop_sublist a inp _ _ _)
      · exact ht
    exact h4 _ (h3 _ h2)

theorem step_distinct (U : Util) (act : Action) (s s1 : AppState)
    (h : step U s act = some s1) (hd : distinctFrequencies s.FetchedStations) :
    distinctFrequencies s1.FetchedStations := by
  cases act with
  | event a evt => exact eventCallback_distinct U a evt s s1 h hd
  | frame m inp => exact render_frame_distinct U m inp s s1 h hd

theorem run_distinct (U : Util) (acts : List Action) (s s1 : AppState)
    (h : run U acts s = some s1) (hd : distinctFrequencies s.FetchedStations) :
    distinctFrequencies s1.FetchedStations := by
  induction acts generalizing s with
  | nil =>
    simp only [run, Option.some.injEq] at h
    exact h ▸ hd
  | cons act rest ih =>
    simp only [run] at h
    cases hs : step U s act with
    | none => simp [hs] at h
    | some s2 =>
      rw [hs] at h
      exact ih s2 h (step_distinct U act s s2 hs hd)

theorem step_defined (U : Util) (act : Action) (s : AppState)
    (h : act.defined = true) : ∃ s1, step U s act = some s1 := by
  cases act with
  | event a evt =>
    cases evt with
    | VccsReceived data data2 =>
      cases data <;> cases data2 <;> simp only [step, eventCallback]
      · exact ⟨_, rfl⟩
      · exact ⟨_, rfl⟩
      · exact ⟨_, rfl⟩
      · split_ifs <;> exact ⟨_, rfl⟩
    | StationTransceiversUpdated data =>
      cases data <;> simp only [step, eventCallback]
      · exact ⟨_, rfl⟩
      · split_ifs <;> exact ⟨_, rfl⟩
    | APIServerError data => cases data <;> exact ⟨_, rfl⟩
    | AudioError => exact ⟨_, rfl⟩
    | VoiceServerDisconnected => exact ⟨_, rfl⟩
    | VoiceServerError data =>
      cases data with
      | none => simp [Action.defined, ClientEvent.payloadPresent] at h
      | some c => exact ⟨_, rfl⟩
    | VoiceServerChannelError data =>
      cases data with
      | none => simp [Action.defined, ClientEvent.payloadPresent] at h
      | some c => exact ⟨_, rfl⟩
    | AudioDeviceStoppedError data =>
      cases data with
      | none => simp [Action.defined, ClientEvent.payloadPresent] at h
      | some c => exact ⟨_, rfl⟩
    | StationDataReceived data data2 =>
      cases data <;> cases data2 <;> simp only [step, eventCallback]
      · exact ⟨_, rfl⟩
      · exact ⟨_, rfl⟩
      · exact ⟨_, rfl⟩
      · split_ifs <;> exact ⟨_, rfl⟩
    | RxClosed data => cases data <;> exact ⟨_, rfl⟩
    | Other => exact ⟨_, rfl⟩
  | frame m inp =>
    cases m with
    | none => simp [Action.defined] at h
    | some a => exact ⟨_, rfl⟩

theorem run_defined (U : Util) (acts : List Action) (s : AppState)
    (h : ∀ act ∈ acts, act.defined = true) : ∃ s1, run U acts s = some s1 := by
  induction acts generalizing s with
  | nil => exact ⟨s, rfl⟩
  | cons act rest ih =>
    obtain ⟨s2, hs⟩ := step_defined U act s (h act (List.mem_cons_self _ _))
    obtain ⟨s3, hr⟩ := ih s2 (fun x hx => h x (List.mem_cons_of_mem _ hx))
    exact ⟨s3, by simp only [run, hs, hr]⟩

/-- C1. Starting from an empty registry, every finite sequence of dispatcher
events and coordination passes (which hold the bootstrap, the UNICOM add, the
station removal and the disconnect with cleanup) whose steps have a defined
result ends in a state, and in every state a sequence ends in no two stations
of the registry have the same `freq`. -/
theorem registry_frequencies_distinct (U : Util) (acts : List Action) (s0 : AppState)
    (h0 : s0.FetchedStations = []) :
    ((∀ act ∈ acts, act.defined = true) → ∃ s, run U acts s0 = some s)
    ∧ ∀ s, run U acts s0 = some s → distinctFrequencies s.FetchedStations :=
  ⟨run_defined U acts s0,
   fun s h => run_distinct U acts s0 s h (h0 ▸ List.Pairwise.nil)⟩

/-- Witness of C1: the sample run ends with the ground and UNICOM stations
registered, on distinct frequencies. -/
theorem registry_frequencies_distinct_witness :
    idleState.FetchedStations = []
    ∧ ∃ s, run sampleUtil sampleRun idleState = some s
      ∧ s.FetchedStations.map (fun st => (st.callsign, st.freq))
          = [("LFPG_GND", 121800000), ("AFR123", 122800000)]
      ∧ distinctFrequencies s.FetchedStations := by
  refine ⟨rfl, ?_⟩
  obtain ⟨s, hs⟩ :=
    (registry_frequencies_distinct sampleUtil sampleRun idleState rfl).1 (by decide)
  refine ⟨s, hs, ?_,
    (registry_frequencies_distinct sampleUtil sampleRun idleState rfl).2 s hs⟩
  have hv : (run sampleUtil sampleRun idleState).map
      (fun t => t.FetchedStations.map (fun st => (st.callsign, st.freq)))
      = some [("LFPG_GND", 121800000), ("AFR123", 122800000)] := by decide
  rw [hs] at hv
  simpa using hv

/-! ### The bootstrap pass -/

theorem connectControls_quiet (a : Adapter) (inp : FrameInput) (s : AppState)
    (hc : inp.connectButton = false) (hd : inp.disconnectButton = false)
    (hl : s.session.is_connected = true) : connectControls a inp s = s := by
  simp [connectControls, hc, hd, hl]

theorem topControls_quiet (U : Util) (a : Adapter) (inp : FrameInput) (s : AppState)
    (hg : inp.gainSlider = none) (ht : inp.callsignText = none)
    (he : inp.callsignEnter = false) (hb : inp.addButton = false) :
    topControls U a inp s = s := by
  simp [topControls, gainControl, manualAdd, hg, ht, he, hb]

theorem stationLoop_quiet (a : Adapter) (inp : FrameInput) (todo : List StationElement)
    (i : Nat) (s : AppState) (h : ∀ i, inp.stationUi i = StationUi.idle) :
    stationLoop a inp i todo s = s := by
  induction todo generalizing i s with
  | nil => rfl
  | cons el rest ih =>
    unfold stationLoop
    simp [h, StationUi.idle, stationButtons, rxSpButtons, txXcButtons, ih]

theorem render_frame_quiet (U : Util) (a : Adapter) (inp : FrameInput) (s : AppState)
    (hq : noUserInput inp)
    (hl : (bootstrapStep U a (pttStep a inp s)).session.is_connected = true
      ∨ ctrls_cols inp < 4) :
    render_frame U (some a) inp s
      = some (snapshotRebuild inp [] (modalTrigger (bootstrapStep U a (pttStep a inp s)))) := by
  obtain ⟨hc, hd, hg, ht, he, hb, hs⟩ := hq
  have h2 : (if ctrls_cols inp ≥ 4 then
        connectControls a inp (bootstrapStep U a (pttStep a inp s))
      else bootstrapStep U a (pttStep a inp s)) = bootstrapStep U a (pttStep a inp s) := by
    split_ifs with h4
    · rcases hl with hl | hl
      · exact connectControls_quiet a inp _ hc hd hl
      · omega
    · rfl
  simp only [render_frame, h2, topControls_quiet U a inp _ hg ht he hb,
    stationLoop_quiet a inp _ _ _ hs, ite_self]

theorem pttStep_issued (a : Adapter) (inp : FrameInput) (s : AppState) :
    ∃ issued, (pttStep a inp s).calls = s.calls ++ issued
      ∧ ∀ c ∈ issued, ∃ b, c = ClientCall.SetPtt b := by
  rcases pttStep_eq a inp s with h | ⟨b, h⟩
  · exact ⟨[], by rw [h, List.append_nil], by simp⟩
  · exact ⟨[ClientCall.SetPtt b], by rw [h], by simp⟩

theorem pttStep_bootstrapCalls (a : Adapter) (inp : FrameInput) (s : AppState)
    (c : String) : bootstrapCalls (pttStep a inp s) c = bootstrapCalls s c := by
  rcases pttStep_eq a inp s with h | ⟨b, h⟩
  · rw [h]
  · rw [h]
    rfl

theorem pttStep_session (a : Adapter) (inp : FrameInput) (s : AppState) :
    (pttStep a inp s).session = s.session := by
  rcases pttStep_eq a inp s with h | ⟨b, h⟩ <;> rw [h]

theorem pttStep_bootUpVccs (a : Adapter) (inp : FrameInput) (s : AppState) :
    (pttStep a inp s).bootUpVccs = s.bootUpVccs := by
  rcases pttStep_eq a inp s with h | ⟨b, h⟩ <;> rw [h]

theorem bootstrapStep_fires (U : Util) (a : Adapter) (s : AppState)
    (hapi : a.IsAPIConnected s.calls = true) (hreg : s.FetchedStations = [])
    (hboot : s.bootUpVccs = false) :
    bootstrapStep U a s
      = { s with
          bootUpVccs := true
          FetchedStations :=
            [StationElement.build U (U.ReplaceString s.session.callsign "__" "_")
              s.session.frequency]
          calls := s.calls
            ++ bootstrapCalls s (U.ReplaceString s.session.callsign "__" "_") } := by
  simp [bootstrapStep, hapi, hreg, hboot, pushIfNew, frequencyExists, callAll, bootstrapCalls]

theorem bootstrapCalls_spec (s : AppState) (c : String) :
    ClientCall.AddFrequency s.session.frequency c ∈ bootstrapCalls s c
    ∧ ClientCall.SetRx s.session.frequency true ∈ bootstrapCalls s c
    ∧ (ClientCall.SetTx s.session.frequency true ∈ bootstrapCalls s c
        ↔ s.session.facility > 0)
    ∧ (ClientCall.SetXc s.session.frequency true ∈ bootstrapCalls s c
        ↔ s.session.facility > 0) := by
  unfold bootstrapCalls
  split_ifs with h <;> simp [h]

/-- Counterexample to C6 as stated: the registry is empty, the bootstrap flag
unset, the engine reports the API connected and the user does nothing, but
the data feed has reported the network connection gone
(`session::is_connected` false).  The pass bootstraps the station and, further
down, its Disconnect control runs the automatic `disconnectAndCleanup`: after
the pass the registry is empty again and the flag is unset. -/
theorem bootstrap_undone_by_auto_disconnect :
    lostLinkState.FetchedStations = []
    ∧ lostLinkState.bootUpVccs = false
    ∧ apiConnectedAtBootstrap engineOnline wideQuietFrame lostLinkState = true
    ∧ noUserInput wideQuietFrame
    ∧ (render_frame sampleUtil (some engineOnline) wideQuietFrame lostLinkState).map
        (fun s => (s.FetchedStations, s.bootUpVccs)) = some ([], false) :=
  ⟨rfl, rfl, rfl, ⟨rfl, rfl, rfl, rfl, rfl, rfl, fun _ => rfl⟩, by decide⟩

/-- C6 (amended). If the registry is empty, the bootstrap flag is unset, the
engine reports the API connected, and the pass does not disconnect
automatically (`session::is_connected` is true, or the column of the Connect and
Disconnect controls is not drawn), then after one coordination pass with no
user input the registry holds exactly one station, whose callsign is the
session callsign with "__" replaced by "_" and whose frequency is the session
frequency; the flag is set; among the commands issued in the pass the engine
was told to add that frequency and to enable receive on it, and it was told to
enable transmit, and cross-couple, on it if and only if `facility > 0`. -/
theorem bootstrap_pass (U : Util) (a : Adapter) (inp : FrameInput) (s : AppState)
    (hreg : s.FetchedStations = []) (hboot : s.bootUpVccs = false)
    (hapi : apiConnectedAtBootstrap a inp s = true) (hq : noUserInput inp)
    (hl : s.session.is_connected = true ∨ ctrls_cols inp < 4) :
    ∃ s1 issued, render_frame U (some a) inp s = some s1
      ∧ s1.FetchedStations
          = [StationElement.build U (U.ReplaceString s.session.callsign "__" "_")
              s.session.frequency]
      ∧ (∀ st ∈ s1.FetchedStations,
          st.callsign = U.ReplaceString s.session.callsign "__" "_"
          ∧ st.freq = s.session.frequency)
      ∧ s1.bootUpVccs = true
      ∧ s1.calls = s.calls ++ issued
      ∧ ClientCall.AddFrequency s.session.frequency
          (U.ReplaceString s.session.callsign "__" "_") ∈ issued
      ∧ ClientCall.SetRx s.session.frequency true ∈ issued
      ∧ (ClientCall.SetTx s.session.frequency true ∈ issued ↔ s.session.facility > 0)
      ∧ (ClientCall.SetXc s.session.frequency true ∈ issued ↔ s.session.facility > 0) := by
  have hb := bootstrapStep_fires U a (pttStep a inp s) hapi
    (by rw [pttStep_registry]; exact hreg) (by rw [pttStep_bootUpVccs]; exact hboot)
  rw [pttStep_session, pttStep_bootstrapCalls] at hb
  have hl1 : (bootstrapStep U a (pttStep a inp s)).session.is_connected = true
      ∨ ctrls_cols inp < 4 := by
    rcases hl with hl | hl
    · left
      rw [hb]
      exact hl
    · exact Or.inr hl
  obtain ⟨pttIssued, hp, hptt⟩ := pttStep_issued a inp s
  obtain ⟨c1, c2, c3, c4⟩ :=
    bootstrapCalls_spec s (U.ReplaceString s.session.callsign "__" "_")
  have hnotTx : ∀ f b, ClientCall.SetTx f b ∉ pttIssued := by
    intro f b hm
    obtain ⟨b1, hb1⟩ := hptt _ hm
    cases hb1
  have hnotXc : ∀ f b, ClientCall.SetXc f b ∉ pttIssued := by
    intro f b hm
    obtain ⟨b1, hb1⟩ := hptt _ hm
    cases hb1
  refine ⟨_, pttIssued
      ++ bootstrapCalls s (U.ReplaceString s.session.callsign "__" "_"),
    render_frame_quiet U a inp s hq hl1, ?_, ?_, ?_, ?_, ?_, ?_, ?_, ?_⟩
  · rw [snapshotRebuild_registry, modalTrigger_registry, hb]
  · rw [snapshotRebuild_registry, modalTrigger_registry, hb]
    intro st hst
    rw [List.mem_singleton] at hst
    subst hst
    exact ⟨rfl, rfl⟩
  · rw [hb]
    simp only [snapshotRebuild, modalTrigger]
    split_ifs <;> rfl
  · rw [hb]
    simp only [snapshotRebuild, modalTrigger]
    split_ifs <;> simp [hp, List.append_assoc]
  · exact List.mem_append_right _ c1
  · exact List.mem_append_right _ c2
  · rw [List.mem_append]
    exact ⟨fun h => h.elim (fun h1 => absurd h1 (hnotTx _ _)) c3.1,
      fun h => Or.inr (c3.2 h)⟩
  · rw [List.mem_append]
    exact ⟨fun h => h.elim (fun h1 => absurd h1 (hnotXc _ _)) c4.1,
      fun h => Or.inr (c4.2 h)⟩

/-- Witness of C6: the bootstrap pass from the idle state registers the tower
station, with transmit and cross-couple enabled as the facility is 4. -/
theorem bootstrap_pass_witness :
    idleState.FetchedStations = []
    ∧ idleState.bootUpVccs = false
    ∧ apiConnectedAtBootstrap engineOnline wideQuietFrame idleState = true
    ∧ noUserInput wideQuietFrame
    ∧ idleState.session.is_connected = true
    ∧ ∃ s1, render_frame sampleUtil (some engineOnline) wideQuietFrame idleState = some s1
      ∧ s1.FetchedStations = [towerStation] := by
  have hq : noUserInput wideQuietFrame := ⟨rfl, rfl, rfl, rfl, rfl, rfl, fun _ => rfl⟩
  obtain ⟨s1, issued, h1, h2, _⟩ :=
    bootstrap_pass sampleUtil engineOnline wideQuietFrame idleState rfl rfl rfl hq
      (Or.inl rfl)
  exact ⟨rfl, rfl, rfl, hq, rfl, s1, h1, by rw [h2]; decide⟩

/-! ### Normalization at ingestion -/

theorem vccsFrequency_eq_normalize (U : Util) (x : Nat) :
    vccsFrequency U x = normalizeFrequency U x := by
  unfold vccsFrequency normalizeFrequency
  cases U.isValid8_33kHzChannel x <;> rfl

theorem vccsAdd_eq_ingest (U : Util) (s : AppState) (e : String × Nat) :
    vccsAdd U s e = ingest U e.1 e.2 s := by
  unfold vccsAdd ingest pushIfNew
  rw [build_freq, vccsFrequency_eq_normalize]
  cases frequencyExists s.FetchedStations (normalizeFrequency U e.2) <;>
    simp [StationElement.build]

/-- C11. With `cleanUpFrequency` the normalization the spec describes, both
ingestion paths use the normalized value of the incoming frequency (the value
itself when it is a valid 8.33 kHz channel, otherwise its rounding to the
nearest valid channel) for the dedup check and store it in the new station: a
`VccsReceived` map handled while voice is connected ingests its entries one
after the other in map order, a found `StationDataReceived` result ingests its
pair, both with the same normalization. -/
theorem ingestion_normalizes (U : Util) (a : Adapter) (s : AppState)
    (hc : U.cleanUpNormalizes) :
    (∀ (d : Unit) (stations : List (String × Nat)),
      a.IsVoiceConnected s.calls = true →
      eventCallback U a (ClientEvent.VccsReceived (some d) (some stations)) s
        = some (stations.foldl (fun st e => ingest U e.1 e.2 st) s))
    ∧ (∀ station : String × Nat,
      eventCallback U a (ClientEvent.StationDataReceived (some true) (some station)) s
        = some (ingest U station.1 station.2 s)) := by
  constructor
  · intro d stations hv
    have hf : vccsAdd U = fun st e => ingest U e.1 e.2 st := by
      funext st e
      exact vccsAdd_eq_ingest U st e
    simp only [eventCallback, hv, if_true, hf]
  · intro station
    have hv := vccsAdd_eq_ingest U s station
    unfold vccsAdd at hv
    rw [vccsFrequency_eq_normalize, ← hc station.2] at hv
    simp only [eventCallback, if_true]
    rw [hv]

/-- Witness of C11: on the sample helpers a search result on 121.800001 is
stored on 121.800, and a VCCS map with a value rounding to the tower frequency
adds only the ground station. -/
theorem ingestion_normalizes_witness :
    sampleUtil.cleanUpNormalizes
    ∧ (eventCallback sampleUtil engineOnline
        (ClientEvent.StationDataReceived (some true) (some ("LFPG_GND", 121800001)))
        towerState).map (fun t => t.FetchedStations.map (fun st => (st.callsign, st.freq)))
        = some [("LFPG_TWR", 118700000), ("LFPG_GND", 121800000)]
    ∧ (eventCallback sampleUtil engineOnline
        (ClientEvent.VccsReceived (some ())
          (some [("LFPG_APP", 118700001), ("LFPG_GND", 121800001)]))
        towerState).map (fun t => t.FetchedStations.map (fun st => (st.callsign, st.freq)))
        = some [("LFPG_TWR", 118700000), ("LFPG_GND", 121800000)] := by
  have h : sampleUtil.cleanUpNormalizes := fun _ => rfl
  refine ⟨h, ?_, ?_⟩
  · rw [(ingestion_normalizes sampleUtil engineOnline towerState h).2]
    decide
  · rw [(ingestion_normalizes sampleUtil engineOnline towerState h).1 () _ rfl]
    decide

/-- C12. With a rounding that returns a valid channel, the normalization
applied at ingestion (`x` if `isValid8_33kHzChannel(x)`, else
`round8_33kHzChannel(x)`, as written in the `VccsReceived` loop) is idempotent:
normalizing a normalized frequency returns it. -/
theorem normalization_idempotent (U : Util) (hr : U.roundsToValid) (x : Nat) :
    vccsFrequency U (vccsFrequency U x) = vccsFrequency U x
    ∧ normalizeFrequency U (normalizeFrequency U x) = normalizeFrequency U x := by
  have h : normalizeFrequency U (normalizeFrequency U x) = normalizeFrequency U x := by
    unfold normalizeFrequency
    cases hx : U.isValid8_33kHzChannel x
    · simp [hr x]
    · simp [hx]
  exact ⟨by simpa [vccsFrequency_eq_normalize] using h, h⟩

/-- Witness of C12: on the sample helpers (5 kHz grid) 118.700001 normalizes
to 118.700, which normalizes to itself. -/
theorem normalization_idempotent_witness :
    sampleUtil.roundsToValid
    ∧ vccsFrequency sampleUtil 118700001 = 118700000
    ∧ vccsFrequency sampleUtil (vccsFrequency sampleUtil 118700001)
        = vccsFrequency sampleUtil 118700001 := by
  have h : sampleUtil.roundsToValid := by
    intro x
    simp [sampleUtil]
  exact ⟨h, by decide, (normalization_idempotent sampleUtil h 118700001).1⟩

/-! ### Error events -/

/-- Support for C13: the five handlers that test their payload slots ignore an
event delivered with a null slot (the whole state is unchanged). -/
theorem null_payload_ignored_where_tested (U : Util) (a : Adapter) (s : AppState)
    (d : Option Unit) (d2 : Option (List (String × Nat))) (b : Option Bool)
    (p : Option (String × Nat)) :
    eventCallback U a (ClientEvent.VccsReceived none d2) s = some s
    ∧ eventCallback U a (ClientEvent.VccsReceived d none) s = some s
    ∧ eventCallback U a (ClientEvent.StationTransceiversUpdated none) s = some s
    ∧ eventCallback U a (ClientEvent.APIServerError none) s = some s
    ∧ eventCallback U a (ClientEvent.StationDataReceived none p) s = some s
    ∧ eventCallback U a (ClientEvent.StationDataReceived b none) s = some s
    ∧ eventCallback U a (ClientEvent.RxClosed none) s = some s := by
  refine ⟨?_, ?_, rfl, rfl, ?_, ?_, rfl⟩
  · cases d2 <;> rfl
  · cases d <;> rfl
  · cases p <;> rfl
  · cases b <;> rfl

/-- C13, the code at the failing inputs. A `VoiceServerError`, a
`VoiceServerChannelError` and an `AudioDeviceStoppedError` event delivered with
a null payload: the handler dereferences `data` without a test, so the event is
not ignored and the handling has no defined result. -/
theorem null_payload_dereferenced :
    eventCallback sampleUtil engineOnline (ClientEvent.VoiceServerError none) towerState
      = none
    ∧ eventCallback sampleUtil engineOnline (ClientEvent.VoiceServerChannelError none)
        towerState = none
    ∧ eventCallback sampleUtil engineOnline (ClientEvent.AudioDeviceStoppedError none)
        towerState = none :=
  ⟨rfl, rfl, rfl⟩

/-- C14. Each terminal error event that is not an API error, delivered with a
valid payload, raises the error modal and runs the cleanup primitive: after
handling `showErrorModal_` is true, the registry is empty, the bootstrap flag
is false and the engine was sent the commands of `disconnectAndCleanup`; the
message of `VoiceServerError` and of `VoiceServerChannelError` holds the decimal
error code, that of `AudioDeviceStoppedError` the device name. -/
theorem terminal_error_teardown (U : Util) (a : Adapter) (s : AppState)
    (err_code : Int) (device : String) :
    (∃ s1, eventCallback U a ClientEvent.AudioError s = some s1
      ∧ s1.showErrorModal_ = true
      ∧ s1.lastErrorModalMessage_
          = "Error starting audio devices.\nPlease check your log file for details.\nCheck your audio config!"
      ∧ s1.FetchedStations = [] ∧ s1.bootUpVccs = false
      ∧ s1.calls = s.calls ++ cleanupCalls s.FetchedStations)
    ∧ (∃ s1, eventCallback U a (ClientEvent.VoiceServerError (some err_code)) s = some s1
      ∧ s1.showErrorModal_ = true
      ∧ s1.lastErrorModalMessage_
          = "Voice server returned error " ++ toString err_code
            ++ ", please check the log file."
      ∧ s1.FetchedStations = [] ∧ s1.bootUpVccs = false
      ∧ s1.calls = s.calls ++ cleanupCalls s.FetchedStations)
    ∧ (∃ s1, eventCallback U a (ClientEvent.VoiceServerChannelError (some err_code)) s
          = some s1
      ∧ s1.showErrorModal_ = true
      ∧ s1.lastErrorModalMessage_
          = "Voice server returned channel error " ++ toString err_code
            ++ ", please check the log file."
      ∧ s1.FetchedStations = [] ∧ s1.bootUpVccs = false
      ∧ s1.calls = s.calls ++ cleanupCalls s.FetchedStations)
    ∧ (∃ s1, eventCallback U a (ClientEvent.AudioDeviceStoppedError (some device)) s
          = some s1
      ∧ s1.showErrorModal_ = true
      ∧ s1.lastErrorModalMessage_
          = "The audio device " ++ device
            ++ " has stopped working , check if they are still physically connected."
      ∧ s1.FetchedStations = [] ∧ s1.bootUpVccs = false
      ∧ s1.calls = s.calls ++ cleanupCalls s.FetchedStations) := by
  refine ⟨⟨_, rfl, rfl, rfl, rfl, rfl, ?_⟩, ⟨_, rfl, rfl, rfl, rfl, rfl, ?_⟩,
    ⟨_, rfl, rfl, rfl, rfl, rfl, ?_⟩, ⟨_, rfl, rfl, rfl, rfl, rfl, ?_⟩⟩ <;>
  simp [disconnectAndCleanup, errorModal, playErrorSound, cleanupCalls]

/-- Support for C14: the decimal text of the code 42 is in the message of the
voice server error. -/
theorem voice_error_message_sample :
    (eventCallback sampleUtil engineOnline (ClientEvent.VoiceServerError (some 42))
        towerState).map (fun t => t.lastErrorModalMessage_)
      = some "Voice server returned error 42, please check the log file." := by
  decide

/-- C15, the code at the counterexample. An `APIServerError` event whose kind
is none of those the handler names is not an invalid-credentials error, and
handling it plays no failure sound. -/
theorem api_error_unnamed_kind_is_silent :
    invalidCredentials APISessionError.Other = false
    ∧ (eventCallback sampleUtil engineOnline
        (ClientEvent.APIServerError (some APISessionError.Other)) towerState).map
        (fun t => t.errorSounds) = some towerState.errorSounds := by
  decide

/-- C15, amended. Failure-sound policy of the error events, in invocations of
`playErrorSound`: an `APIServerError` with its payload plays it once for each
of `ConnectionError`, `BadRequestOrClientIncompatible`, `InvalidAuthToken`,
`AuthTokenExpiryTimeInPast` and `OtherRequestError`, and not at all for
`BadPassword`, for `RejectedCredentials` and for a kind the handler names none
of; `VoiceServerError`, `VoiceServerChannelError` and `AudioDeviceStoppedError`
with their payload play it once; `AudioError` plays none. -/
theorem failure_sound_policy (U : Util) (a : Adapter) (s : AppState)
    (err : APISessionError) (err_code : Int) (device : String) :
    (eventCallback U a (ClientEvent.APIServerError (some err)) s).map
        (fun t => t.errorSounds)
      = some (s.errorSounds
          + (if invalidCredentials err || err = APISessionError.Other then 0 else 1))
    ∧ (eventCallback U a (ClientEvent.VoiceServerError (some err_code)) s).map
        (fun t => t.errorSounds) = some (s.errorSounds + 1)
    ∧ (eventCallback U a (ClientEvent.VoiceServerChannelError (some err_code)) s).map
        (fun t => t.errorSounds) = some (s.errorSounds + 1)
    ∧ (eventCallback U a (ClientEvent.AudioDeviceStoppedError (some device)) s).map
        (fun t => t.errorSounds) = some (s.errorSounds + 1)
    ∧ (eventCallback U a ClientEvent.AudioError s).map (fun t => t.errorSounds)
        = some s.errorSounds := by
  refine ⟨?_, rfl, rfl, rfl, rfl⟩
  cases err <;>
    simp [eventCallback, apiServerError, invalidCredentials, errorModal, playErrorSound,
      disconnectAndCleanup]

/-! ### The commands a pass issues -/

theorem render_frame_eq (U : Util) (a : Adapter) (inp : FrameInput) (s : AppState) :
    render_frame U (some a) inp s = some (passAfterPtt U a inp (pttStep a inp s)) :=
  rfl

theorem Issues.refl (K : List CallKind) (s : AppState) : Issues K s s :=
  ⟨[], by simp, by simp⟩

theorem Issues.of_calls_eq {K : List CallKind} {s s1 : AppState}
    (h : s1.calls = s.calls) : Issues K s s1 :=
  ⟨[], by simp [h], by simp⟩

theorem Issues.trans {K : List CallKind} {s s1 s2 : AppState} (h1 : Issues K s s1)
    (h2 : Issues K s1 s2) : Issues K s s2 := by
  obtain ⟨i1, e1, k1⟩ := h1
  obtain ⟨i2, e2, k2⟩ := h2
  refine ⟨i1 ++ i2, by rw [e2, e1, List.append_assoc], ?_⟩
  intro c hc
  rcases List.mem_append.1 hc with h | h
  · exact k1 c h
  · exact k2 c h

theorem Issues.mono {K K1 : List CallKind} {s s1 : AppState} (h : ∀ k ∈ K, k ∈ K1)
    (h1 : Issues K s s1) : Issues K1 s s1 := by
  obtain ⟨i1, e1, k1⟩ := h1
  exact ⟨i1, e1, fun c hc => h _ (k1 c hc)⟩

theorem issues_callAll {K : List CallKind} (cs : List ClientCall) (s : AppState)
    (h : ∀ c ∈ cs, c.kind ∈ K) : Issues K s (callAll cs s) :=
  ⟨cs, rfl, h⟩

theorem issues_call {K : List CallKind} (c : ClientCall) (s : AppState)
    (h : c.kind ∈ K) : Issues K s (call c s) :=
  ⟨[c], rfl, by simpa using h⟩

theorem pttStep_issues (a : Adapter) (inp : FrameInput) (s : AppState) :
    Issues [CallKind.SetPtt] s (pttStep a inp s) := by
  rcases pttStep_eq a inp s with h | ⟨b, h⟩
  · rw [h]
    exact Issues.refl _ _
  · rw [h]
    exact ⟨[ClientCall.SetPtt b], rfl, by simp [ClientCall.kind]⟩

theorem pushIfNew_calls (el : StationElement) (s : AppState) :
    (pushIfNew el s).calls = s.calls := by
  unfold pushIfNew
  split_ifs <;> rfl

theorem bootstrapCalls_kinds (s : AppState) (cs : String) :
    ∀ c ∈ bootstrapCalls s cs, c.kind ∈ bootstrapKinds := by
  unfold bootstrapCalls
  split_ifs <;> simp [ClientCall.kind, bootstrapKinds]

theorem bootstrapStep_issues (U : Util) (a : Adapter) (s : AppState) :
    Issues bootstrapKinds s (bootstrapStep U a s) := by
  unfold bootstrapStep
  split_ifs
  · refine ⟨bootstrapCalls s (U.ReplaceString s.session.callsign "__" "_"), ?_,
      bootstrapCalls_kinds s _⟩
    simp only [callAll, pushIfNew_calls]
  · exact Issues.refl _ _

theorem connectPosition_kind (inp : FrameInput) (s : AppState) :
    (connectPosition inp s).kind = CallKind.SetClientPosition := by
  unfold connectPosition
  split_ifs
  · split <;> rfl
  · rfl

theorem connectPosition_eq (inp : FrameInput) (s : AppState) :
    connectPosition inp s = positionByPriority inp s := by
  unfold connectPosition positionByPriority
  cases inp.slurperAvailableForPosition <;> rfl

theorem connectPressed_calls (a : Adapter) (inp : FrameInput) (s : AppState) :
    (connectPressed a inp s).calls
      = if connectedAfterCheck inp s then
          s.calls ++ connectPreCalls a s ++ connectCalls inp s
        else s.calls := by
  unfold connectPressed connectedAfterCheck connectPreCalls connectCalls
  simp only [connectPosition_eq, positionByPriority]
  split_ifs <;> simp_all [call, callAll, errorModal]

theorem positionByPriority_kind (inp : FrameInput) (s : AppState) :
    (positionByPriority inp s).kind = CallKind.SetClientPosition := by
  unfold positionByPriority
  split_ifs
  · rfl
  · split <;> rfl

theorem connectPreCalls_kinds (a : Adapter) (s : AppState) :
    ∀ c ∈ connectPreCalls a s, c.kind ∈ connectKinds := by
  unfold connectPreCalls
  split_ifs <;> simp [ClientCall.kind, connectKinds]

theorem connectCalls_kinds (inp : FrameInput) (s : AppState) :
    ∀ c ∈ connectCalls inp s, c.kind ∈ connectKinds := by
  intro c hc
  simp only [connectCalls, List.mem_cons, List.mem_singleton, List.not_mem_nil,
    or_false] at hc
  rcases hc with h | h | h | h | h | h | h | h | h | h | h <;> subst h
  all_goals first
    | (rw [positionByPriority_kind]; simp [connectKinds])
    | simp [ClientCall.kind, connectKinds]

theorem connectPressed_issues (a : Adapter) (inp : FrameInput) (s : AppState) :
    Issues connectKinds s (connectPressed a inp s) := by
  refine ⟨if connectedAfterCheck inp s then connectPreCalls a s ++ connectCalls inp s
    else [], ?_, ?_⟩
  · rw [connectPressed_calls]
    split_ifs <;> simp
  · intro c hc
    split_ifs at hc
    · rcases List.mem_append.1 hc with h | h
      · exact connectPreCalls_kinds a s c h
      · exact connectCalls_kinds inp s c h
    · simp at hc

theorem cleanup_issues (m : Option Adapter) (s : AppState) :
    Issues cleanupKinds s (disconnectAndCleanup m s) := by
  cases m with
  | none => exact Issues.refl _ _
  | some a =>
    refine ⟨cleanupCalls s.FetchedStations, by simp [disconnectAndCleanup, cleanupCalls], ?_⟩
    intro c hc
    simp only [cleanupCalls, List.mem_append, List.mem_cons, List.mem_singleton,
      List.mem_map, List.not_mem_nil, or_false] at hc
    rcases hc with (h | h) | ⟨f, _, h⟩ <;> subst h <;> simp [ClientCall.kind, cleanupKinds]

theorem connectControls_issues (a : Adapter) (inp : FrameInput) (s : AppState) :
    Issues (connectKinds ++ cleanupKinds) s (connectControls a inp s) := by
  unfold connectControls
  split_ifs
  all_goals first
    | exact Issues.refl _ _
    | exact (connectPressed_issues a inp s).mono (fun k hk => List.mem_append_left _ hk)
    | exact (cleanup_issues (some a) _).mono (fun k hk => List.mem_append_right _ hk)

theorem gainControl_issues (a : Adapter) (inp : FrameInput) (s : AppState) :
    Issues topKinds s (gainControl a inp s) := by
  unfold gainControl
  split
  · split_ifs
    · exact (Issues.of_calls_eq rfl).trans (issues_call _ _ (by simp [ClientCall.kind, topKinds, stationKinds, connectKinds]))
    · exact Issues.of_calls_eq rfl
  · exact Issues.refl _ _

theorem unicomAdd_issues (U : Util) (inp : FrameInput) (s : AppState) :
    Issues topKinds s (unicomAdd U inp s) := by
  unfold unicomAdd
  split_ifs
  · split
    · exact (Issues.of_calls_eq rfl).trans
        (issues_callAll _ _ (by simp [ClientCall.kind, topKinds]))
    · exact Issues.of_calls_eq rfl
  · exact Issues.of_calls_eq rfl

theorem manualAdd_issues (U : Util) (a : Adapter) (inp : FrameInput) (s : AppState) :
    Issues topKinds s (manualAdd U a inp s) := by
  have h0 : ∀ t : AppState, t.calls = s.calls → Issues topKinds s t :=
    fun t ht => Issues.of_calls_eq ht
  unfold manualAdd
  simp only []
  split_ifs
  · refine Issues.trans ?_ (Issues.of_calls_eq rfl)
    refine (h0 _ ?_).trans ((issues_call _ _ (by simp [ClientCall.kind, topKinds, stationKinds, connectKinds])).trans (issues_call _ _ (by simp [ClientCall.kind, topKinds, stationKinds, connectKinds])))
    split <;> rfl
  · refine Issues.trans ?_ (Issues.of_calls_eq rfl)
    refine (h0 _ ?_).trans (unicomAdd_issues U inp _)
    split <;> rfl
  · exact h0 _ (by split <;> rfl)

theorem topControls_issues (U : Util) (a : Adapter) (inp : FrameInput) (s : AppState) :
    Issues topKinds s (topControls U a inp s) := by
  unfold topControls
  simp only []
  split_ifs
  · exact (gainControl_issues a inp s).trans (manualAdd_issues U a inp _)
  · exact gainControl_issues a inp s

theorem activateCalls_kinds (s : AppState) (el : StationElement)
    (switches : List ClientCall) (h : ∀ c ∈ switches, c.kind ∈ stationKinds) :
    ∀ c ∈ activateCalls s el switches, c.kind ∈ stationKinds := by
  intro c hc
  simp only [activateCalls, List.mem_append, List.mem_cons, List.mem_singleton,
    List.not_mem_nil, or_false] at hc
  rcases hc with ((h1 | h1 | h1 | h1) | h1) | h1
  · subst h1; simp [ClientCall.kind, stationKinds]
  · subst h1; simp [ClientCall.kind, stationKinds]
  · subst h1; simp [ClientCall.kind, stationKinds]
  · subst h1; simp [ClientCall.kind, stationKinds]
  · exact h c h1
  · subst h1; simp [ClientCall.kind, stationKinds]

theorem rxSpButtons_issues (ui : StationUi) (p : Polled) (el : StationElement)
    (s : AppState) : Issues stationKinds s (rxSpButtons ui p el s) := by
  unfold rxSpButtons
  simp only []
  split_ifs
  all_goals first
    | exact Issues.refl _ _
    | exact issues_call _ _ (by simp [ClientCall.kind, stationKinds])
    | exact issues_callAll _ _
        (activateCalls_kinds _ _ _ (by simp [ClientCall.kind, stationKinds]))
    | exact (issues_call _ _ (by simp [ClientCall.kind, stationKinds])).trans
        (issues_call _ _ (by simp [ClientCall.kind, stationKinds]))
    | exact (issues_callAll _ _
        (activateCalls_kinds _ _ _ (by simp [ClientCall.kind, stationKinds]))).trans
        (issues_call _ _ (by simp [ClientCall.kind, stationKinds]))

theorem txXcButtons_issues (ui : StationUi) (p : Polled) (el : StationElement)
    (s : AppState) : Issues stationKinds s (txXcButtons ui p el s) := by
  unfold txXcButtons
  simp only []
  split_ifs
  all_goals first
    | exact Issues.refl _ _
    | exact issues_call _ _ (by simp [ClientCall.kind, stationKinds])
    | exact issues_callAll _ _
        (activateCalls_kinds _ _ _ (by simp [ClientCall.kind, stationKinds]))
    | exact (issues_call _ _ (by simp [ClientCall.kind, stationKinds])).trans
        (issues_call _ _ (by simp [ClientCall.kind, stationKinds]))
    | exact (issues_callAll _ _
        (activateCalls_kinds _ _ _ (by simp [ClientCall.kind, stationKinds]))).trans
        (issues_callAll _ _
          (activateCalls_kinds _ _ _ (by simp [ClientCall.kind, stationKinds])))

theorem removeStation_issues (el : StationElement) (s : AppState) :
    Issues stationKinds s (removeStation el s) :=
  ⟨[ClientCall.RemoveFrequency el.freq], rfl, by simp [ClientCall.kind, stationKinds]⟩

theorem stationButtons_issues (inp : FrameInput) (ui : StationUi) (p : Polled)
    (el : StationElement) (s : AppState) :
    Issues stationKinds s (stationButtons inp ui p el s) := by
  unfold stationButtons
  split_ifs
  · exact (rxSpButtons_issues ui p el s).trans (txXcButtons_issues ui p el _)
  · exact Issues.refl _ _

theorem staleLoop_issues (a : Adapter) (inp : FrameInput) (n i : Nat) (s : AppState) :
    Issues stationKinds s (staleLoop a inp i n s) := by
  induction n generalizing i s with
  | zero => exact Issues.refl _ _
  | succ n ih =>
    have h1 : Issues stationKinds s
        (if (inp.stationUi i).refreshTransceivers = true then
          call (ClientCall.FetchTransceiverInfo (inp.staleStation i false).callsign) s
        else s) := by
      split_ifs
      · exact issues_call _ _ (by simp [ClientCall.kind, stationKinds])
      · exact Issues.refl _ _
    unfold staleLoop
    simp only []
    generalize (if (inp.stationUi i).refreshTransceivers = true then
        call (ClientCall.FetchTransceiverInfo (inp.staleStation i false).callsign) s
      else s) = s1 at h1 ⊢
    have h2 : Issues stationKinds s1
        (if (inp.stationUi i).removeStation = true then
          removeStation (inp.staleStation i false) s1
        else s1) := by
      split_ifs
      · exact removeStation_issues _ s1
      · exact Issues.refl _ _
    exact h1.trans (h2.trans ((stationButtons_issues _ _ _ _ _).trans (ih _ _)))

theorem stationLoop_issues (a : Adapter) (inp : FrameInput) (todo : List StationElement)
    (i : Nat) (s : AppState) : Issues stationKinds s (stationLoop a inp i todo s) := by
  induction todo generalizing i s with
  | nil => exact Issues.refl _ _
  | cons el rest ih =>
    have h1 : Issues stationKinds s
        (if (inp.stationUi i).refreshTransceivers = true then
          call (ClientCall.FetchTransceiverInfo el.callsign) s
        else s) := by
      split_ifs
      · exact issues_call _ _ (by simp [ClientCall.kind, stationKinds])
      · exact Issues.refl _ _
    unfold stationLoop
    simp only []
    generalize (if (inp.stationUi i).refreshTransceivers = true then
        call (ClientCall.FetchTransceiverInfo el.callsign) s
      else s) = s1 at h1 ⊢
    generalize pollStation a s el = p
    by_cases hr : (inp.stationUi i).removeStation = true
    · rw [if_pos hr]
      exact h1.trans ((removeStation_issues el s1).trans
        ((stationButtons_issues _ _ _ _ _).trans (staleLoop_issues a inp _ _ _)))
    · rw [if_neg hr]
      exact h1.trans ((stationButtons_issues _ _ _ _ _).trans (ih _ _))

theorem modalTrigger_calls (s : AppState) : (modalTrigger s).calls = s.calls := by
  unfold modalTrigger
  split_ifs <;> rfl

theorem snapshotRebuild_calls (inp : FrameInput) (live : List String) (s : AppState) :
    (snapshotRebuild inp live s).calls = s.calls := by
  unfold snapshotRebuild
  split_ifs <;> rfl

theorem passTail_issues (U : Util) (a : Adapter) (inp : FrameInput) (s2 : AppState) :
    Issues (topKinds ++ stationKinds) s2
      (snapshotRebuild inp []
        (modalTrigger
          (if (!inp.collapse) = true then
            stationLoop a inp 0
              (if ctrls_cols inp ≥ 1 then topControls U a inp s2 else s2).FetchedStations
              (if ctrls_cols inp ≥ 1 then topControls U a inp s2 else s2)
          else if ctrls_cols inp ≥ 1 then topControls U a inp s2 else s2))) := by
  have h3 : Issues (topKinds ++ stationKinds) s2
      (if ctrls_cols inp ≥ 1 then topControls U a inp s2 else s2) := by
    split_ifs
    · exact (topControls_issues U a inp s2).mono (fun k hk => List.mem_append_left _ hk)
    · exact Issues.refl _ _
  have h4 : ∀ t : AppState, Issues (topKinds ++ stationKinds) t
      (if (!inp.collapse) = true then stationLoop a inp 0 t.FetchedStations t else t) := by
    intro t
    split_ifs
    · exact (stationLoop_issues a inp _ _ t).mono (fun k hk => List.mem_append_right _ hk)
    · exact Issues.refl _ _
  exact (h3.trans (h4 _)).trans
    (Issues.of_calls_eq (by rw [snapshotRebuild_calls, modalTrigger_calls]))

/-! ### Push-to-talk -/

theorem pttStep_eq_outcome (a : Adapter) (inp : FrameInput) (s : AppState) :
    pttStep a inp s = pttOutcome a s (selectedSourcePressed inp s) := by
  unfold pttStep pttOutcome selectedSourcePressed pttConfigured
  cases ho : s.isPttOpen <;>
    cases hb : inp.isButtonPressed s.joyStickId s.joyStickPtt <;>
    cases hk : inp.isKeyPressed s.ptt <;>
    by_cases hj : s.joyStickId = -1 <;>
    by_cases hv : a.IsVoiceConnected s.calls = true <;>
    by_cases hp : s.ptt = Scancode.Unknown <;>
    simp [ho, hb, hk, hj, hv, hp, call]

theorem pushIfNew_isPttOpen (el : StationElement) (s : AppState) :
    (pushIfNew el s).isPttOpen = s.isPttOpen := by
  unfold pushIfNew
  split_ifs <;> rfl

theorem bootstrapStep_isPttOpen (U : Util) (a : Adapter) (s : AppState) :
    (bootstrapStep U a s).isPttOpen = s.isPttOpen := by
  unfold bootstrapStep
  split_ifs
  · simp only [callAll, pushIfNew_isPttOpen]
  · rfl

theorem connectPressed_isPttOpen (a : Adapter) (inp : FrameInput) (s : AppState) :
    (connectPressed a inp s).isPttOpen = s.isPttOpen := by
  unfold connectPressed
  simp only []
  split_ifs <;> rfl

theorem connectControls_isPttOpen (a : Adapter) (inp : FrameInput) (s : AppState) :
    (connectControls a inp s).isPttOpen = s.isPttOpen := by
  unfold connectControls
  split_ifs
  all_goals first
    | rfl
    | exact connectPressed_isPttOpen a inp s

theorem unicomAdd_isPttOpen (U : Util) (inp : FrameInput) (s : AppState) :
    (unicomAdd U inp s).isPttOpen = s.isPttOpen := by
  unfold unicomAdd
  split_ifs
  · split <;> rfl
  · rfl

theorem manualAdd_isPttOpen (U : Util) (a : Adapter) (inp : FrameInput) (s : AppState) :
    (manualAdd U a inp s).isPttOpen = s.isPttOpen := by
  unfold manualAdd
  simp only []
  split_ifs
  · split <;> rfl
  · split <;> simp only [unicomAdd_isPttOpen]
  · split <;> rfl

theorem topControls_isPttOpen (U : Util) (a : Adapter) (inp : FrameInput) (s : AppState) :
    (topControls U a inp s).isPttOpen = s.isPttOpen := by
  have hg : (gainControl a inp s).isPttOpen = s.isPttOpen := by
    unfold gainControl
    split
    · split_ifs <;> rfl
    · rfl
  unfold topControls
  simp only []
  split_ifs
  · rw [manualAdd_isPttOpen, hg]
  · exact hg

theorem rxSpButtons_isPttOpen (ui : StationUi) (p : Polled) (el : StationElement)
    (s : AppState) : (rxSpButtons ui p el s).isPttOpen = s.isPttOpen := by
  unfold rxSpButtons
  simp only []
  split_ifs <;> rfl

theorem txXcButtons_isPttOpen (ui : StationUi) (p : Polled) (el : StationElement)
    (s : AppState) : (txXcButtons ui p el s).isPttOpen = s.isPttOpen := by
  unfold txXcButtons
  simp only []
  split_ifs <;> rfl

theorem stationButtons_isPttOpen (inp : FrameInput) (ui : StationUi) (p : Polled)
    (el : StationElement) (s : AppState) :
    (stationButtons inp ui p el s).isPttOpen = s.isPttOpen := by
  unfold stationButtons
  split_ifs
  · rw [txXcButtons_isPttOpen, rxSpButtons_isPttOpen]
  · rfl

theorem staleLoop_isPttOpen (a : Adapter) (inp : FrameInput) (n i : Nat) (s : AppState) :
    (staleLoop a inp i n s).isPttOpen = s.isPttOpen := by
  induction n generalizing i s with
  | zero => rfl
  | succ n ih =>
    unfold staleLoop
    simp only []
    rw [ih, stationButtons_isPttOpen]
    split_ifs <;> rfl

theorem stationLoop_isPttOpen (a : Adapter) (inp : FrameInput) (todo : List StationElement)
    (i : Nat) (s : AppState) : (stationLoop a inp i todo s).isPttOpen = s.isPttOpen := by
  induction todo generalizing i s with
  | nil => rfl
  | cons el rest ih =>
    unfold stationLoop
    simp only []
    by_cases hr : (inp.stationUi i).removeStation = true
    · rw [if_pos hr, staleLoop_isPttOpen, stationButtons_isPttOpen]
      split_ifs <;> rfl
    · rw [if_neg hr, ih, stationButtons_isPttOpen]
      split_ifs <;> rfl

theorem passAfterPtt_isPttOpen (U : Util) (a : Adapter) (inp : FrameInput)
    (sp : AppState) : (passAfterPtt U a inp sp).isPttOpen = sp.isPttOpen := by
  have h2 : ∀ t : AppState,
      (if ctrls_cols inp ≥ 4 then connectControls a inp t else t).isPttOpen = t.isPttOpen := by
    intro t
    split_ifs
    · exact connectControls_isPttOpen a inp t
    · rfl
  have h3 : ∀ t : AppState,
      (if ctrls_cols inp ≥ 1 then topControls U a inp t else t).isPttOpen = t.isPttOpen := by
    intro t
    split_ifs
    · exact topControls_isPttOpen U a inp t
    · rfl
  have h4 : ∀ t : AppState,
      (if (!inp.collapse) = true then stationLoop a inp 0 t.FetchedStations t
        else t).isPttOpen = t.isPttOpen := by
    intro t
    split_ifs
    · exact stationLoop_isPttOpen a inp _ _ t
    · rfl
  have h5 : ∀ t : AppState,
      (snapshotRebuild inp [] (modalTrigger t)).isPttOpen = t.isPttOpen := by
    intro t
    unfold snapshotRebuild modalTrigger
    split_ifs <;> rfl
  unfold passAfterPtt
  simp only []
  rw [h5, h4, h3, h2, bootstrapStep_isPttOpen]

theorem passAfterPtt_issues (U : Util) (a : Adapter) (inp : FrameInput) (sp : AppState) :
    Issues afterPttKinds sp (passAfterPtt U a inp sp) := by
  have hsub1 : ∀ k ∈ bootstrapKinds, k ∈ afterPttKinds := by decide
  have hsub2 : ∀ k ∈ connectKinds ++ cleanupKinds, k ∈ afterPttKinds := by decide
  have hsub3 : ∀ k ∈ topKinds ++ stationKinds, k ∈ afterPttKinds := by decide
  have h1 := (bootstrapStep_issues U a sp).mono hsub1
  have h2 : ∀ t : AppState, Issues afterPttKinds t
      (if ctrls_cols inp ≥ 4 then connectControls a inp t else t) := by
    intro t
    split_ifs
    · exact (connectControls_issues a inp t).mono hsub2
    · exact Issues.refl _ _
  unfold passAfterPtt
  simp only []
  exact (h1.trans (h2 _)).trans ((passTail_issues U a inp _).mono hsub3)

theorem pttCalls_afterPtt (l : List ClientCall) (h : ∀ c ∈ l, c.kind ∈ afterPttKinds) :
    pttCalls l = [] := by
  unfold pttCalls
  rw [List.filter_eq_nil_iff]
  intro c hc hk
  have h1 := h c hc
  rw [beq_iff_eq] at hk
  rw [hk] at h1
  revert h1
  decide

/-- C16. The push-to-talk step of a coordination pass.  The step is the
outcome the claim describes, computed from the pressed state of the single
selected source (joystick button when `joyStickId != -1`, otherwise the
keyboard key), so only that source is read.  Over the whole pass: when the
engine reports voice connected and a source is configured, `isPttOpen` after
the pass is that pressed state and exactly one `SetPtt` command, carrying it,
is among the commands issued (edge or not); otherwise `isPttOpen` is unchanged
and no `SetPtt` is issued. -/
theorem ptt_pass (U : Util) (a : Adapter) (inp : FrameInput) (s : AppState) :
    pttStep a inp s = pttOutcome a s (selectedSourcePressed inp s)
    ∧ ∃ s1 issued, render_frame U (some a) inp s = some s1
      ∧ s1.calls = s.calls ++ issued
      ∧ (if a.IsVoiceConnected s.calls = true ∧ pttConfigured s = true then
          s1.isPttOpen = selectedSourcePressed inp s
          ∧ pttCalls issued = [ClientCall.SetPtt (selectedSourcePressed inp s)]
        else s1.isPttOpen = s.isPttOpen ∧ pttCalls issued = []) := by
  refine ⟨pttStep_eq_outcome a inp s, ?_⟩
  obtain ⟨rest, he, hk⟩ := passAfterPtt_issues U a inp (pttStep a inp s)
  have hrest := pttCalls_afterPtt rest hk
  have hopen := passAfterPtt_isPttOpen U a inp (pttStep a inp s)
  rw [pttStep_eq_outcome] at he hopen
  by_cases hc : a.IsVoiceConnected s.calls = true ∧ pttConfigured s = true
  · refine ⟨_, [ClientCall.SetPtt (selectedSourcePressed inp s)] ++ rest,
      render_frame_eq U a inp s, ?_, ?_⟩
    · rw [pttStep_eq_outcome, he]
      simp [pttOutcome, hc, call]
    · rw [if_pos hc, pttStep_eq_outcome, hopen]
      refine ⟨by simp [pttOutcome, hc, call], ?_⟩
      unfold pttCalls at hrest ⊢
      rw [List.filter_append, hrest]
      simp [ClientCall.kind]
  · refine ⟨_, rest, render_frame_eq U a inp s, ?_, ?_⟩
    · rw [pttStep_eq_outcome, he]
      simp [pttOutcome, hc]
    · rw [if_neg hc, pttStep_eq_outcome, hopen]
      exact ⟨by simp [pttOutcome, hc], hrest⟩

/-- Support for C16: with the key bound, voice connected and the latch open, a
pass in which the key is no longer pressed closes the latch and sends
`SetPtt(false)` once. -/
theorem ptt_release_sample :
    (render_frame sampleUtil (some engineOnline) wideQuietFrame
        { towerState with ptt := Scancode.key 57, isPttOpen := true }).map
      (fun t => (t.isPttOpen, t.calls)) = some (false, [ClientCall.SetPtt false]) := by
  decide

/-! ### The bootstrap flag -/

theorem bootstrapStep_guarded (U : Util) (a : Adapter) (s : AppState)
    (h : s.bootUpVccs = true) : bootstrapStep U a s = s := by
  simp [bootstrapStep, h]

theorem vccs_foldl_bootUpVccs (U : Util) (stations : List (String × Nat)) (s : AppState) :
    (stations.foldl (vccsAdd U) s).bootUpVccs = s.bootUpVccs := by
  induction stations generalizing s with
  | nil => rfl
  | cons e rest ih =>
    rw [List.foldl_cons, ih]
    unfold vccsAdd pushIfNew
    split_ifs <;> rfl

theorem eventCallback_keeps_flag (U : Util) (a : Adapter) (evt : ClientEvent)
    (s s1 : AppState) (h : eventCallback U a evt s = some s1)
    (ht : evt.tearsDown = false) : s1.bootUpVccs = s.bootUpVccs := by
  cases evt with
  | VccsReceived data data2 =>
    cases data <;> cases data2 <;> simp only [eventCallback] at h
    · cases h; rfl
    · cases h; rfl
    · cases h; rfl
    · split_ifs at h
      · cases h; exact vccs_foldl_bootUpVccs U _ s
      · cases h; rfl
  | StationTransceiversUpdated data =>
    cases data <;> simp only [eventCallback] at h
    · cases h; rfl
    · split_ifs at h <;> cases h <;> rfl
  | APIServerError data =>
    cases data with
    | none => simp only [eventCallback] at h; cases h; rfl
    | some err =>
      simp only [eventCallback] at h
      cases h
      cases err <;> simp [ClientEvent.tearsDown, apiTeardown] at ht <;>
        simp [apiServerError, errorModal]
  | AudioError => simp [ClientEvent.tearsDown] at ht
  | VoiceServerDisconnected =>
    simp only [eventCallback] at h
    cases h
    split_ifs <;> rfl
  | VoiceServerError data =>
    cases data with
    | none => simp [eventCallback] at h
    | some c => simp [ClientEvent.tearsDown] at ht
  | VoiceServerChannelError data =>
    cases data with
    | none => simp [eventCallback] at h
    | some c => simp [ClientEvent.tearsDown] at ht
  | AudioDeviceStoppedError data =>
    cases data with
    | none => simp [eventCallback] at h
    | some c => simp [ClientEvent.tearsDown] at ht
  | StationDataReceived data data2 =>
    cases data <;> cases data2 <;> simp only [eventCallback] at h
    · cases h; rfl
    · cases h; rfl
    · cases h; rfl
    · split_ifs at h
      · cases h
        unfold pushIfNew
        split_ifs <;> rfl
      · cases h; rfl
  | RxClosed data =>
    cases data <;> simp only [eventCallback] at h <;> cases h <;> rfl
  | Other =>
    simp only [eventCallback] at h
    cases h; rfl

theorem connectPressed_bootUpVccs (a : Adapter) (inp : FrameInput) (s : AppState) :
    (connectPressed a inp s).bootUpVccs = s.bootUpVccs := by
  unfold connectPressed
  simp only []
  split_ifs <;> rfl

theorem unicomAdd_bootUpVccs (U : Util) (inp : FrameInput) (s : AppState) :
    (unicomAdd U inp s).bootUpVccs = s.bootUpVccs := by
  unfold unicomAdd
  split_ifs
  · split <;> rfl
  · rfl

theorem manualAdd_bootUpVccs (U : Util) (a : Adapter) (inp : FrameInput) (s : AppState) :
    (manualAdd U a inp s).bootUpVccs = s.bootUpVccs := by
  unfold manualAdd
  simp only []
  split_ifs
  · split <;> rfl
  · split <;> simp only [unicomAdd_bootUpVccs]
  · split <;> rfl

theorem topControls_bootUpVccs (U : Util) (a : Adapter) (inp : FrameInput) (s : AppState) :
    (topControls U a inp s).bootUpVccs = s.bootUpVccs := by
  have hg : (gainControl a inp s).bootUpVccs = s.bootUpVccs := by
    unfold gainControl
    split
    · split_ifs <;> rfl
    · rfl
  unfold topControls
  simp only []
  split_ifs
  · rw [manualAdd_bootUpVccs, hg]
  · exact hg

theorem rxSpButtons_bootUpVccs (ui : StationUi) (p : Polled) (el : StationElement)
    (s : AppState) : (rxSpButtons ui p el s).bootUpVccs = s.bootUpVccs := by
  unfold rxSpButtons
  simp only []
  split_ifs <;> rfl

theorem txXcButtons_bootUpVccs (ui : StationUi) (p : Polled) (el : StationElement)
    (s : AppState) : (txXcButtons ui p el s).bootUpVccs = s.bootUpVccs := by
  unfold txXcButtons
  simp only []
  split_ifs <;> rfl

theorem stationButtons_bootUpVccs (inp : FrameInput) (ui : StationUi) (p : Polled)
    (el : StationElement) (s : AppState) :
    (stationButtons inp ui p el s).bootUpVccs = s.bootUpVccs := by
  unfold stationButtons
  split_ifs
  · rw [txXcButtons_bootUpVccs, rxSpButtons_bootUpVccs]
  · rfl

theorem staleLoop_bootUpVccs (a : Adapter) (inp : FrameInput) (n i : Nat) (s : AppState) :
    (staleLoop a inp i n s).bootUpVccs = s.bootUpVccs := by
  induction n generalizing i s with
  | zero => rfl
  | succ n ih =>
    unfold staleLoop
    simp only []
    rw [ih, stationButtons_bootUpVccs]
    split_ifs <;> rfl

theorem stationLoop_bootUpVccs (a : Adapter) (inp : FrameInput) (todo : List StationElement)
    (i : Nat) (s : AppState) : (stationLoop a inp i todo s).bootUpVccs = s.bootUpVccs := by
  induction todo generalizing i s with
  | nil => rfl
  | cons el rest ih =>
    unfold stationLoop
    simp only []
    by_cases hr : (inp.stationUi i).removeStation = true
    · rw [if_pos hr, staleLoop_bootUpVccs, stationButtons_bootUpVccs]
      split_ifs <;> rfl
    · rw [if_neg hr, ih, stationButtons_bootUpVccs]
      split_ifs <;> rfl

theorem passTail_bootUpVccs (U : Util) (a : Adapter) (inp : FrameInput) (s2 : AppState) :
    (snapshotRebuild inp []
        (modalTrigger
          (if (!inp.collapse) = true then
            stationLoop a inp 0
              (if ctrls_cols inp ≥ 1 then topControls U a inp s2 else s2).FetchedStations
              (if ctrls_cols inp ≥ 1 then topControls U a inp s2 else s2)
          else if ctrls_cols inp ≥ 1 then topControls U a inp s2 else s2))).bootUpVccs
      = s2.bootUpVccs := by
  have h3 : (if ctrls_cols inp ≥ 1 then topControls U a inp s2 else s2).bootUpVccs
      = s2.bootUpVccs := by
    split_ifs
    · exact topControls_bootUpVccs U a inp s2
    · rfl
  have h4 : ∀ t : AppState,
      (if (!inp.collapse) = true then stationLoop a inp 0 t.FetchedStations t
        else t).bootUpVccs = t.bootUpVccs := by
    intro t
    split_ifs
    · exact stationLoop_bootUpVccs a inp _ _ t
    · rfl
  have h5 : ∀ t : AppState,
      (snapshotRebuild inp [] (modalTrigger t)).bootUpVccs = t.bootUpVccs := by
    intro t
    unfold snapshotRebuild modalTrigger
    split_ifs <;> rfl
  rw [h5, h4, h3]

theorem connectControls_keeps_flag (a : Adapter) (inp : FrameInput) (s : AppState)
    (h : (a.IsVoiceConnected s.calls = false ∧ a.IsAPIConnected s.calls = false)
      ∨ ¬ (inp.disconnectButton = true ∨ s.session.is_connected = false)) :
    (connectControls a inp s).bootUpVccs = s.bootUpVccs := by
  unfold connectControls
  by_cases h1 : a.IsVoiceConnected s.calls = false ∧ a.IsAPIConnected s.calls = false
  · rw [if_pos h1]
    split_ifs
    · exact connectPressed_bootUpVccs a inp s
    · rfl
  · rw [if_neg h1, if_neg (h.resolve_left h1)]

theorem passTearsDown_false (U : Util) (a : Adapter) (inp : FrameInput) (s : AppState)
    (hf : s.bootUpVccs = true) (ht : passTearsDown U a inp s = false)
    (h4 : ctrls_cols inp ≥ 4) :
    (a.IsVoiceConnected (pttStep a inp s).calls = false
      ∧ a.IsAPIConnected (pttStep a inp s).calls = false)
    ∨ ¬ (inp.disconnectButton = true ∨ (pttStep a inp s).session.is_connected = false) := by
  have hp : (pttStep a inp s).bootUpVccs = true := by rw [pttStep_bootUpVccs]; exact hf
  unfold passTearsDown at ht
  rw [bootstrapStep_guarded U a (pttStep a inp s) hp] at ht
  rw [pttStep_session]
  cases hv : a.IsVoiceConnected (pttStep a inp s).calls <;>
    cases ha : a.IsAPIConnected (pttStep a inp s).calls <;>
    cases hd : inp.disconnectButton <;>
    cases hc : s.session.is_connected <;>
    simp_all

theorem render_frame_keeps_flag (U : Util) (a : Adapter) (inp : FrameInput)
    (s s1 : AppState) (h : render_frame U (some a) inp s = some s1)
    (hf : s.bootUpVccs = true) (ht : passTearsDown U a inp s = false) :
    s1.bootUpVccs = true := by
  rw [render_frame_eq] at h
  cases h
  have hp : (pttStep a inp s).bootUpVccs = true := by rw [pttStep_bootUpVccs]; exact hf
  have hb := bootstrapStep_guarded U a (pttStep a inp s) hp
  unfold passAfterPtt
  simp only []
  rw [passTail_bootUpVccs, hb]
  split_ifs with h4
  · rw [connectControls_keeps_flag a inp _ (passTearsDown_false U a inp s hf ht h4), hp]
  · exact hp

theorem step_keeps_flag (U : Util) (act : Action) (s s1 : AppState)
    (h : step U s act = some s1) (hf : s.bootUpVccs = true)
    (ht : act.tearsDown U s = false) : s1.bootUpVccs = true := by
  cases act with
  | event a evt =>
    rw [eventCallback_keeps_flag U a evt s s1 h ht]
    exact hf
  | frame m inp =>
    cases m with
    | none => simp [step, render_frame] at h
    | some a => exact render_frame_keeps_flag U a inp s s1 h hf ht

theorem run_keeps_flag (U : Util) (acts : List Action) (s s1 : AppState)
    (hf : s.bootUpVccs = true) (hn : noTeardown U acts s = true)
    (h : run U acts s = some s1) : s1.bootUpVccs = true := by
  induction acts generalizing s with
  | nil =>
    simp only [run, Option.some.injEq] at h
    exact h ▸ hf
  | cons act rest ih =>
    simp only [run] at h
    simp only [noTeardown, Bool.and_eq_true, Bool.not_eq_true'] at hn
    cases hs : step U s act with
    | none => simp [hs] at h
    | some s2 =>
      rw [hs] at h
      have hn2 := hn.2
      rw [hs] at hn2
      exact ih s2 (step_keeps_flag U act s s2 hs hf hn.1) hn2 h

theorem eventCallback_teardown_clears (U : Util) (a : Adapter) (evt : ClientEvent)
    (s s1 : AppState) (h : eventCallback U a evt s = some s1)
    (ht : evt.tearsDown = true) : s1.bootUpVccs = false := by
  cases evt with
  | VccsReceived data data2 => simp [ClientEvent.tearsDown] at ht
  | StationTransceiversUpdated data => simp [ClientEvent.tearsDown] at ht
  | APIServerError data =>
    cases data with
    | none => simp [ClientEvent.tearsDown] at ht
    | some err =>
      simp only [eventCallback] at h
      cases h
      cases err <;> simp [ClientEvent.tearsDown, apiTeardown] at ht <;>
        simp [apiServerError, errorModal, playErrorSound, disconnectAndCleanup]
  | AudioError =>
    simp only [eventCallback] at h
    cases h
    rfl
  | VoiceServerDisconnected => simp [ClientEvent.tearsDown] at ht
  | VoiceServerError data =>
    cases data with
    | none => simp [eventCallback] at h
    | some c => simp only [eventCallback] at h; cases h; rfl
  | VoiceServerChannelError data =>
    cases data with
    | none => simp [eventCallback] at h
    | some c => simp only [eventCallback] at h; cases h; rfl
  | AudioDeviceStoppedError data =>
    cases data with
    | none => simp [eventCallback] at h
    | some c => simp only [eventCallback] at h; cases h; rfl
  | StationDataReceived data data2 => simp [ClientEvent.tearsDown] at ht
  | RxClosed data => simp [ClientEvent.tearsDown] at ht
  | Other => simp [ClientEvent.tearsDown] at ht

theorem render_frame_teardown_clears (U : Util) (a : Adapter) (inp : FrameInput)
    (s s1 : AppState) (h : render_frame U (some a) inp s = some s1)
    (hf : s.bootUpVccs = true) (ht : passTearsDown U a inp s = true) :
    s1.bootUpVccs = false := by
  rw [render_frame_eq] at h
  cases h
  have hp : (pttStep a inp s).bootUpVccs = true := by rw [pttStep_bootUpVccs]; exact hf
  have hb := bootstrapStep_guarded U a (pttStep a inp s) hp
  unfold passTearsDown at ht
  rw [hb] at ht
  simp only [Bool.and_eq_true, decide_eq_true_eq, Bool.not_eq_true', Bool.and_eq_false_imp,
    beq_iff_eq, Bool.or_eq_true] at ht
  obtain ⟨⟨h4, hconn⟩, htrig⟩ := ht
  unfold passAfterPtt
  simp only []
  rw [passTail_bootUpVccs, hb, if_pos h4]
  unfold connectControls
  have h1 : ¬ (a.IsVoiceConnected (pttStep a inp s).calls = false
      ∧ a.IsAPIConnected (pttStep a inp s).calls = false) := by
    rintro ⟨hv, ha⟩
    have := hconn hv
    rw [ha] at this
    exact Bool.noConfusion this
  have h2 : inp.disconnectButton = true ∨ (pttStep a inp s).session.is_connected = false := by
    rw [pttStep_session]
    rcases htrig with h | h
    · exact Or.inl h
    · exact Or.inr (by simpa using h)
  rw [if_neg h1, if_pos h2]
  rfl

theorem step_clears_iff_teardown (U : Util) (act : Action) (s s1 : AppState)
    (h : step U s act = some s1) (hf : s.bootUpVccs = true) :
    s1.bootUpVccs = false ↔ act.tearsDown U s = true := by
  constructor
  · intro hc
    by_contra hn
    have := step_keeps_flag U act s s1 h hf (by simpa using hn)
    rw [hc] at this
    exact Bool.noConfusion this
  · intro ht
    cases act with
    | event a evt => exact eventCallback_teardown_clears U a evt s s1 h ht
    | frame m inp =>
      cases m with
      | none => simp [step, render_frame] at h
      | some a => exact render_frame_teardown_clears U a inp s s1 h hf ht

/-- C17. Bootstrap happens at most once per connection.  From a state in
which the bootstrap flag is set, after every run of events and passes in which
`disconnectAndCleanup` is not called the flag is still set, and the bootstrap
step of a following pass does nothing, whatever the registry (empty or not) and
whatever the engine reports; a step from a state with the flag set leaves the
flag cleared exactly when it calls `disconnectAndCleanup`; a bootstrap that is
performed sets the flag; `disconnectAndCleanup` clears the flag, and the
bootstrap step of a pass that follows it with the API connected registers the
station of the session again. -/
theorem bootstrap_once_per_connection (U : Util) :
    (∀ (acts : List Action) (s s1 : AppState), s.bootUpVccs = true →
      noTeardown U acts s = true → run U acts s = some s1 →
      s1.bootUpVccs = true
      ∧ ∀ (a : Adapter) (inp : FrameInput),
          bootstrapStep U a (pttStep a inp s1) = pttStep a inp s1)
    ∧ (∀ (act : Action) (s s1 : AppState), step U s act = some s1 →
      s.bootUpVccs = true → (s1.bootUpVccs = false ↔ act.tearsDown U s = true))
    ∧ (∀ (a : Adapter) (s : AppState), a.IsAPIConnected s.calls = true →
      s.FetchedStations = [] → s.bootUpVccs = false →
      (bootstrapStep U a s).bootUpVccs = true)
    ∧ (∀ (a0 a : Adapter) (inp : FrameInput) (s : AppState),
      (disconnectAndCleanup (some a0) s).bootUpVccs = false
      ∧ (a.IsAPIConnected (pttStep a inp (disconnectAndCleanup (some a0) s)).calls = true →
        (bootstrapStep U a (pttStep a inp (disconnectAndCleanup (some a0) s))).FetchedStations
          = [StationElement.build U (U.ReplaceString s.session.callsign "__" "_")
              s.session.frequency])) := by
  refine ⟨?_, step_clears_iff_teardown U, ?_, ?_⟩
  · intro acts s s1 hf hn h
    have h1 := run_keeps_flag U acts s s1 hf hn h
    refine ⟨h1, fun a inp => bootstrapStep_guarded U a _ ?_⟩
    rw [pttStep_bootUpVccs]
    exact h1
  · intro a s hapi hreg hboot
    rw [bootstrapStep_fires U a s hapi hreg hboot]
  · intro a0 a inp s
    refine ⟨rfl, fun hapi => ?_⟩
    rw [bootstrapStep_fires U a _ hapi (by rw [pttStep_registry]; rfl)
      (by rw [pttStep_bootUpVccs]; rfl), pttStep_session]
    rfl

/-- Witness of C17: after the bootstrap the user removes the tower station; the
registry is empty, the API still connected, and the next pass does not
bootstrap again. -/
theorem bootstrap_once_per_connection_witness :
    towerState.bootUpVccs = true
    ∧ noTeardown sampleUtil emptiedRun towerState = true
    ∧ ∃ s1, run sampleUtil emptiedRun towerState = some s1
      ∧ s1.FetchedStations = []
      ∧ s1.bootUpVccs = true
      ∧ bootstrapStep sampleUtil engineOnline (pttStep engineOnline wideQuietFrame s1)
          = pttStep engineOnline wideQuietFrame s1 := by
  have hn : noTeardown sampleUtil emptiedRun towerState = true := by decide
  obtain ⟨s1, hs⟩ := run_defined sampleUtil emptiedRun towerState (by decide)
  obtain ⟨h1, h2⟩ :=
    (bootstrap_once_per_connection sampleUtil).1 emptiedRun towerState s1 rfl hn hs
  have hv : (run sampleUtil emptiedRun towerState).map (fun t => t.FetchedStations)
      = some [] := by decide
  rw [hs] at hv
  exact ⟨rfl, hn, s1, hs, by simpa using hv, h1, h2 engineOnline wideQuietFrame⟩

/-! ### Connect -/

theorem takeWhile_underscore (l : List Char) :
    ∃ rest, l = l.takeWhile (fun c => c != '_') ++ rest
      ∧ '_' ∉ l.takeWhile (fun c => c != '_')
      ∧ (rest = [] ∨ rest.head? = some '_') := by
  induction l with
  | nil => exact ⟨[], rfl, by simp, Or.inl rfl⟩
  | cons c cs ih =>
    by_cases hc : c = '_'
    · subst hc
      exact ⟨'_' :: cs, by simp [List.takeWhile], by simp [List.takeWhile], Or.inr rfl⟩
    · obtain ⟨rest, h1, h2, h3⟩ := ih
      have ht : (c :: cs).takeWhile (fun c => c != '_')
          = c :: cs.takeWhile (fun c => c != '_') := by
        simp [List.takeWhile_cons, hc]
      rw [ht]
      refine ⟨rest, ?_, ?_, h3⟩
      · rw [List.cons_append, ← h1]
      · intro hm
        rcases List.mem_cons.1 hm with h | h
        · exact hc h.symm
        · exact h2 h

theorem positionCalls_connect (a : Adapter) (inp : FrameInput) (s : AppState) :
    positionCalls (connectPreCalls a s ++ connectCalls inp s) = [positionByPriority inp s] := by
  have hk := positionByPriority_kind inp s
  unfold positionCalls connectPreCalls connectCalls
  generalize positionByPriority inp s = pos at hk ⊢
  cases pos <;> simp [ClientCall.kind] at hk
  split_ifs <;> rfl

/-- C18. On a connect request that proceeds (Connect pressed while the engine
reports neither voice nor API connected, `session::is_connected` true after the
connectivity check), exactly one client position is among the commands issued,
chosen by priority: the session latitude and longitude with heights 300 and
300 when the position is supplied from outside; otherwise, if the part of the
callsign before its first underscore (the whole callsign when it has none) is
a key of the airport table, the latitude and longitude of that airport with
`elevation + 33` for both heights; otherwise the fixed default
(48.967860, 2.442000, 300, 300). -/
theorem connect_position (a : Adapter) (inp : FrameInput) (s : AppState)
    (hv : a.IsVoiceConnected s.calls = false) (ha : a.IsAPIConnected s.calls = false)
    (hb : inp.connectButton = true) (hc : connectedAfterCheck inp s = true) :
    (∃ issued, (connectControls a inp s).calls = s.calls ++ issued
      ∧ positionCalls issued = [positionByPriority inp s])
    ∧ (inp.slurperAvailableForPosition = true →
        positionByPriority inp s
          = ClientCall.SetClientPosition s.session.latitude s.session.longitude 300 300)
    ∧ (∀ ap, inp.slurperAvailableForPosition = false →
        inp.airports (clientIcao s.session.callsign) = some ap →
        positionByPriority inp s
          = ClientCall.SetClientPosition ap.lat ap.lon (ap.elevation + 33)
              (ap.elevation + 33))
    ∧ (inp.slurperAvailableForPosition = false →
        inp.airports (clientIcao s.session.callsign) = none →
        positionByPriority inp s
          = ClientCall.SetClientPosition (4896786 / 100000) (2442 / 1000) 300 300)
    ∧ (∃ rest, s.session.callsign.data = (clientIcao s.session.callsign).data ++ rest
        ∧ '_' ∉ (clientIcao s.session.callsign).data
        ∧ (rest = [] ∨ rest.head? = some '_')) := by
  refine ⟨⟨connectPreCalls a s ++ connectCalls inp s, ?_, positionCalls_connect a inp s⟩,
    ?_, ?_, ?_, takeWhile_underscore _⟩
  · have h1 : connectControls a inp s = connectPressed a inp s := by
      simp [connectControls, hv, ha, hb]
    rw [h1, connectPressed_calls, if_pos hc, List.append_assoc]
  · intro h
    simp [positionByPriority, h]
  · intro ap h hap
    simp [positionByPriority, h, hap]
  · intro h hap
    simp [positionByPriority, h, hap]

/-- Witness of C18: `LFPG_TWR` connecting without an outside position is placed
at the airport `LFPG` of the table, 33 above its elevation. -/
theorem connect_position_witness :
    engineOffline.IsVoiceConnected idleState.calls = false
    ∧ engineOffline.IsAPIConnected idleState.calls = false
    ∧ connectFrame.connectButton = true
    ∧ connectedAfterCheck connectFrame idleState = true
    ∧ positionCalls (connectControls engineOffline connectFrame idleState).calls
        = [ClientCall.SetClientPosition 49 3 152 152] := by
  obtain ⟨⟨issued, h1, h2⟩, _, h4, _⟩ :=
    connect_position engineOffline connectFrame idleState rfl rfl rfl rfl
  refine ⟨rfl, rfl, rfl, rfl, ?_⟩
  have h5 := h4 { icao := "LFPG", elevation := 119, lat := 49, lon := 3 } rfl
    (by decide)
  rw [h1]
  have h6 : positionCalls (idleState.calls ++ issued) = positionCalls issued := rfl
  rw [h6, h2, h5]
  norm_num

theorem pushIfNew_session (el : StationElement) (s : AppState) :
    (pushIfNew el s).session = s.session := by
  unfold pushIfNew
  split_ifs <;> rfl

theorem bootstrapStep_session (U : Util) (a : Adapter) (s : AppState) :
    (bootstrapStep U a s).session = s.session := by
  unfold bootstrapStep
  split_ifs
  · simp only [callAll, pushIfNew_session]
  · rfl

theorem connectedAfterCheck_congr (inp : FrameInput) (s t : AppState)
    (h : t.session = s.session) : connectedAfterCheck inp t = connectedAfterCheck inp s := by
  unfold connectedAfterCheck
  rw [h]

theorem connectControls_without_connect (a : Adapter) (inp : FrameInput) (s : AppState)
    (h : ¬ (inp.connectButton = true ∧ a.IsVoiceConnected s.calls = false
      ∧ a.IsAPIConnected s.calls = false ∧ connectedAfterCheck inp s = true)) :
    Issues cleanupKinds s (connectControls a inp s) := by
  unfold connectControls
  by_cases h1 : a.IsVoiceConnected s.calls = false ∧ a.IsAPIConnected s.calls = false
  · rw [if_pos h1]
    by_cases hb : inp.connectButton = true
    · rw [if_pos hb]
      have hc : connectedAfterCheck inp s = false := by
        cases hx : connectedAfterCheck inp s
        · rfl
        · exact absurd ⟨hb, h1.1, h1.2, hx⟩ h
      exact Issues.of_calls_eq (by rw [connectPressed_calls, hc]; rfl)
    · rw [if_neg hb]
      exact Issues.refl _ _
  · rw [if_neg h1]
    split_ifs
    all_goals first
      | exact Issues.refl _ _
      | exact cleanup_issues (some a) _

theorem render_frame_without_connect (U : Util) (a : Adapter) (inp : FrameInput)
    (s : AppState) (h : ¬ connectProceeds U a inp s) :
    Issues besideConnectKinds s (passAfterPtt U a inp (pttStep a inp s)) := by
  have hsub0 : ∀ k ∈ [CallKind.SetPtt], k ∈ besideConnectKinds := by decide
  have hsub1 : ∀ k ∈ bootstrapKinds, k ∈ besideConnectKinds := by decide
  have hsub2 : ∀ k ∈ cleanupKinds, k ∈ besideConnectKinds := by decide
  have hsub3 : ∀ k ∈ topKinds ++ stationKinds, k ∈ besideConnectKinds := by decide
  have h0 := (pttStep_issues a inp s).mono hsub0
  have h1 := (bootstrapStep_issues U a (pttStep a inp s)).mono hsub1
  have hsess : (bootstrapStep U a (pttStep a inp s)).session = s.session := by
    rw [bootstrapStep_session, pttStep_session]
  have h2 : Issues besideConnectKinds (bootstrapStep U a (pttStep a inp s))
      (if ctrls_cols inp ≥ 4 then
        connectControls a inp (bootstrapStep U a (pttStep a inp s))
      else bootstrapStep U a (pttStep a inp s)) := by
    split_ifs with h4
    · refine (connectControls_without_connect a inp _ ?_).mono hsub2
      rintro ⟨hb, hv, ha, hc⟩
      rw [connectedAfterCheck_congr inp s _ hsess] at hc
      exact h ⟨h4, hb, hv, ha, hc⟩
    · exact Issues.refl _ _
  unfold passAfterPtt
  simp only []
  exact ((h0.trans h1).trans h2).trans ((passTail_issues U a inp _).mono hsub3)

theorem connectControls_refused (a : Adapter) (inp : FrameInput) (s : AppState)
    (hv : a.IsVoiceConnected s.calls = false) (ha : a.IsAPIConnected s.calls = false)
    (hb : inp.connectButton = true) (hc : connectedAfterCheck inp s = false) :
    connectControls a inp s = errorModal "Not connected to VATSIM!" s := by
  have h1 : connectControls a inp s = connectPressed a inp s := by
    simp [connectControls, hv, ha, hb]
  rw [h1]
  unfold connectedAfterCheck at hc
  unfold connectPressed
  obtain ⟨reg, boot, lrx, po, cs, td, tt, rg, sess, rest⟩ := s
  obtain ⟨c1, f1, fa, la, lo, ic⟩ := sess
  cases ic <;> cases hs : inp.slurperAvailableOnPress <;>
    cases hg : inp.getConnectionStatusWithSlurper <;> simp_all [errorModal]

theorem pttStep_idle (a : Adapter) (inp : FrameInput) (s : AppState)
    (hv : a.IsVoiceConnected s.calls = false) : pttStep a inp s = s := by
  rw [pttStep_eq_outcome]
  simp [pttOutcome, hv]

theorem bootstrapStep_idle (U : Util) (a : Adapter) (s : AppState)
    (ha : a.IsAPIConnected s.calls = false) : bootstrapStep U a s = s := by
  simp [bootstrapStep, ha]

/-- C19. A connect request issues commands to the engine only when its
preconditions hold.  If `Connect`, or any other command that only a connect
request issues (device selections, credentials, callsign), is among the
commands a pass issues, then in that pass the Connect button was drawn and
pressed, the engine reported neither voice nor API connected when the controls
were reached, and `session::is_connected` was true after the connectivity
check.  If Connect is
pressed while the engine reports neither connected and `session::is_connected`
is false after the check, the controls issue no command, leave the registry
unchanged and raise the error "Not connected to VATSIM!"; in a pass where
nothing else is touched, no command at all is issued, the registry is
unchanged and the error popup opens with that message. -/
theorem connect_preconditions (U : Util) (a : Adapter) (inp : FrameInput) (s : AppState) :
    (∀ s1 issued, render_frame U (some a) inp s = some s1 →
      s1.calls = s.calls ++ issued →
      (ClientCall.Connect ∈ issued ∨ ∃ c ∈ issued, c.kind ∈ connectOnlyKinds) →
      connectProceeds U a inp s)
    ∧ (a.IsVoiceConnected s.calls = false → a.IsAPIConnected s.calls = false →
      inp.connectButton = true → connectedAfterCheck inp s = false →
      connectControls a inp s = errorModal "Not connected to VATSIM!" s
      ∧ (connectControls a inp s).calls = s.calls
      ∧ (connectControls a inp s).FetchedStations = s.FetchedStations
      ∧ (connectControls a inp s).showErrorModal_ = true
      ∧ (connectControls a inp s).lastErrorModalMessage_ = "Not connected to VATSIM!")
    ∧ (a.IsVoiceConnected s.calls = false → a.IsAPIConnected s.calls = false →
      ctrls_cols inp ≥ 4 → onlyConnectPressed inp → connectedAfterCheck inp s = false →
      ∃ s1, render_frame U (some a) inp s = some s1
        ∧ s1.calls = s.calls
        ∧ s1.FetchedStations = s.FetchedStations
        ∧ s1.lastErrorModalMessage_ = "Not connected to VATSIM!"
        ∧ s1.errorPopups = s.errorPopups ++ ["Not connected to VATSIM!"]) := by
  refine ⟨?_, ?_, ?_⟩
  · intro s1 issued h he hm
    by_contra hn
    obtain ⟨iss, e1, k1⟩ := render_frame_without_connect U a inp s hn
    rw [render_frame_eq] at h
    cases h
    rw [e1] at he
    have := List.append_cancel_left he
    subst this
    have hdisj : ∀ k ∈ connectOnlyKinds, k ∉ besideConnectKinds := by decide
    rcases hm with hm | ⟨c, hc, hk⟩
    · exact hdisj _ (by decide) (k1 _ hm)
    · exact hdisj _ hk (k1 c hc)
  · intro hv ha hb hc
    rw [connectControls_refused a inp s hv ha hb hc]
    exact ⟨rfl, rfl, rfl, rfl, rfl⟩
  · intro hv ha h4 hq hc
    obtain ⟨hb, hg, ht, he, hadd, hs⟩ := hq
    refine ⟨_, render_frame_eq U a inp s, ?_⟩
    rw [pttStep_idle a inp s hv]
    unfold passAfterPtt
    simp only [bootstrapStep_idle U a s ha, h4, if_true,
      connectControls_refused a inp s hv ha hb hc,
      topControls_quiet U a inp _ hg ht he hadd, stationLoop_quiet a inp _ _ _ hs, ite_self]
    simp only [snapshotRebuild, modalTrigger, errorModal]
    split_ifs <;> simp

/-- Witness of C19: Connect pressed while the data feed does not show the user
connected: no command is issued and the error popup opens. -/
theorem connect_preconditions_witness :
    engineOffline.IsVoiceConnected lostLinkState.calls = false
    ∧ engineOffline.IsAPIConnected lostLinkState.calls = false
    ∧ ctrls_cols connectFrame ≥ 4
    ∧ onlyConnectPressed connectFrame
    ∧ connectedAfterCheck connectFrame lostLinkState = false
    ∧ ∃ s1, render_frame sampleUtil (some engineOffline) connectFrame lostLinkState = some s1
        ∧ s1.calls = []
        ∧ s1.FetchedStations = []
        ∧ s1.errorPopups = ["Not connected to VATSIM!"] := by
  have hq : onlyConnectPressed connectFrame := ⟨rfl, rfl, rfl, rfl, rfl, fun _ => rfl⟩
  obtain ⟨s1, h1, h2, h3, _, h5⟩ :=
    (connect_preconditions sampleUtil engineOffline connectFrame lostLinkState).2.2
      rfl rfl (by decide) hq rfl
  exact ⟨rfl, rfl, by decide, hq, rfl, s1, h1, h2, h3, h5⟩

/-- Support for C19: a connect request that proceeds ends with `Connect`. -/
theorem connect_request_sample :
    (render_frame sampleUtil (some engineOffline) connectFrame idleState).map
      (fun t => t.calls.getLast?) = some (some ClientCall.Connect) := by
  decide

/-! ### Removing a station -/

theorem staleLoop_quiet (a : Adapter) (inp : FrameInput) (n i : Nat) (s : AppState)
    (h : ∀ j, i ≤ j → inp.stationUi j = StationUi.idle) : staleLoop a inp i n s = s := by
  induction n generalizing i s with
  | zero => rfl
  | succ n ih =>
    unfold staleLoop
    simp only [h i (Nat.le_refl i), StationUi.idle, stationButtons, rxSpButtons, txXcButtons,
      Bool.false_eq_true, if_false, false_and, ite_self]
    exact ih _ _ (fun j hj => h j (by omega))

theorem stationLoop_removal (a : Adapter) (inp : FrameInput) (before : List StationElement)
    (el : StationElement) (after : List StationElement) (k : Nat) (s : AppState)
    (hidle : ∀ j, k ≤ j → j < k + before.length → inp.stationUi j = StationUi.idle)
    (hrem : (inp.stationUi (k + before.length)).removeStation = true)
    (href : (inp.stationUi (k + before.length)).refreshTransceivers = false) :
    stationLoop a inp k (before ++ el :: after) s
      = staleLoop a inp (k + before.length + 1) after.length
          (stationButtons inp (inp.stationUi (k + before.length)) (pollStation a s el)
            (inp.staleStation (k + before.length) true) (removeStation el s)) := by
  induction before generalizing k with
  | nil =>
    simp only [List.length_nil, Nat.add_zero] at hrem href
    simp [stationLoop, hrem, href]
  | cons b bs ih =>
    have hb : inp.stationUi k = StationUi.idle :=
      hidle k (Nat.le_refl _) (by simp)
    have hk : k + (b :: bs).length = k + 1 + bs.length := by
      simp only [List.length_cons]
      omega
    rw [hk] at hrem href ⊢
    have hrest := ih (k + 1)
      (fun j h1 h2 => hidle j (by omega) (by simp only [List.length_cons]; omega))
      hrem href
    rw [List.cons_append]
    unfold stationLoop
    simp only [hb, StationUi.idle, stationButtons, rxSpButtons, txXcButtons,
      Bool.false_eq_true, if_false, false_and, ite_self]
    exact hrest

/-- C20. The remove-station action on a station of frequency `f`.  The
registry afterwards is the old registry without the stations of frequency `f`:
no station of frequency `f` is left, every other station is retained,
unchanged and in its relative order; the engine is told to remove the
frequency; and applying the same removal again leaves the registry as it is.
In the loop over the station blocks, selecting "Remove station" on the block
at position `before.length` (the blocks before it untouched) performs this
action and goes on with the rest of that block and the iterations left, on
what the invalidated reference reads; when nothing else is activated in the
loop, the result of the loop is the result of the action. -/
theorem remove_station (a : Adapter) (inp : FrameInput) (el : StationElement)
    (s : AppState) :
    (removeStation el s).FetchedStations
        = s.FetchedStations.filter (fun p => decide (p.freq ≠ el.freq))
    ∧ (∀ st ∈ (removeStation el s).FetchedStations, st.freq ≠ el.freq)
    ∧ (∀ st ∈ s.FetchedStations, st.freq ≠ el.freq →
        st ∈ (removeStation el s).FetchedStations)
    ∧ (removeStation el s).FetchedStations.Sublist s.FetchedStations
    ∧ (removeStation el s).calls = s.calls ++ [ClientCall.RemoveFrequency el.freq]
    ∧ (removeStation el (removeStation el s)).FetchedStations
        = (removeStation el s).FetchedStations
    ∧ (∀ (before after : List StationElement),
        (∀ j, j < before.length → inp.stationUi j = StationUi.idle) →
        (inp.stationUi before.length).removeStation = true →
        (inp.stationUi before.length).refreshTransceivers = false →
        stationLoop a inp 0 (before ++ el :: after) s
          = staleLoop a inp (before.length + 1) after.length
              (stationButtons inp (inp.stationUi before.length) (pollStation a s el)
                (inp.staleStation before.length true) (removeStation el s)))
    ∧ (∀ (before after : List StationElement),
        (∀ j, j ≠ before.length → inp.stationUi j = StationUi.idle) →
        inp.stationUi before.length = { StationUi.idle with removeStation := true } →
        stationLoop a inp 0 (before ++ el :: after) s = removeStation el s) := by
  have hfilter : (removeStation el s).FetchedStations
      = s.FetchedStations.filter (fun p => decide (p.freq ≠ el.freq)) := by
    unfold removeStation
    simp only [call]
    congr 1
    funext p
    by_cases h : p.freq = el.freq
    · simp [h]
    · have h2 : ¬ el.freq = p.freq := fun hx => h hx.symm
      simp [h, h2]
  have hloop : ∀ (before after : List StationElement),
      (∀ j, j < before.length → inp.stationUi j = StationUi.idle) →
      (inp.stationUi before.length).removeStation = true →
      (inp.stationUi before.length).refreshTransceivers = false →
      stationLoop a inp 0 (before ++ el :: after) s
        = staleLoop a inp (before.length + 1) after.length
            (stationButtons inp (inp.stationUi before.length) (pollStation a s el)
              (inp.staleStation before.length true) (removeStation el s)) := by
    intro before after hidle hrem href
    have h := stationLoop_removal a inp before el after 0 s
      (fun j _ h2 => hidle j (by omega)) (by simpa using hrem) (by simpa using href)
    simpa using h
  refine ⟨hfilter, ?_, ?_, ?_, rfl, ?_, hloop, ?_⟩
  · intro st hst
    rw [hfilter, List.mem_filter] at hst
    simpa using hst.2
  · intro st hst hne
    rw [hfilter, List.mem_filter]
    exact ⟨hst, by simpa using hne⟩
  · rw [hfilter]
    exact List.filter_sublist _
  · have h2 : (removeStation el (removeStation el s)).FetchedStations
        = (removeStation el s).FetchedStations.filter (fun p => !(el.freq == p.freq)) := rfl
    have h1 : (removeStation el s).FetchedStations
        = s.FetchedStations.filter (fun p => !(el.freq == p.freq)) := rfl
    rw [h2, h1, List.filter_filter]
    congr 1
    funext p
    simp
  · intro before after hidle hrem
    rw [hloop before after (fun j hj => hidle j (by omega)) (by rw [hrem])
      (by rw [hrem]; rfl)]
    rw [staleLoop_quiet a inp _ _ _ (fun j hj => hidle j (by omega)), hrem]
    simp [stationButtons, rxSpButtons, txXcButtons, StationUi.idle]

/-- Witness of C20: removing the tower station in the loop over the two sample
stations, nothing else activated, leaves the UNICOM station. -/
theorem remove_station_witness :
    stationLoop engineOnline removeFirstFrame 0 ([] ++ towerStation :: [unicomStation])
        twoStationState = removeStation towerStation twoStationState
    ∧ (removeStation towerStation twoStationState).FetchedStations = [unicomStation]
    ∧ (removeStation towerStation twoStationState).calls
        = [ClientCall.RemoveFrequency 118700000] :=
  ⟨(remove_station engineOnline removeFirstFrame towerStation twoStationState).2.2.2.2.2.2.2
      [] [unicomStation]
      (fun j hj => by
        have h0 : j ≠ 0 := by simpa using hj
        simp [removeFirstFrame, h0])
      rfl,
    by decide, by decide⟩

/-- Support for C20: the pass in which the first of the two sample stations is
removed while the RX button of the block after it reads as pressed.  The loop
goes on after the erase: the block after it reads the UNICOM station through
the invalidated reference and its RX button switches receive off on it. -/
theorem remove_then_rx_sample :
    (render_frame sampleUtil (some engineOnline) removeAndRxFrame twoStationState).map
        (fun t => (t.FetchedStations, t.calls))
      = some ([unicomStation],
          [ClientCall.RemoveFrequency 118700000, ClientCall.SetRx 122800000 false]) := by
  decide

/-! ### Routing of the status server -/

/-- C21. The routing of the status server: `GET /transmitting` returns the
current snapshot string as it is, and every request whose method is not `GET`
or whose target is none of `/transmitting`, `/rx`, `/tx` returns the client
identity string `kClientName`, whatever the registry and the engine. -/
theorem http_routing (U : Util) (a : Adapter) (s : AppState) (req : Request) :
    request_handler U a s { method := HttpMethod.GET, request_target := "/transmitting" }
      = some s.currentlyTransmittingApiData
    ∧ ((req.method ≠ HttpMethod.GET
        ∨ (req.request_target ≠ "/transmitting" ∧ req.request_target ≠ "/rx"
          ∧ req.request_target ≠ "/tx")) →
      ∀ (a1 : Adapter) (s1 : AppState), request_handler U a1 s1 req = some U.kClientName) := by
  refine ⟨by simp [request_handler], ?_⟩
  intro h a1 s1
  unfold request_handler
  rcases h with h | ⟨h1, h2, h3⟩
  · simp [h]
  · simp [h1, h2, h3]

/-- Witness of C21: a `POST` to `/tx` and a `GET` of `/status` are answered
with the client name. -/
theorem http_routing_witness :
    request_handler sampleUtil engineOnline twoStationState
        { method := HttpMethod.POST, request_target := "/tx" } = some "VectorAudio"
    ∧ request_handler sampleUtil engineOffline idleState
        { method := HttpMethod.GET, request_target := "/status" } = some "VectorAudio" :=
  ⟨(http_routing sampleUtil engineOnline twoStationState
      { method := HttpMethod.POST, request_target := "/tx" }).2
      (Or.inl (by decide)) engineOnline twoStationState,
   (http_routing sampleUtil engineOnline twoStationState
      { method := HttpMethod.GET, request_target := "/status" }).2
      (Or.inr ⟨by decide, by decide, by decide⟩) engineOffline idleState⟩

/-- C27, the code at the failing inputs. With no station selected the `/rx`
and the `/tx` handler read `back()` of the empty accumulator: the trailing
separator is stripped without a guard for the empty case, and no body (the
claim: the empty string) is defined.  The rebuild of the transmitting snapshot
guards the case and yields the empty string. -/
theorem empty_selection_reads_back_of_empty_string :
    strBack "" = none
    ∧ stationListBody [] = none
    ∧ request_handler sampleUtil engineOffline twoStationState
        { method := HttpMethod.GET, request_target := "/rx" } = none
    ∧ request_handler sampleUtil engineOffline twoStationState
        { method := HttpMethod.GET, request_target := "/tx" } = none
    ∧ joinReceived [] = "" := by
  refine ⟨rfl, rfl, ?_, ?_, rfl⟩
  · rw [request_handler_rx]
    decide
  · rw [request_handler_tx]
    decide

/-! ### Teardown and frame effects of events -/

theorem removedFrequencies_map (l : List StationElement) :
    removedFrequencies (l.map (fun f => ClientCall.RemoveFrequency f.freq))
      = l.map (fun f => f.freq) := by
  induction l with
  | nil => rfl
  | cons x xs ih =>
    simp only [List.map_cons, removedFrequencies, List.filterMap_cons] at ih ⊢
    rw [ih]

/-- C24. `disconnectAndCleanup` with the client present sends the engine
`Disconnect`, then `StopAudio`, then one `RemoveFrequency` per station of the
registry, with the frequency of that station, in registry order, and nothing
else; the frequencies removed are exactly those of the registry; afterwards
the registry is empty. -/
theorem teardown_symmetric (a : Adapter) (s : AppState) :
    ∃ issued, (disconnectAndCleanup (some a) s).calls = s.calls ++ issued
      ∧ issued = [ClientCall.Disconnect, ClientCall.StopAudio]
          ++ s.FetchedStations.map (fun f => ClientCall.RemoveFrequency f.freq)
      ∧ removedFrequencies issued = s.FetchedStations.map (fun f => f.freq)
      ∧ (∀ f, issued.count (ClientCall.RemoveFrequency f)
          = (s.FetchedStations.map (fun st => st.freq)).count f)
      ∧ (disconnectAndCleanup (some a) s).FetchedStations = [] := by
  refine ⟨_, ?_, rfl, ?_, ?_, rfl⟩
  · simp [disconnectAndCleanup]
  · have h := removedFrequencies_map s.FetchedStations
    simpa [removedFrequencies] using h
  · intro f
    induction s.FetchedStations with
    | nil => simp
    | cons x xs ih =>
      simp only [List.map_cons, List.cons_append, List.count_cons, List.nil_append] at ih ⊢
      by_cases hx : x.freq = f
      · simp [hx] at ih ⊢
        omega
      · have hne : ¬ (ClientCall.RemoveFrequency x.freq = ClientCall.RemoveFrequency f) := by
          intro h
          injection h with h1
          exact hx h1
        simp [hx, hne] at ih ⊢
        omega

/-- C29. Handling a `VoiceServerDisconnected` event performs no teardown:
whatever `manuallyDisconnected_`, only the count of failure sounds and that
flag change; the registry, the bootstrap flag, the last-heard pointer, the
error-modal state and the commands issued to the engine are unchanged. -/
theorem voice_disconnected_no_teardown (U : Util) (a : Adapter) (s : AppState) :
    ∃ s1, eventCallback U a ClientEvent.VoiceServerDisconnected s = some s1
      ∧ s1 = { s with
          errorSounds := s.errorSounds + (if s.manuallyDisconnected_ then 0 else 1)
          manuallyDisconnected_ := false }
      ∧ s1.FetchedStations = s.FetchedStations
      ∧ s1.bootUpVccs = s.bootUpVccs
      ∧ s1.last_rx_close = s.last_rx_close
      ∧ s1.showErrorModal_ = s.showErrorModal_
      ∧ s1.lastErrorModalMessage_ = s.lastErrorModalMessage_
      ∧ s1.errorPopups = s.errorPopups
      ∧ s1.calls = s.calls := by
  cases h : s.manuallyDisconnected_ <;> simp [eventCallback, playErrorSound, h]

/-! ### The transceiver count of a station -/

theorem setTransceivers_split (c : String) (n : Int) (pre : List StationElement)
    (st : StationElement) (post : List StationElement)
    (hpre : ∀ x ∈ pre, x.callsign ≠ c) (hst : st.callsign = c) :
    setTransceivers c n (pre ++ st :: post) = pre ++ { st with transceivers := n } :: post := by
  induction pre with
  | nil => simp [setTransceivers, hst]
  | cons x xs ih =>
    have hx : x.callsign ≠ c := hpre x (List.mem_cons_self _ _)
    have hxs : ∀ y ∈ xs, y.callsign ≠ c := fun y hy => hpre y (List.mem_cons_of_mem _ hy)
    simp [setTransceivers, hx, ih hxs]

theorem setTransceivers_absent (c : String) (n : Int) (l : List StationElement)
    (h : ∀ x ∈ l, x.callsign ≠ c) : setTransceivers c n l = l := by
  induction l with
  | nil => rfl
  | cons x xs ih =>
    have hx : x.callsign ≠ c := h x (List.mem_cons_self _ _)
    have hxs : ∀ y ∈ xs, y.callsign ≠ c := fun y hy => h y (List.mem_cons_of_mem _ hy)
    simp [setTransceivers, hx, ih hxs]

/-- C26. A `StationTransceiversUpdated` event for callsign `c` changes nothing
but the registry, and in the registry only the `transceivers` field of the
first station, in registry order, whose callsign is `c`, which becomes the
count the engine reports for `c`; every other station and every other field of
that station are as before.  If no station has callsign `c` the state is
unchanged. -/
theorem transceivers_updated (U : Util) (a : Adapter) (s : AppState) (c : String) :
    ∃ s1, eventCallback U a (ClientEvent.StationTransceiversUpdated (some c)) s = some s1
      ∧ s1 = { s with FetchedStations := s1.FetchedStations }
      ∧ (∀ pre st post, s.FetchedStations = pre ++ st :: post →
          (∀ x ∈ pre, x.callsign ≠ c) → st.callsign = c →
          s1.FetchedStations
            = pre ++ { st with
                transceivers := a.GetTransceiverCountForStation s.calls c } :: post)
      ∧ ((∀ x ∈ s.FetchedStations, x.callsign ≠ c) → s1 = s) := by
  by_cases hany : s.FetchedStations.any (fun fs => fs.callsign == c) = true
  · refine ⟨{ s with FetchedStations :=
        setTransceivers c (a.GetTransceiverCountForStation s.calls c) s.FetchedStations },
      by simp only [eventCallback, hany, if_true], rfl, ?_, ?_⟩
    · intro pre st post hreg hpre hst
      show setTransceivers c _ s.FetchedStations = _
      rw [hreg]
      exact setTransceivers_split c _ pre st post hpre hst
    · intro h
      have : setTransceivers c (a.GetTransceiverCountForStation s.calls c) s.FetchedStations
          = s.FetchedStations := setTransceivers_absent c _ _ h
      simp only [this]
  · refine ⟨s, by simp only [eventCallback, hany]; rfl, rfl, ?_, fun _ => rfl⟩
    intro pre st post hreg _ hst
    exfalso
    apply hany
    rw [hreg]
    simp [hst]

/-- Witness of C26: the count of `AFR123`, the second of the two sample
stations, becomes the 2 the sample engine reports; the tower station is as
before. -/
theorem transceivers_updated_witness :
    ∃ s1, eventCallback sampleUtil engineOnline
        (ClientEvent.StationTransceiversUpdated (some "AFR123")) twoStationState = some s1
      ∧ s1.FetchedStations = [towerStation, { unicomStation with transceivers := 2 }] := by
  obtain ⟨s1, h1, _, h3, _⟩ :=
    transceivers_updated sampleUtil engineOnline twoStationState "AFR123"
  exact ⟨s1, h1, h3 [towerStation] unicomStation [] rfl (by decide) rfl⟩

/-! ### The stations a VCCS list adds -/

theorem vccsFresh_congr (U : Util) (l : List (String × Nat)) (seen seen1 : List Nat)
    (h : ∀ x, x ∈ seen ↔ x ∈ seen1) : vccsFresh U seen l = vccsFresh U seen1 l := by
  induction l generalizing seen seen1 with
  | nil => rfl
  | cons e rest ih =>
    simp only [vccsFresh]
    rw [ih (seen ++ [normalizeFrequency U e.2]) (seen1 ++ [normalizeFrequency U e.2])
      (by intro x; simp [h x])]
    by_cases hm : normalizeFrequency U e.2 ∈ seen
    · rw [if_pos hm, if_pos ((h _).1 hm)]
    · rw [if_neg hm, if_neg (fun h1 => hm ((h _).2 h1))]

theorem vccsFresh_append (U : Util) (pre rest : List (String × Nat)) (seen : List Nat) :
    vccsFresh U seen (pre ++ rest)
      = vccsFresh U seen pre
        ++ vccsFresh U (seen ++ pre.map (fun e => normalizeFrequency U e.2)) rest := by
  induction pre generalizing seen with
  | nil => simp [vccsFresh]
  | cons e es ih =>
    rw [List.cons_append]
    simp only [vccsFresh]
    rw [ih]
    simp only [List.map_cons, List.append_assoc, List.singleton_append]

theorem vccs_foldl_registry (U : Util) (stations : List (String × Nat)) (s : AppState) :
    (stations.foldl (vccsAdd U) s).FetchedStations
      = s.FetchedStations
        ++ vccsFresh U (s.FetchedStations.map (fun st => st.freq)) stations := by
  induction stations generalizing s with
  | nil => simp [vccsFresh]
  | cons e rest ih =>
    rw [List.foldl_cons, ih, vccsAdd_eq_ingest]
    simp only [vccsFresh]
    by_cases hex : frequencyExists s.FetchedStations (normalizeFrequency U e.2) = true
    · have hm : normalizeFrequency U e.2 ∈ s.FetchedStations.map (fun st => st.freq) := by
        obtain ⟨st, hst, hf⟩ := (frequencyExists_iff _ _).1 hex
        exact List.mem_map.2 ⟨st, hst, hf⟩
      have hi : ingest U e.1 e.2 s = s := by simp [ingest, hex]
      rw [hi, if_pos hm, List.nil_append]
      congr 1
      apply vccsFresh_congr
      intro x
      simp only [List.mem_append, List.mem_singleton]
      constructor
      · exact Or.inl
      · rintro (h | h)
        · exact h
        · exact h ▸ hm
    · have hm : ¬ normalizeFrequency U e.2 ∈ s.FetchedStations.map (fun st => st.freq) := by
        intro hm
        obtain ⟨st, hst, hf⟩ := List.mem_map.1 hm
        exact hex ((frequencyExists_iff _ _).2 ⟨st, hst, hf⟩)
      have hi : (ingest U e.1 e.2 s).FetchedStations
          = s.FetchedStations ++ [StationElement.build U e.1 (normalizeFrequency U e.2)] := by
        simp [ingest, hex, StationElement.build]
      rw [hi, if_neg hm]
      simp [build_freq]

theorem vccs_foldl_frame (U : Util) (stations : List (String × Nat)) (s : AppState) :
    stations.foldl (vccsAdd U) s
      = { s with FetchedStations := (stations.foldl (vccsAdd U) s).FetchedStations } := by
  induction stations generalizing s with
  | nil => rfl
  | cons e rest ih =>
    rw [List.foldl_cons]
    have h1 : vccsAdd U s e = { s with FetchedStations := (vccsAdd U s e).FetchedStations } := by
      unfold vccsAdd pushIfNew
      split_ifs <;> rfl
    rw [ih (vccsAdd U s e)]
    generalize (List.foldl (vccsAdd U) (vccsAdd U s e) rest).FetchedStations = r
    rw [h1]

theorem vccsFresh_new (U : Util) (l : List (String × Nat)) (seen : List Nat) :
    ∀ st ∈ vccsFresh U seen l, st.freq ∉ seen := by
  induction l generalizing seen with
  | nil => simp [vccsFresh]
  | cons e rest ih =>
    intro st hst
    simp only [vccsFresh, List.mem_append] at hst
    rcases hst with hst | hst
    · by_cases hm : normalizeFrequency U e.2 ∈ seen
      · simp [hm] at hst
      · simp only [hm, if_false, List.mem_singleton] at hst
        rw [hst, build_freq]
        exact hm
    · intro hin
      exact ih _ st hst (List.mem_append_left _ hin)

theorem vccsFresh_nodup (U : Util) (l : List (String × Nat)) (seen : List Nat) :
    ((vccsFresh U seen l).map (fun st => st.freq)).Nodup := by
  induction l generalizing seen with
  | nil => simp [vccsFresh]
  | cons e rest ih =>
    simp only [vccsFresh, List.map_append]
    rw [List.nodup_append]
    refine ⟨?_, ih _, ?_⟩
    · by_cases hm : normalizeFrequency U e.2 ∈ seen <;> simp [hm]
    · intro x hx hy
      obtain ⟨st, hst, hf⟩ := List.mem_map.1 hy
      have hnew := vccsFresh_new U rest _ st hst
      by_cases hm : normalizeFrequency U e.2 ∈ seen
      · simp [hm] at hx
      · simp only [hm, if_false, List.map_cons, List.map_nil, List.mem_singleton,
          build_freq] at hx
        apply hnew
        rw [hf, hx]
        simp

theorem vccsFresh_covers (U : Util) (l : List (String × Nat)) (seen : List Nat) :
    ∀ e ∈ l, normalizeFrequency U e.2 ∈ seen
      ∨ normalizeFrequency U e.2 ∈ (vccsFresh U seen l).map (fun st => st.freq) := by
  induction l generalizing seen with
  | nil => simp
  | cons e rest ih =>
    intro x hx
    rcases List.mem_cons.1 hx with hx | hx
    · subst hx
      by_cases hm : normalizeFrequency U x.2 ∈ seen
      · exact Or.inl hm
      · right
        simp [vccsFresh, hm, build_freq]
    · rcases ih (seen ++ [normalizeFrequency U e.2]) x hx with h | h
      · rcases List.mem_append.1 h with h | h
        · exact Or.inl h
        · by_cases hm : normalizeFrequency U e.2 ∈ seen
          · left
            rw [List.mem_singleton.1 h]
            exact hm
          · right
            simp only [List.mem_singleton] at h
            simp [vccsFresh, hm, build_freq, h]
      · right
        simp only [vccsFresh, List.map_append, List.mem_append]
        exact Or.inr h

theorem vccsFresh_order (U : Util) (l : List (String × Nat)) (seen : List Nat) :
    ((vccsFresh U seen l).map (fun st => st.callsign)).Sublist (l.map (fun e => e.1)) := by
  induction l generalizing seen with
  | nil => simp [vccsFresh]
  | cons e rest ih =>
    simp only [vccsFresh, List.map_append, List.map_cons]
    by_cases hm : normalizeFrequency U e.2 ∈ seen
    · simp only [hm, if_true, List.map_nil, List.nil_append]
      exact List.Sublist.cons _ (ih _)
    · simp only [hm, if_false, List.map_cons, List.map_nil, List.singleton_append,
        build_callsign]
      exact List.Sublist.cons₂ _ (ih _)

/-- C25. A `VccsReceived` event with both payload slots present, handled
while voice is connected, changes nothing but the registry; the registry
becomes the old one followed by one new station for each distinct normalized
frequency of the payload that was not present, in the order of the payload
(the iteration order of the map: ascending callsign).  Of the entries that
normalize to the same frequency only the first contributes: the entry after
`pre` adds a station exactly when its normalized frequency is neither in the
old registry nor the normalized frequency of an entry of `pre`.  Afterwards
every normalized frequency of the payload exists in the registry. -/
theorem vccs_received_appends (U : Util) (a : Adapter) (s : AppState)
    (stations : List (String × Nat)) (hv : a.IsVoiceConnected s.calls = true) :
    ∃ s1, eventCallback U a (ClientEvent.VccsReceived (some ()) (some stations)) s = some s1
      ∧ s1 = { s with FetchedStations := s1.FetchedStations }
      ∧ s1.FetchedStations = s.FetchedStations
          ++ vccsFresh U (s.FetchedStations.map (fun st => st.freq)) stations
      ∧ (∀ pre e post, stations = pre ++ e :: post →
          vccsFresh U (s.FetchedStations.map (fun st => st.freq)) stations
            = vccsFresh U (s.FetchedStations.map (fun st => st.freq)) pre
              ++ ((if normalizeFrequency U e.2 ∈ s.FetchedStations.map (fun st => st.freq)
                      ++ pre.map (fun x => normalizeFrequency U x.2) then []
                    else [StationElement.build U e.1 (normalizeFrequency U e.2)])
                ++ vccsFresh U
                    ((s.FetchedStations.map (fun st => st.freq)
                      ++ pre.map (fun x => normalizeFrequency U x.2))
                      ++ [normalizeFrequency U e.2]) post))
      ∧ ((vccsFresh U (s.FetchedStations.map (fun st => st.freq)) stations).map
          (fun st => st.freq)).Nodup
      ∧ (∀ st ∈ vccsFresh U (s.FetchedStations.map (fun st => st.freq)) stations,
          frequencyExists s.FetchedStations st.freq = false)
      ∧ ((vccsFresh U (s.FetchedStations.map (fun st => st.freq)) stations).map
          (fun st => st.callsign)).Sublist (stations.map (fun e => e.1))
      ∧ ((stations.map (fun e => e.1)).Pairwise (fun x y => x < y) →
          ((vccsFresh U (s.FetchedStations.map (fun st => st.freq)) stations).map
            (fun st => st.callsign)).Pairwise (fun x y => x < y))
      ∧ (∀ e ∈ stations,
          frequencyExists s1.FetchedStations (normalizeFrequency U e.2) = true) := by
  refine ⟨stations.foldl (vccsAdd U) s, by simp [eventCallback, hv],
    vccs_foldl_frame U stations s, vccs_foldl_registry U stations s, ?_,
    vccsFresh_nodup U stations _, ?_, vccsFresh_order U stations _,
    fun h => h.sublist (vccsFresh_order U stations _), ?_⟩
  · intro pre e post hst
    rw [hst, vccsFresh_append]
    rfl
  · intro st hst
    have hnew := vccsFresh_new U stations _ st hst
    cases hex : frequencyExists s.FetchedStations st.freq
    · rfl
    · exfalso
      apply hnew
      obtain ⟨x, hx, hf⟩ := (frequencyExists_iff _ _).1 hex
      exact List.mem_map.2 ⟨x, hx, hf⟩
  · intro e he
    rw [vccs_foldl_registry, frequencyExists_iff]
    rcases vccsFresh_covers U stations (s.FetchedStations.map (fun st => st.freq)) e he
      with h | h
    · obtain ⟨x, hx, hf⟩ := List.mem_map.1 h
      exact ⟨x, List.mem_append_left _ hx, hf⟩
    · obtain ⟨x, hx, hf⟩ := List.mem_map.1 h
      exact ⟨x, List.mem_append_right _ hx, hf⟩

/-- Witness of C25: with the tower station registered, a list with an entry
that normalizes to the tower frequency and two entries that normalize to
121.800 adds the first of the two only. -/
theorem vccs_received_appends_witness :
    engineOnline.IsVoiceConnected towerState.calls = true
    ∧ ∃ s1, eventCallback sampleUtil engineOnline
        (ClientEvent.VccsReceived (some ())
          (some [("LFPG_APP", 118700001), ("LFPG_DEL", 121800001), ("LFPG_GND", 121800000)]))
        towerState = some s1
      ∧ s1.FetchedStations.map (fun st => (st.callsign, st.freq))
          = [("LFPG_TWR", 118700000), ("LFPG_DEL", 121800000)] := by
  refine ⟨rfl, ?_⟩
  obtain ⟨s1, h1, _, h3, _⟩ :=
    vccs_received_appends sampleUtil engineOnline towerState
      [("LFPG_APP", 118700001), ("LFPG_DEL", 121800001), ("LFPG_GND", 121800000)] rfl
  refine ⟨s1, h1, ?_⟩
  rw [h3]
  decide

/-! ### The UNICOM add -/

theorem manualAdd_bang (U : Util) (a : Adapter) (inp : FrameInput) (s : AppState)
    (htrig : inp.callsignEnter = true ∨ inp.addButton = true)
    (hv : a.IsVoiceConnected s.calls = true)
    (hbang : startsWith (addBuffer inp s) "!" = true) :
    manualAdd U a inp s
      = { unicomAdd U inp
            { s with station_auto_add_callsign := strippedCallsign (addBuffer inp s) } with
          station_auto_add_callsign := "" } := by
  unfold manualAdd
  cases hct : inp.callsignText with
  | none =>
    have hb : startsWith s.station_auto_add_callsign "!" = true := by
      simpa [addBuffer, hct] using hbang
    simp only [addBuffer, hct, strippedCallsign]
    rw [if_pos ⟨htrig, hv⟩]
    simp only [hb, Bool.not_true, Bool.false_eq_true, if_false]
  | some text =>
    have hb : startsWith text "!" = true := by
      simpa [addBuffer, hct] using hbang
    simp only [addBuffer, hct, strippedCallsign]
    rw [if_pos ⟨htrig, hv⟩]
    simp only [hb, Bool.not_true, Bool.false_eq_true, if_false]

theorem distinct_filter_le_one (l : List StationElement) (f : Nat)
    (hd : distinctFrequencies l) : (l.filter (fun st => st.freq == f)).length ≤ 1 := by
  induction l with
  | nil => simp
  | cons x xs ih =>
    have hp := List.pairwise_cons.1 hd
    by_cases hx : x.freq = f
    · have hnone : xs.filter (fun st => st.freq == f) = [] := by
        rw [List.filter_eq_nil_iff]
        intro y hy
        have := hp.1 y hy
        simp only [beq_iff_eq]
        intro hyf
        exact this (hx.trans hyf.symm)
      simp [List.filter_cons, hx, hnone]
    · simp only [List.filter_cons, beq_iff_eq, hx, if_false]
      exact ih hp.2

/-- C30. A manual add of a callsign that starts with `!`, made while voice is
connected.  If a station on `kUnicomFrequency` exists, or the lookup of the
pilot position for the callsign without its `!` fails, the registry is
unchanged, no command is issued to the engine and the error modal is raised.
Otherwise exactly one station, with the stripped callsign and
`kUnicomFrequency`, is appended, and the engine is given the position found,
told to add that frequency for the stripped callsign and to enable receive on
it, and given the gain.  In every case the callsign field is reset to the empty
string.  The add never takes the registry to more than one UNICOM station, and
no run from an empty registry reaches a registry with more than one. -/
theorem unicom_add (U : Util) (a : Adapter) (inp : FrameInput) (s : AppState)
    (htrig : inp.callsignEnter = true ∨ inp.addButton = true)
    (hv : a.IsVoiceConnected s.calls = true)
    (hbang : startsWith (addBuffer inp s) "!" = true) :
    ((frequencyExists s.FetchedStations U.kUnicomFrequency = true
        ∨ inp.getPilotPositionWithAnything (strippedCallsign (addBuffer inp s)) = none) →
      (manualAdd U a inp s).FetchedStations = s.FetchedStations
      ∧ (manualAdd U a inp s).calls = s.calls
      ∧ (manualAdd U a inp s).showErrorModal_ = true
      ∧ (manualAdd U a inp s).lastErrorModalMessage_
          = (if frequencyExists s.FetchedStations U.kUnicomFrequency
              then "Another UNICOM frequency is active, please delete it first."
              else "Could not find pilot connected under that callsign."))
    ∧ (∀ latitude longitude,
        frequencyExists s.FetchedStations U.kUnicomFrequency = false →
        inp.getPilotPositionWithAnything (strippedCallsign (addBuffer inp s))
          = some (latitude, longitude) →
        (manualAdd U a inp s).FetchedStations
          = s.FetchedStations
            ++ [StationElement.build U (strippedCallsign (addBuffer inp s))
                  U.kUnicomFrequency]
        ∧ (manualAdd U a inp s).calls
          = s.calls
            ++ [ClientCall.SetClientPosition latitude longitude 1000 1000,
                ClientCall.AddFrequency U.kUnicomFrequency
                  (strippedCallsign (addBuffer inp s)),
                ClientCall.SetRx U.kUnicomFrequency true,
                ClientCall.SetRadiosGain s.RadioGain]
        ∧ (manualAdd U a inp s).showErrorModal_ = s.showErrorModal_)
    ∧ (manualAdd U a inp s).station_auto_add_callsign = ""
    ∧ ((unicomStations U s.FetchedStations).length ≤ 1 →
        (unicomStations U (manualAdd U a inp s).FetchedStations).length ≤ 1)
    ∧ (∀ (acts : List Action) (s0 s1 : AppState), s0.FetchedStations = [] →
        run U acts s0 = some s1 → (unicomStations U s1.FetchedStations).length ≤ 1) := by
  rw [manualAdd_bang U a inp s htrig hv hbang]
  refine ⟨?_, ?_, rfl, ?_, ?_⟩
  · intro h
    unfold unicomAdd
    cases hex : frequencyExists s.FetchedStations U.kUnicomFrequency
    · have hl : inp.getPilotPositionWithAnything (strippedCallsign (addBuffer inp s))
          = none := by
        rcases h with h | h
        · rw [hex] at h
          exact absurd h (by decide)
        · exact h
      simp [hl, errorModal]
    · simp [errorModal]
  · intro latitude longitude hex hl
    unfold unicomAdd
    simp [hex, hl, callAll]
  · intro hle
    unfold unicomAdd
    cases hex : frequencyExists s.FetchedStations U.kUnicomFrequency
    · have hnone : unicomStations U s.FetchedStations = [] := by
        unfold unicomStations
        rw [List.filter_eq_nil_iff]
        intro st hst hf
        have : frequencyExists s.FetchedStations U.kUnicomFrequency = true :=
          (frequencyExists_iff _ _).2 ⟨st, hst, by simpa using hf⟩
        rw [hex] at this
        exact absurd this (by decide)
      cases hl : inp.getPilotPositionWithAnything (strippedCallsign (addBuffer inp s)) with
      | none => simpa [hl, errorModal] using hle
      | some pos =>
        obtain ⟨lat, lon⟩ := pos
        have h1 : unicomStations U
            (s.FetchedStations
              ++ [StationElement.build U (strippedCallsign (addBuffer inp s))
                    U.kUnicomFrequency])
            = [StationElement.build U (strippedCallsign (addBuffer inp s))
                U.kUnicomFrequency] := by
          unfold unicomStations at hnone ⊢
          rw [List.filter_append, hnone]
          simp [build_freq]
        simp [hl, callAll, h1]
    · simpa [errorModal] using hle
  · intro acts s0 s1 h0 hrun
    exact distinct_filter_le_one _ _
      (run_distinct U acts s0 s1 hrun (h0 ▸ List.Pairwise.nil))

/-- Witness of C30: `!AFR123` is added from the bootstrapped sample state. -/
theorem unicom_add_witness :
    (unicomFrame.callsignEnter = true ∨ unicomFrame.addButton = true)
    ∧ engineOnline.IsVoiceConnected towerState.calls = true
    ∧ startsWith (addBuffer unicomFrame towerState) "!" = true
    ∧ (manualAdd sampleUtil engineOnline unicomFrame towerState).FetchedStations
        = towerState.FetchedStations
          ++ [StationElement.build sampleUtil
                (strippedCallsign (addBuffer unicomFrame towerState))
                sampleUtil.kUnicomFrequency]
    ∧ (manualAdd sampleUtil engineOnline unicomFrame towerState).station_auto_add_callsign
        = "" :=
  ⟨Or.inr rfl, rfl, by decide,
   ((unicom_add sampleUtil engineOnline unicomFrame towerState (Or.inr rfl) rfl
      (by decide)).2.1 0 0 (by decide) rfl).1,
   (unicom_add sampleUtil engineOnline unicomFrame towerState (Or.inr rfl) rfl
      (by decide)).2.2.1⟩

/-- Support for C30: the pass in which `!AFR123` is entered while a UNICOM
station is registered shows the error popup and leaves the registry and the
engine alone; the pass from the bootstrapped state adds the station. -/
theorem unicom_pass_sample :
    (render_frame sampleUtil (some engineOnline) unicomFrame twoStationState).map
        (fun t => (t.FetchedStations, t.calls, t.errorPopups, t.station_auto_add_callsign))
      = some ([towerStation, unicomStation], [],
          ["Another UNICOM frequency is active, please delete it first."], "")
    ∧ (render_frame sampleUtil (some engineOnline) unicomFrame towerState).map
        (fun t => (t.FetchedStations, t.errorPopups, t.station_auto_add_callsign))
      = some ([towerStation, unicomStation], [], "") := by
  constructor <;> decide

/-! ### Fields a pass leaves alone -/

theorem render_frame_body (U : Util) (a : Adapter) (inp : FrameInput) (s : AppState) :
    render_frame U (some a) inp s
      = some (snapshotRebuild inp [] (modalTrigger (passBody U a inp (pttStep a inp s)))) :=
  rfl

theorem pttStep_errorSounds (a : Adapter) (inp : FrameInput) (s : AppState) :
    (pttStep a inp s).errorSounds = s.errorSounds := by
  rcases pttStep_eq a inp s with h | ⟨b, h⟩ <;> rw [h]

theorem pushIfNew_errorSounds (el : StationElement) (s : AppState) :
    (pushIfNew el s).errorSounds = s.errorSounds := by
  unfold pushIfNew
  split_ifs <;> rfl

theorem bootstrapStep_errorSounds (U : Util) (a : Adapter) (s : AppState) :
    (bootstrapStep U a s).errorSounds = s.errorSounds := by
  unfold bootstrapStep
  split_ifs
  · simp only [callAll, pushIfNew_errorSounds]
  · rfl

theorem connectPressed_errorSounds (a : Adapter) (inp : FrameInput) (s : AppState) :
    (connectPressed a inp s).errorSounds = s.errorSounds := by
  unfold connectPressed
  simp only []
  split_ifs <;> rfl

theorem connectControls_errorSounds (a : Adapter) (inp : FrameInput) (s : AppState) :
    (connectControls a inp s).errorSounds = s.errorSounds := by
  unfold connectControls
  split_ifs
  all_goals first
    | rfl
    | exact connectPressed_errorSounds a inp s

theorem unicomAdd_errorSounds (U : Util) (inp : FrameInput) (s : AppState) :
    (unicomAdd U inp s).errorSounds = s.errorSounds := by
  unfold unicomAdd
  split_ifs
  · split <;> rfl
  · rfl

theorem manualAdd_errorSounds (U : Util) (a : Adapter) (inp : FrameInput) (s : AppState) :
    (manualAdd U a inp s).errorSounds = s.errorSounds := by
  unfold manualAdd
  simp only []
  split_ifs
  · split <;> rfl
  · split <;> simp only [unicomAdd_errorSounds]
  · split <;> rfl

theorem topControls_errorSounds (U : Util) (a : Adapter) (inp : FrameInput) (s : AppState) :
    (topControls U a inp s).errorSounds = s.errorSounds := by
  have hg : (gainControl a inp s).errorSounds = s.errorSounds := by
    unfold gainControl
    split
    · split_ifs <;> rfl
    · rfl
  unfold topControls
  simp only []
  split_ifs
  · rw [manualAdd_errorSounds, hg]
  · exact hg

theorem rxSpButtons_errorSounds (ui : StationUi) (p : Polled) (el : StationElement)
    (s : AppState) : (rxSpButtons ui p el s).errorSounds = s.errorSounds := by
  unfold rxSpButtons
  simp only []
  split_ifs <;> rfl

theorem txXcButtons_errorSounds (ui : StationUi) (p : Polled) (el : StationElement)
    (s : AppState) : (txXcButtons ui p el s).errorSounds = s.errorSounds := by
  unfold txXcButtons
  simp only []
  split_ifs <;> rfl

theorem stationButtons_errorSounds (inp : FrameInput) (ui : StationUi) (p : Polled)
    (el : StationElement) (s : AppState) :
    (stationButtons inp ui p el s).errorSounds = s.errorSounds := by
  unfold stationButtons
  split_ifs
  · rw [txXcButtons_errorSounds, rxSpButtons_errorSounds]
  · rfl

theorem staleLoop_errorSounds (a : Adapter) (inp : FrameInput) (n i : Nat) (s : AppState) :
    (staleLoop a inp i n s).errorSounds = s.errorSounds := by
  induction n generalizing i s with
  | zero => rfl
  | succ n ih =>
    unfold staleLoop
    simp only []
    rw [ih, stationButtons_errorSounds]
    split_ifs <;> rfl

theorem stationLoop_errorSounds (a : Adapter) (inp : FrameInput) (todo : List StationElement)
    (i : Nat) (s : AppState) : (stationLoop a inp i todo s).errorSounds = s.errorSounds := by
  induction todo generalizing i s with
  | nil => rfl
  | cons el rest ih =>
    unfold stationLoop
    simp only []
    by_cases hr : (inp.stationUi i).removeStation = true
    · rw [if_pos hr, staleLoop_errorSounds, stationButtons_errorSounds]
      split_ifs <;> rfl
    · rw [if_neg hr, ih, stationButtons_errorSounds]
      split_ifs <;> rfl

theorem afterControls_errorSounds (U : Util) (a : Adapter) (inp : FrameInput) (t : AppState) :
    (if (!inp.collapse) = true then
        stationLoop a inp 0
          (if ctrls_cols inp ≥ 1 then topControls U a inp t else t).FetchedStations
          (if ctrls_cols inp ≥ 1 then topControls U a inp t else t)
      else (if ctrls_cols inp ≥ 1 then topControls U a inp t else t)).errorSounds = t.errorSounds := by
  have h3 : (if ctrls_cols inp ≥ 1 then topControls U a inp t else t).errorSounds = t.errorSounds := by
    split_ifs
    · exact topControls_errorSounds U a inp t
    · rfl
  generalize (if ctrls_cols inp ≥ 1 then topControls U a inp t else t) = t3 at h3 ⊢
  split_ifs
  · rw [stationLoop_errorSounds, h3]
  · exact h3

theorem passBody_errorSounds (U : Util) (a : Adapter) (inp : FrameInput) (sp : AppState) :
    (passBody U a inp sp).errorSounds = sp.errorSounds := by
  have h2 : ∀ t : AppState,
      (if ctrls_cols inp ≥ 4 then connectControls a inp t else t).errorSounds = t.errorSounds := by
    intro t
    split_ifs
    · exact connectControls_errorSounds a inp t
    · rfl
  unfold passBody
  simp only []
  rw [afterControls_errorSounds, h2, bootstrapStep_errorSounds]

theorem pttStep_timer (a : Adapter) (inp : FrameInput) (s : AppState) :
    (pttStep a inp s).currentlyTransmittingApiTimer = s.currentlyTransmittingApiTimer := by
  rcases pttStep_eq a inp s with h | ⟨b, h⟩ <;> rw [h]

theorem pushIfNew_timer (el : StationElement) (s : AppState) :
    (pushIfNew el s).currentlyTransmittingApiTimer = s.currentlyTransmittingApiTimer := by
  unfold pushIfNew
  split_ifs <;> rfl

theorem bootstrapStep_timer (U : Util) (a : Adapter) (s : AppState) :
    (bootstrapStep U a s).currentlyTransmittingApiTimer = s.currentlyTransmittingApiTimer := by
  unfold bootstrapStep
  split_ifs
  · simp only [callAll, pushIfNew_timer]
  · rfl

theorem connectPressed_timer (a : Adapter) (inp : FrameInput) (s : AppState) :
    (connectPressed a inp s).currentlyTransmittingApiTimer = s.currentlyTransmittingApiTimer := by
  unfold connectPressed
  simp only []
  split_ifs <;> rfl

theorem connectControls_timer (a : Adapter) (inp : FrameInput) (s : AppState) :
    (connectControls a inp s).currentlyTransmittingApiTimer = s.currentlyTransmittingApiTimer := by
  unfold connectControls
  split_ifs
  all_goals first
    | rfl
    | exact connectPressed_timer a inp s

theorem unicomAdd_timer (U : Util) (inp : FrameInput) (s : AppState) :
    (unicomAdd U inp s).currentlyTransmittingApiTimer = s.currentlyTransmittingApiTimer := by
  unfold unicomAdd
  split_ifs
  · split <;> rfl
  · rfl

theorem manualAdd_timer (U : Util) (a : Adapter) (inp : FrameInput) (s : AppState) :
    (manualAdd U a inp s).currentlyTransmittingApiTimer = s.currentlyTransmittingApiTimer := by
  unfold manualAdd
  simp only []
  split_ifs
  · split <;> rfl
  · split <;> simp only [unicomAdd_timer]
  · split <;> rfl

theorem topControls_timer (U : Util) (a : Adapter) (inp : FrameInput) (s : AppState) :
    (topControls U a inp s).currentlyTransmittingApiTimer = s.currentlyTransmittingApiTimer := by
  have hg : (gainControl a inp s).currentlyTransmittingApiTimer = s.currentlyTransmittingApiTimer := by
    unfold gainControl
    split
    · split_ifs <;> rfl
    · rfl
  unfold topControls
  simp only []
  split_ifs
  · rw [manualAdd_timer, hg]
  · exact hg

theorem rxSpButtons_timer (ui : StationUi) (p : Polled) (el : StationElement)
    (s : AppState) : (rxSpButtons ui p el s).currentlyTransmittingApiTimer = s.currentlyTransmittingApiTimer := by
  unfold rxSpButtons
  simp only []
  split_ifs <;> rfl

theorem txXcButtons_timer (ui : StationUi) (p : Polled) (el : StationElement)
    (s : AppState) : (txXcButtons ui p el s).currentlyTransmittingApiTimer = s.currentlyTransmittingApiTimer := by
  unfold txXcButtons
  simp only []
  split_ifs <;> rfl

theorem stationButtons_timer (inp : FrameInput) (ui : StationUi) (p : Polled)
    (el : StationElement) (s : AppState) :
    (stationButtons inp ui p el s).currentlyTransmittingApiTimer = s.currentlyTransmittingApiTimer := by
  unfold stationButtons
  split_ifs
  · rw [txXcButtons_timer, rxSpButtons_timer]
  · rfl

theorem staleLoop_timer (a : Adapter) (inp : FrameInput) (n i : Nat) (s : AppState) :
    (staleLoop a inp i n s).currentlyTransmittingApiTimer = s.currentlyTransmittingApiTimer := by
  induction n generalizing i s with
  | zero => rfl
  | succ n ih =>
    unfold staleLoop
    simp only []
    rw [ih, stationButtons_timer]
    split_ifs <;> rfl

theorem stationLoop_timer (a : Adapter) (inp : FrameInput) (todo : List StationElement)
    (i : Nat) (s : AppState) : (stationLoop a inp i todo s).currentlyTransmittingApiTimer = s.currentlyTransmittingApiTimer := by
  induction todo generalizing i s with
  | nil => rfl
  | cons el rest ih =>
    unfold stationLoop
    simp only []
    by_cases hr : (inp.stationUi i).removeStation = true
    · rw [if_pos hr, staleLoop_timer, stationButtons_timer]
      split_ifs <;> rfl
    · rw [if_neg hr, ih, stationButtons_timer]
      split_ifs <;> rfl

theorem afterControls_timer (U : Util) (a : Adapter) (inp : FrameInput) (t : AppState) :
    (if (!inp.collapse) = true then
        stationLoop a inp 0
          (if ctrls_cols inp ≥ 1 then topControls U a inp t else t).FetchedStations
          (if ctrls_cols inp ≥ 1 then topControls U a inp t else t)
      else (if ctrls_cols inp ≥ 1 then topControls U a inp t else t)).currentlyTransmittingApiTimer = t.currentlyTransmittingApiTimer := by
  have h3 : (if ctrls_cols inp ≥ 1 then topControls U a inp t else t).currentlyTransmittingApiTimer = t.currentlyTransmittingApiTimer := by
    split_ifs
    · exact topControls_timer U a inp t
    · rfl
  generalize (if ctrls_cols inp ≥ 1 then topControls U a inp t else t) = t3 at h3 ⊢
  split_ifs
  · rw [stationLoop_timer, h3]
  · exact h3

theorem passBody_timer (U : Util) (a : Adapter) (inp : FrameInput) (sp : AppState) :
    (passBody U a inp sp).currentlyTransmittingApiTimer = sp.currentlyTransmittingApiTimer := by
  have h2 : ∀ t : AppState,
      (if ctrls_cols inp ≥ 4 then connectControls a inp t else t).currentlyTransmittingApiTimer = t.currentlyTransmittingApiTimer := by
    intro t
    split_ifs
    · exact connectControls_timer a inp t
    · rfl
  unfold passBody
  simp only []
  rw [afterControls_timer, h2, bootstrapStep_timer]

theorem pttStep_facility (a : Adapter) (inp : FrameInput) (s : AppState) :
    (pttStep a inp s).session.facility = s.session.facility := by
  rcases pttStep_eq a inp s with h | ⟨b, h⟩ <;> rw [h]

theorem pushIfNew_facility (el : StationElement) (s : AppState) :
    (pushIfNew el s).session.facility = s.session.facility := by
  unfold pushIfNew
  split_ifs <;> rfl

theorem bootstrapStep_facility (U : Util) (a : Adapter) (s : AppState) :
    (bootstrapStep U a s).session.facility = s.session.facility := by
  unfold bootstrapStep
  split_ifs
  · simp only [callAll, pushIfNew_facility]
  · rfl

theorem connectPressed_facility (a : Adapter) (inp : FrameInput) (s : AppState) :
    (connectPressed a inp s).session.facility = s.session.facility := by
  unfold connectPressed
  simp only []
  split_ifs <;> rfl

theorem connectControls_facility (a : Adapter) (inp : FrameInput) (s : AppState) :
    (connectControls a inp s).session.facility = s.session.facility := by
  unfold connectControls
  split_ifs
  all_goals first
    | rfl
    | exact connectPressed_facility a inp s

theorem unicomAdd_facility (U : Util) (inp : FrameInput) (s : AppState) :
    (unicomAdd U inp s).session.facility = s.session.facility := by
  unfold unicomAdd
  split_ifs
  · split <;> rfl
  · rfl

theorem manualAdd_facility (U : Util) (a : Adapter) (inp : FrameInput) (s : AppState) :
    (manualAdd U a inp s).session.facility = s.session.facility := by
  unfold manualAdd
  simp only []
  split_ifs
  · split <;> rfl
  · split <;> simp only [unicomAdd_facility]
  · split <;> rfl

theorem topControls_facility (U : Util) (a : Adapter) (inp : FrameInput) (s : AppState) :
    (topControls U a inp s).session.facility = s.session.facility := by
  have hg : (gainControl a inp s).session.facility = s.session.facility := by
    unfold gainControl
    split
    · split_ifs <;> rfl
    · rfl
  unfold topControls
  simp only []
  split_ifs
  · rw [manualAdd_facility, hg]
  · exact hg

theorem rxSpButtons_facility (ui : StationUi) (p : Polled) (el : StationElement)
    (s : AppState) : (rxSpButtons ui p el s).session.facility = s.session.facility := by
  unfold rxSpButtons
  simp only []
  split_ifs <;> rfl

theorem txXcButtons_facility (ui : StationUi) (p : Polled) (el : StationElement)
    (s : AppState) : (txXcButtons ui p el s).session.facility = s.session.facility := by
  unfold txXcButtons
  simp only []
  split_ifs <;> rfl

theorem stationButtons_facility (inp : FrameInput) (ui : StationUi) (p : Polled)
    (el : StationElement) (s : AppState) :
    (stationButtons inp ui p el s).session.facility = s.session.facility := by
  unfold stationButtons
  split_ifs
  · rw [txXcButtons_facility, rxSpButtons_facility]
  · rfl

theorem staleLoop_facility (a : Adapter) (inp : FrameInput) (n i : Nat) (s : AppState) :
    (staleLoop a inp i n s).session.facility = s.session.facility := by
  induction n generalizing i s with
  | zero => rfl
  | succ n ih =>
    unfold staleLoop
    simp only []
    rw [ih, stationButtons_facility]
    split_ifs <;> rfl

theorem stationLoop_facility (a : Adapter) (inp : FrameInput) (todo : List StationElement)
    (i : Nat) (s : AppState) : (stationLoop a inp i todo s).session.facility = s.session.facility := by
  induction todo generalizing i s with
  | nil => rfl
  | cons el rest ih =>
    unfold stationLoop
    simp only []
    by_cases hr : (inp.stationUi i).removeStation = true
    · rw [if_pos hr, staleLoop_facility, stationButtons_facility]
      split_ifs <;> rfl
    · rw [if_neg hr, ih, stationButtons_facility]
      split_ifs <;> rfl

theorem afterControls_facility (U : Util) (a : Adapter) (inp : FrameInput) (t : AppState) :
    (if (!inp.collapse) = true then
        stationLoop a inp 0
          (if ctrls_cols inp ≥ 1 then topControls U a inp t else t).FetchedStations
          (if ctrls_cols inp ≥ 1 then topControls U a inp t else t)
      else (if ctrls_cols inp ≥ 1 then topControls U a inp t else t)).session.facility = t.session.facility := by
  have h3 : (if ctrls_cols inp ≥ 1 then topControls U a inp t else t).session.facility = t.session.facility := by
    split_ifs
    · exact topControls_facility U a inp t
    · rfl
  generalize (if ctrls_cols inp ≥ 1 then topControls U a inp t else t) = t3 at h3 ⊢
  split_ifs
  · rw [stationLoop_facility, h3]
  · exact h3

theorem passBody_facility (U : Util) (a : Adapter) (inp : FrameInput) (sp : AppState) :
    (passBody U a inp sp).session.facility = sp.session.facility := by
  have h2 : ∀ t : AppState,
      (if ctrls_cols inp ≥ 4 then connectControls a inp t else t).session.facility = t.session.facility := by
    intro t
    split_ifs
    · exact connectControls_facility a inp t
    · rfl
  unfold passBody
  simp only []
  rw [afterControls_facility, h2, bootstrapStep_facility]

theorem pttStep_manual (a : Adapter) (inp : FrameInput) (s : AppState) :
    (pttStep a inp s).manuallyDisconnected_ = s.manuallyDisconnected_ := by
  rcases pttStep_eq a inp s with h | ⟨b, h⟩ <;> rw [h]

theorem pushIfNew_manual (el : StationElement) (s : AppState) :
    (pushIfNew el s).manuallyDisconnected_ = s.manuallyDisconnected_ := by
  unfold pushIfNew
  split_ifs <;> rfl

theorem bootstrapStep_manual (U : Util) (a : Adapter) (s : AppState) :
    (bootstrapStep U a s).manuallyDisconnected_ = s.manuallyDisconnected_ := by
  unfold bootstrapStep
  split_ifs
  · simp only [callAll, pushIfNew_manual]
  · rfl

theorem connectPressed_manual (a : Adapter) (inp : FrameInput) (s : AppState) :
    (connectPressed a inp s).manuallyDisconnected_ = s.manuallyDisconnected_ := by
  unfold connectPressed
  simp only []
  split_ifs <;> rfl

theorem unicomAdd_manual (U : Util) (inp : FrameInput) (s : AppState) :
    (unicomAdd U inp s).manuallyDisconnected_ = s.manuallyDisconnected_ := by
  unfold unicomAdd
  split_ifs
  · split <;> rfl
  · rfl

theorem manualAdd_manual (U : Util) (a : Adapter) (inp : FrameInput) (s : AppState) :
    (manualAdd U a inp s).manuallyDisconnected_ = s.manuallyDisconnected_ := by
  unfold manualAdd
  simp only []
  split_ifs
  · split <;> rfl
  · split <;> simp only [unicomAdd_manual]
  · split <;> rfl

theorem topControls_manual (U : Util) (a : Adapter) (inp : FrameInput) (s : AppState) :
    (topControls U a inp s).manuallyDisconnected_ = s.manuallyDisconnected_ := by
  have hg : (gainControl a inp s).manuallyDisconnected_ = s.manuallyDisconnected_ := by
    unfold gainControl
    split
    · split_ifs <;> rfl
    · rfl
  unfold topControls
  simp only []
  split_ifs
  · rw [manualAdd_manual, hg]
  · exact hg

theorem rxSpButtons_manual (ui : StationUi) (p : Polled) (el : StationElement)
    (s : AppState) : (rxSpButtons ui p el s).manuallyDisconnected_ = s.manuallyDisconnected_ := by
  unfold rxSpButtons
  simp only []
  split_ifs <;> rfl

theorem txXcButtons_manual (ui : StationUi) (p : Polled) (el : StationElement)
    (s : AppState) : (txXcButtons ui p el s).manuallyDisconnected_ = s.manuallyDisconnected_ := by
  unfold txXcButtons
  simp only []
  split_ifs <;> rfl

theorem stationButtons_manual (inp : FrameInput) (ui : StationUi) (p : Polled)
    (el : StationElement) (s : AppState) :
    (stationButtons inp ui p el s).manuallyDisconnected_ = s.manuallyDisconnected_ := by
  unfold stationButtons
  split_ifs
  · rw [txXcButtons_manual, rxSpButtons_manual]
  · rfl

theorem staleLoop_manual (a : Adapter) (inp : FrameInput) (n i : Nat) (s : AppState) :
    (staleLoop a inp i n s).manuallyDisconnected_ = s.manuallyDisconnected_ := by
  induction n generalizing i s with
  | zero => rfl
  | succ n ih =>
    unfold staleLoop
    simp only []
    rw [ih, stationButtons_manual]
    split_ifs <;> rfl

theorem stationLoop_manual (a : Adapter) (inp : FrameInput) (todo : List StationElement)
    (i : Nat) (s : AppState) : (stationLoop a inp i todo s).manuallyDisconnected_ = s.manuallyDisconnected_ := by
  induction todo generalizing i s with
  | nil => rfl
  | cons el rest ih =>
    unfold stationLoop
    simp only []
    by_cases hr : (inp.stationUi i).removeStation = true
    · rw [if_pos hr, staleLoop_manual, stationButtons_manual]
      split_ifs <;> rfl
    · rw [if_neg hr, ih, stationButtons_manual]
      split_ifs <;> rfl

theorem afterControls_manual (U : Util) (a : Adapter) (inp : FrameInput) (t : AppState) :
    (if (!inp.collapse) = true then
        stationLoop a inp 0
          (if ctrls_cols inp ≥ 1 then topControls U a inp t else t).FetchedStations
          (if ctrls_cols inp ≥ 1 then topControls U a inp t else t)
      else (if ctrls_cols inp ≥ 1 then topControls U a inp t else t)).manuallyDisconnected_ = t.manuallyDisconnected_ := by
  have h3 : (if ctrls_cols inp ≥ 1 then topControls U a inp t else t).manuallyDisconnected_ = t.manuallyDisconnected_ := by
    split_ifs
    · exact topControls_manual U a inp t
    · rfl
  generalize (if ctrls_cols inp ≥ 1 then topControls U a inp t else t) = t3 at h3 ⊢
  split_ifs
  · rw [stationLoop_manual, h3]
  · exact h3

theorem passTail_errorSounds (inp : FrameInput) (t : AppState) :
    (snapshotRebuild inp [] (modalTrigger t)).errorSounds = t.errorSounds := by
  unfold snapshotRebuild modalTrigger
  split_ifs <;> rfl

theorem passTail_manual (inp : FrameInput) (t : AppState) :
    (snapshotRebuild inp [] (modalTrigger t)).manuallyDisconnected_
      = t.manuallyDisconnected_ := by
  unfold snapshotRebuild modalTrigger
  split_ifs <;> rfl

theorem modalTrigger_timer (t : AppState) :
    (modalTrigger t).currentlyTransmittingApiTimer = t.currentlyTransmittingApiTimer := by
  unfold modalTrigger
  split_ifs <;> rfl

/-! ### The transmitting snapshot -/

theorem render_frame_snapshot (U : Util) (a : Adapter) (inp : FrameInput) (s : AppState)
    (h : inp.now - s.currentlyTransmittingApiTimer ≥ 300) :
    ∃ s1, render_frame U (some a) inp s = some s1
      ∧ s1.currentlyTransmittingApiData = ""
      ∧ s1.currentlyTransmittingApiTimer = inp.now := by
  have hc : inp.now
      - (modalTrigger (passBody U a inp (pttStep a inp s))).currentlyTransmittingApiTimer
      ≥ 300 := by
    rw [modalTrigger_timer, passBody_timer, pttStep_timer]
    exact h
  refine ⟨_, render_frame_body U a inp s, ?_, ?_⟩
  · unfold snapshotRebuild
    rw [if_pos hc]
    show "" ++ joinReceived [] = ""
    decide
  · unfold snapshotRebuild
    rw [if_pos hc]

/-- C22, the code at the failing input. A pass made 1000 ms after the last
rebuild, with the tower station registered and the engine reporting voice
connected and a transmission being received on the frequency of that station:
the snapshot is rebuilt (its timer is that of the pass) to the empty string,
where the claim has the pair of the tower station.  The list the rebuild joins
is declared empty in the pass and never appended to. -/
theorem snapshot_empty_while_receiving :
    wideQuietFrame.now - towerState.currentlyTransmittingApiTimer ≥ 300
    ∧ engineReceiving.IsVoiceConnected towerState.calls = true
    ∧ engineReceiving.GetRxActive towerState.calls towerStation.freq = true
    ∧ (render_frame sampleUtil (some engineReceiving) wideQuietFrame towerState).map
        (fun t => (t.FetchedStations, t.currentlyTransmittingApiData,
          t.currentlyTransmittingApiTimer))
      = some ([towerStation], "", 1000) := by
  decide

/-! ### Intentional disconnect -/

theorem connectControls_manual (a : Adapter) (inp : FrameInput) (s : AppState)
    (hconn : ¬ (a.IsVoiceConnected s.calls = false ∧ a.IsAPIConnected s.calls = false)) :
    (connectControls a inp s).manuallyDisconnected_
      = (inp.disconnectButton || s.manuallyDisconnected_) := by
  unfold connectControls
  rw [if_neg hconn]
  cases hd : inp.disconnectButton
  · by_cases hc : s.session.is_connected = false
    · simp [hc, disconnectAndCleanup]
    · simp [hc]
  · simp [disconnectAndCleanup]

theorem passBody_manual (U : Util) (a : Adapter) (inp : FrameInput) (s : AppState)
    (ht : passTearsDown U a inp s = true) :
    (passBody U a inp (pttStep a inp s)).manuallyDisconnected_
      = (inp.disconnectButton || s.manuallyDisconnected_) := by
  unfold passTearsDown at ht
  simp only [Bool.and_eq_true, decide_eq_true_eq, Bool.not_eq_true', Bool.and_eq_false_imp,
    beq_iff_eq, Bool.or_eq_true] at ht
  obtain ⟨⟨h4, hconn⟩, _⟩ := ht
  have h1 : ¬ (a.IsVoiceConnected (bootstrapStep U a (pttStep a inp s)).calls = false
      ∧ a.IsAPIConnected (bootstrapStep U a (pttStep a inp s)).calls = false) := by
    rintro ⟨hv, ha⟩
    have := hconn hv
    rw [ha] at this
    exact Bool.noConfusion this
  unfold passBody
  simp only []
  rw [afterControls_manual, if_pos h4, connectControls_manual a inp _ h1,
    bootstrapStep_manual, pttStep_manual]

/-- C23, amended. A pass that calls `disconnectAndCleanup` from the Connect /
Disconnect controls plays no failure sound itself and leaves
`manuallyDisconnected_` set exactly when Disconnect was pressed in it or the
flag was set before.  If Disconnect was pressed, the `VoiceServerDisconnected`
event that follows plays no failure sound.  If the teardown was automatic
(Disconnect not pressed, `session::is_connected` false) the pass does not set
the flag, and the following `VoiceServerDisconnected` event plays the failure
sound once provided the flag was not set before the pass; with the flag left
set before the pass, that event is silent too.  The event clears the flag. -/
theorem intentional_disconnect_silent (U : Util) (a a1 : Adapter) (inp : FrameInput)
    (s : AppState) (ht : passTearsDown U a inp s = true) :
    ∃ s1 s2, render_frame U (some a) inp s = some s1
      ∧ eventCallback U a1 ClientEvent.VoiceServerDisconnected s1 = some s2
      ∧ s1.errorSounds = s.errorSounds
      ∧ s1.manuallyDisconnected_ = (inp.disconnectButton || s.manuallyDisconnected_)
      ∧ (inp.disconnectButton = true → s2.errorSounds = s.errorSounds)
      ∧ (inp.disconnectButton = false → s.manuallyDisconnected_ = false →
          s.session.is_connected = false ∧ s1.manuallyDisconnected_ = false
          ∧ s2.errorSounds = s.errorSounds + 1)
      ∧ (inp.disconnectButton = false → s.manuallyDisconnected_ = true →
          s2.errorSounds = s.errorSounds)
      ∧ s2.manuallyDisconnected_ = false := by
  have hs : (snapshotRebuild inp [] (modalTrigger (passBody U a inp (pttStep a inp s)))).errorSounds
      = s.errorSounds := by
    rw [passTail_errorSounds, passBody_errorSounds, pttStep_errorSounds]
  have hm : (snapshotRebuild inp []
      (modalTrigger (passBody U a inp (pttStep a inp s)))).manuallyDisconnected_
      = (inp.disconnectButton || s.manuallyDisconnected_) := by
    rw [passTail_manual, passBody_manual U a inp s ht]
  have hconn : inp.disconnectButton = false → s.session.is_connected = false := by
    intro hd
    unfold passTearsDown at ht
    simp only [Bool.and_eq_true, Bool.or_eq_true, hd, Bool.false_eq_true, false_or,
      Bool.not_eq_true'] at ht
    exact ht.2
  have hev : ∀ t : AppState,
      eventCallback U a1 ClientEvent.VoiceServerDisconnected t
        = some { t with
            errorSounds := t.errorSounds + (if t.manuallyDisconnected_ then 0 else 1)
            manuallyDisconnected_ := false } := by
    intro t
    cases h : t.manuallyDisconnected_ <;> simp [eventCallback, playErrorSound, h]
  generalize hg :
    snapshotRebuild inp [] (modalTrigger (passBody U a inp (pttStep a inp s))) = s1 at hs hm
  refine ⟨s1, _, by rw [render_frame_body, hg], hev s1, hs, hm, ?_, ?_, ?_, rfl⟩
  · intro hd
    simp [hm, hd, hs]
  · intro hd hf
    refine ⟨hconn hd, by rw [hm, hd, hf]; rfl, ?_⟩
    simp [hm, hd, hf, hs]
  · intro hd hf
    simp [hm, hd, hf, hs]

/-- Witness of C23: from the bootstrapped sample state, the pass in which
Disconnect is pressed followed by the event plays no sound; from the same state
with the network connection of the user gone, the quiet pass tears down and the
event plays the sound. -/
theorem intentional_disconnect_silent_witness :
    passTearsDown sampleUtil engineOnline disconnectFrame towerState = true
    ∧ passTearsDown sampleUtil engineOnline wideQuietFrame towerLostLinkState = true
    ∧ (∃ s1 s2, render_frame sampleUtil (some engineOnline) disconnectFrame towerState
          = some s1
        ∧ eventCallback sampleUtil engineOnline ClientEvent.VoiceServerDisconnected s1
          = some s2
        ∧ s1.manuallyDisconnected_ = true ∧ s2.errorSounds = 0)
    ∧ (∃ s1 s2, render_frame sampleUtil (some engineOnline) wideQuietFrame
          towerLostLinkState = some s1
        ∧ eventCallback sampleUtil engineOnline ClientEvent.VoiceServerDisconnected s1
          = some s2
        ∧ s1.manuallyDisconnected_ = false ∧ s2.errorSounds = 1) := by
  refine ⟨by decide, by decide, ?_, ?_⟩
  · obtain ⟨s1, s2, h1, h2, _, h4, h5, _⟩ :=
      intentional_disconnect_silent sampleUtil engineOnline engineOnline disconnectFrame
        towerState (by decide)
    exact ⟨s1, s2, h1, h2, h4, h5 rfl⟩
  · obtain ⟨s1, s2, h1, h2, _, _, _, h6, _⟩ :=
      intentional_disconnect_silent sampleUtil engineOnline engineOnline wideQuietFrame
        towerLostLinkState (by decide)
    exact ⟨s1, s2, h1, h2, (h6 rfl rfl).2.1, (h6 rfl rfl).2.2⟩

/-- C23, the code at the counterexample. From a state with the flag unset,
Disconnect is pressed while the engine reports only the API connected (no
voice connection, so no `VoiceServerDisconnected` follows): the flag stays set.
The next pass, with voice connected, nothing pressed and
`session::is_connected` false, tears down automatically and leaves the flag as
it is, and the `VoiceServerDisconnected` event that follows plays no failure
sound. -/
theorem stale_flag_silences_link_failure :
    lostLinkState.manuallyDisconnected_ = false
    ∧ (render_frame sampleUtil (some engineApiOnly) disconnectFrame lostLinkState).map
        (fun t => (t.manuallyDisconnected_, t.session.is_connected, t.errorSounds))
      = some (true, false, 0)
    ∧ wideQuietFrame.disconnectButton = false
    ∧ (render_frame sampleUtil (some engineApiOnly) disconnectFrame lostLinkState).map
        (fun t => passTearsDown sampleUtil engineOnline wideQuietFrame t) = some true
    ∧ (run sampleUtil
        [Action.frame (some engineApiOnly) disconnectFrame,
         Action.frame (some engineOnline) wideQuietFrame,
         Action.event engineOnline ClientEvent.VoiceServerDisconnected] lostLinkState).map
        (fun t => (t.errorSounds, t.manuallyDisconnected_))
      = some (0, false) := by
  refine ⟨rfl, by decide, rfl, by decide, by decide⟩

/-! ### Transmit is gated by the facility -/

theorem bootstrapCalls_receive (s : AppState) (cs : String)
    (hfac : s.session.facility ≤ 0) :
    ∀ c ∈ bootstrapCalls s cs, c.kind ∈ receiveKinds := by
  have hn : ¬ s.session.facility > 0 := not_lt.2 hfac
  unfold bootstrapCalls
  rw [if_neg hn]
  simp [ClientCall.kind, receiveKinds]

theorem bootstrapStep_receive (U : Util) (a : Adapter) (s : AppState)
    (hfac : s.session.facility ≤ 0) : Issues receiveKinds s (bootstrapStep U a s) := by
  unfold bootstrapStep
  split_ifs
  · refine ⟨bootstrapCalls s (U.ReplaceString s.session.callsign "__" "_"), ?_,
      bootstrapCalls_receive s _ hfac⟩
    simp only [callAll, pushIfNew_calls]
  · exact Issues.refl _ _

theorem activateCalls_receive (s : AppState) (el : StationElement) :
    ∀ c ∈ activateCalls s el [ClientCall.SetRx el.freq true], c.kind ∈ receiveKinds := by
  intro c hc
  simp only [activateCalls, List.mem_append, List.mem_cons, List.mem_singleton,
    List.not_mem_nil, or_false] at hc
  rcases hc with ((h1 | h1 | h1 | h1) | h1) | h1 <;> subst h1 <;>
    simp [ClientCall.kind, receiveKinds]

theorem rxSpButtons_receive (ui : StationUi) (p : Polled) (el : StationElement)
    (s : AppState) : Issues receiveKinds s (rxSpButtons ui p el s) := by
  unfold rxSpButtons
  simp only []
  split_ifs
  all_goals first
    | exact Issues.refl _ _
    | exact issues_call _ _ (by simp [ClientCall.kind, receiveKinds])
    | exact issues_callAll _ _ (activateCalls_receive _ _)
    | exact (issues_call _ _ (by simp [ClientCall.kind, receiveKinds])).trans
        (issues_call _ _ (by simp [ClientCall.kind, receiveKinds]))
    | exact (issues_callAll _ _ (activateCalls_receive _ _)).trans
        (issues_call _ _ (by simp [ClientCall.kind, receiveKinds]))

theorem txXcButtons_gated (ui : StationUi) (p : Polled) (el : StationElement)
    (s : AppState) (hfac : s.session.facility ≤ 0) : txXcButtons ui p el s = s := by
  have hn : ¬ s.session.facility > 0 := not_lt.2 hfac
  have h1 : ¬ (ui.txButton = true ∧ s.session.facility > 0) := fun h => hn h.2
  have h2 : ¬ (ui.xcButton = true ∧ s.session.facility > 0) := fun h => hn h.2
  unfold txXcButtons
  simp only []
  rw [if_neg h1, if_neg h2]

theorem stationButtons_receive (inp : FrameInput) (ui : StationUi) (p : Polled)
    (el : StationElement) (s : AppState) (hfac : s.session.facility ≤ 0) :
    Issues receiveKinds s (stationButtons inp ui p el s) := by
  unfold stationButtons
  split_ifs
  · rw [txXcButtons_gated _ _ _ _ (by rw [rxSpButtons_facility]; exact hfac)]
    exact rxSpButtons_receive ui p el s
  · exact Issues.refl _ _

theorem staleLoop_receive (a : Adapter) (inp : FrameInput) (n i : Nat) (s : AppState)
    (hfac : s.session.facility ≤ 0) : Issues receiveKinds s (staleLoop a inp i n s) := by
  induction n generalizing i s with
  | zero => exact Issues.refl _ _
  | succ n ih =>
    have h1 : Issues receiveKinds s
        (if (inp.stationUi i).refreshTransceivers = true then
          call (ClientCall.FetchTransceiverInfo (inp.staleStation i false).callsign) s
        else s)
        ∧ (if (inp.stationUi i).refreshTransceivers = true then
            call (ClientCall.FetchTransceiverInfo (inp.staleStation i false).callsign) s
          else s).session.facility ≤ 0 := by
      split_ifs
      · exact ⟨issues_call _ _ (by simp [ClientCall.kind, receiveKinds]), hfac⟩
      · exact ⟨Issues.refl _ _, hfac⟩
    unfold staleLoop
    simp only []
    generalize (if (inp.stationUi i).refreshTransceivers = true then
        call (ClientCall.FetchTransceiverInfo (inp.staleStation i false).callsign) s
      else s) = s1 at h1 ⊢
    have h2 : Issues receiveKinds s1
        (if (inp.stationUi i).removeStation = true then
          removeStation (inp.staleStation i false) s1
        else s1)
        ∧ (if (inp.stationUi i).removeStation = true then
            removeStation (inp.staleStation i false) s1
          else s1).session.facility ≤ 0 := by
      split_ifs
      · exact ⟨⟨[ClientCall.RemoveFrequency (inp.staleStation i false).freq], rfl,
          by simp [ClientCall.kind, receiveKinds]⟩, h1.2⟩
      · exact ⟨Issues.refl _ _, h1.2⟩
    generalize (if (inp.stationUi i).removeStation = true then
        removeStation (inp.staleStation i false) s1
      else s1) = s2 at h2 ⊢
    have hf3 : ∀ (ui : StationUi) (p : Polled) (el : StationElement),
        (stationButtons inp ui p el s2).session.facility ≤ 0 := by
      intro ui p el
      rw [stationButtons_facility]
      exact h2.2
    exact h1.1.trans (h2.1.trans
      ((stationButtons_receive _ _ _ _ _ h2.2).trans (ih _ _ (hf3 _ _ _))))

theorem stationLoop_receive (a : Adapter) (inp : FrameInput) (todo : List StationElement)
    (i : Nat) (s : AppState) (hfac : s.session.facility ≤ 0) :
    Issues receiveKinds s (stationLoop a inp i todo s) := by
  induction todo generalizing i s with
  | nil => exact Issues.refl _ _
  | cons el rest ih =>
    have h1 : Issues receiveKinds s
        (if (inp.stationUi i).refreshTransceivers = true then
          call (ClientCall.FetchTransceiverInfo el.callsign) s
        else s)
        ∧ (if (inp.stationUi i).refreshTransceivers = true then
            call (ClientCall.FetchTransceiverInfo el.callsign) s
          else s).session.facility ≤ 0 := by
      split_ifs
      · exact ⟨issues_call _ _ (by simp [ClientCall.kind, receiveKinds]), hfac⟩
      · exact ⟨Issues.refl _ _, hfac⟩
    unfold stationLoop
    simp only []
    generalize (if (inp.stationUi i).refreshTransceivers = true then
        call (ClientCall.FetchTransceiverInfo el.callsign) s
      else s) = s1 at h1 ⊢
    generalize pollStation a s el = p
    by_cases hr : (inp.stationUi i).removeStation = true
    · rw [if_pos hr]
      have hrem : Issues receiveKinds s1 (removeStation el s1) :=
        ⟨[ClientCall.RemoveFrequency el.freq], rfl, by simp [ClientCall.kind, receiveKinds]⟩
      have hf2 : (removeStation el s1).session.facility ≤ 0 := h1.2
      have hf3 : (stationButtons inp (inp.stationUi i) p (inp.staleStation i true)
          (removeStation el s1)).session.facility ≤ 0 := by
        rw [stationButtons_facility]
        exact hf2
      exact h1.1.trans (hrem.trans
        ((stationButtons_receive _ _ _ _ _ hf2).trans (staleLoop_receive a inp _ _ _ hf3)))
    · rw [if_neg hr]
      have hf3 : (stationButtons inp (inp.stationUi i) p el s1).session.facility ≤ 0 := by
        rw [stationButtons_facility]
        exact h1.2
      exact h1.1.trans ((stationButtons_receive _ _ _ _ _ h1.2).trans (ih _ _ hf3))

theorem passBody_receive (U : Util) (a : Adapter) (inp : FrameInput) (sp : AppState)
    (hfac : sp.session.facility ≤ 0) : Issues receiveKinds sp (passBody U a inp sp) := by
  have hsub2 : ∀ k ∈ connectKinds ++ cleanupKinds, k ∈ receiveKinds := by decide
  have hsub3 : ∀ k ∈ topKinds, k ∈ receiveKinds := by decide
  unfold passBody
  simp only []
  have h1 := bootstrapStep_receive U a sp hfac
  have hf1 : (bootstrapStep U a sp).session.facility ≤ 0 := by
    rw [bootstrapStep_facility]
    exact hfac
  generalize bootstrapStep U a sp = s1 at h1 hf1 ⊢
  have h2 : Issues receiveKinds s1
      (if ctrls_cols inp ≥ 4 then connectControls a inp s1 else s1)
      ∧ (if ctrls_cols inp ≥ 4 then connectControls a inp s1 else s1).session.facility ≤ 0 := by
    split_ifs
    · exact ⟨(connectControls_issues a inp s1).mono hsub2, by
        rw [connectControls_facility]; exact hf1⟩
    · exact ⟨Issues.refl _ _, hf1⟩
  generalize (if ctrls_cols inp ≥ 4 then connectControls a inp s1 else s1) = s2 at h2 ⊢
  have h3 : Issues receiveKinds s2
      (if ctrls_cols inp ≥ 1 then topControls U a inp s2 else s2)
      ∧ (if ctrls_cols inp ≥ 1 then topControls U a inp s2 else s2).session.facility ≤ 0 := by
    split_ifs
    · exact ⟨(topControls_issues U a inp s2).mono hsub3, by
        rw [topControls_facility]; exact h2.2⟩
    · exact ⟨Issues.refl _ _, h2.2⟩
  generalize (if ctrls_cols inp ≥ 1 then topControls U a inp s2 else s2) = s3 at h3 ⊢
  have h4 : Issues receiveKinds s3
      (if (!inp.collapse) = true then stationLoop a inp 0 s3.FetchedStations s3 else s3) := by
    split_ifs
    · exact stationLoop_receive a inp _ _ s3 h3.2
    · exact Issues.refl _ _
  exact ((h1.trans h2.1).trans h3.1).trans h4

/-- C28. With the facility of the session not greater than 0, a coordination
pass issues no `SetTx` and no `SetXc` command, for any frequency and either
switch value; the commands of the bootstrap enable receive on the frequency of
the session and hold no `SetTx` and no `SetXc`; and the TX and XC buttons of a
station block, pressed or not, leave the state as it is, so no command is
issued for them. -/
theorem transmit_gated (U : Util) (a : Adapter) (inp : FrameInput) (s : AppState)
    (hfac : s.session.facility ≤ 0) :
    (∃ s1 issued, render_frame U (some a) inp s = some s1
      ∧ s1.calls = s.calls ++ issued
      ∧ (∀ c ∈ issued, c.kind ≠ CallKind.SetTx ∧ c.kind ≠ CallKind.SetXc)
      ∧ (∀ f b, ClientCall.SetTx f b ∉ issued ∧ ClientCall.SetXc f b ∉ issued))
    ∧ (∀ cs, ClientCall.SetRx s.session.frequency true ∈ bootstrapCalls s cs
        ∧ ∀ c ∈ bootstrapCalls s cs, c.kind ≠ CallKind.SetTx ∧ c.kind ≠ CallKind.SetXc)
    ∧ (∀ ui p el, txXcButtons ui p el s = s) := by
  have hno : ∀ k ∈ receiveKinds, k ≠ CallKind.SetTx ∧ k ≠ CallKind.SetXc := by decide
  refine ⟨?_, ?_, fun ui p el => txXcButtons_gated ui p el s hfac⟩
  · have hp := (pttStep_issues a inp s).mono
      (by decide : ∀ k ∈ [CallKind.SetPtt], k ∈ receiveKinds)
    have hf : (pttStep a inp s).session.facility ≤ 0 := by
      rw [pttStep_facility]
      exact hfac
    have hb := passBody_receive U a inp _ hf
    have ht : Issues receiveKinds (passBody U a inp (pttStep a inp s))
        (snapshotRebuild inp [] (modalTrigger (passBody U a inp (pttStep a inp s)))) :=
      Issues.of_calls_eq (by rw [snapshotRebuild_calls, modalTrigger_calls])
    obtain ⟨issued, he, hk⟩ := (hp.trans hb).trans ht
    refine ⟨_, issued, render_frame_body U a inp s, he, fun c hc => hno _ (hk c hc), ?_⟩
    intro f b
    constructor
    · intro hm
      exact (hno _ (hk _ hm)).1 rfl
    · intro hm
      exact (hno _ (hk _ hm)).2 rfl
  · intro cs
    refine ⟨?_, fun c hc => hno _ (bootstrapCalls_receive s cs hfac c hc)⟩
    simp [bootstrapCalls]

/-- Witness of C28: an observer (facility 0) presses TX and XC on the tower
station. -/
theorem transmit_gated_witness :
    observerState.session.facility ≤ 0
    ∧ (∃ s1 issued, render_frame sampleUtil (some engineOnline) txPressFrame observerState
          = some s1
        ∧ s1.calls = observerState.calls ++ issued
        ∧ (∀ f b, ClientCall.SetTx f b ∉ issued ∧ ClientCall.SetXc f b ∉ issued))
    ∧ txXcButtons (txPressFrame.stationUi 0)
        (pollStation engineOnline observerState towerStation) towerStation observerState
        = observerState := by
  have h := transmit_gated sampleUtil engineOnline txPressFrame observerState (by decide)
  obtain ⟨s1, issued, h1, h2, _, h4⟩ := h.1
  exact ⟨by decide, ⟨s1, issued, h1, h2, h4⟩, h.2.2 _ _ _⟩

/-- Support for C28: the pass in which TX and XC are pressed issues nothing
for an observer, and the two switch commands for a controller. -/
theorem tx_press_sample :
    (render_frame sampleUtil (some engineOnline) txPressFrame observerState).map
        (fun t => t.calls) = some []
    ∧ (render_frame sampleUtil (some engineOnline) txPressFrame towerState).map
        (fun t => t.calls)
      = some [ClientCall.SetTx 118700000 false, ClientCall.SetXc 118700000 true] := by
  constructor <;> decide

end VectorAudio
